import Mathlib

set_option maxRecDepth 100000
set_option maxHeartbeats 1000000
set_option allowUnsafeReducibility true

/- The Batteries `Rat` operations are `@[irreducible]`; the concrete
evaluations below need them to reduce. -/
attribute [semireducible] Rat.add Rat.mul Rat.sub Rat.div Rat.inv Rat.neg
  Rat.ofScientific

/-!
# Verification of the bank-statement extraction engine

Shallow embedding of `src/parsers/banamex_parser.py` and
`src/parsers/bbva_parser.py` (the layout-driven statement parsing engine),
together with theorems settling the frozen claims about the engine.

Modelling conventions:
* Python `float` values are modelled as rationals (`ℚ`); Python's decimal
  string-to-float conversion is modelled exactly on finite decimal literals
  (optional sign, digits, decimal point, optional exponent).  The special
  spellings `inf`/`nan`/`infinity` and underscore digit grouping accepted by
  Python's `float()` are treated as unparsable, and text is restricted to
  the character repertoire that actually occurs in these statements
  (ASCII plus the accented Spanish letters used by the parsers).
* A `pdfplumber` page is modelled by the data the engine actually reads
  from it: its height, the word lists returned by the two `extract_words`
  calls the parsers make, and the text returned by `extract_text`.
  These are inputs supplied by the external layout collaborator.
* Python regexes used through `re.search`/`re.fullmatch` are interpreted by
  a small backtracking regex engine (`Rx`) over explicit pattern ASTs, one
  AST per source pattern; the simple `^`-anchored `re.match`/`re.sub`
  patterns of the transaction-line scanners are translated to direct
  maximal-munch character functions (equivalent to the regexes because the
  fixed-count pieces of those patterns leave no backtracking choice).
-/

namespace Py

/-- ASCII decimal digit test (Python's `str.isdigit` restricted to ASCII,
which is the repertoire of these statements). -/
def isDigitCh (c : Char) : Bool := '0' ≤ c && c ≤ '9'

/-- Python whitespace for `str.strip`/`\s` (ASCII subset). -/
def isSpace (c : Char) : Bool :=
  c = ' ' || c = '\t' || c = '\n' || c = '\r' || c = '\x0b' || c = '\x0c'

/-- `str.upper` on one char, covering ASCII and the accented letters used in
the statements. -/
def upChar (c : Char) : Char :=
  if 'a' ≤ c && c ≤ 'z' then Char.ofNat (c.toNat - 32)
  else if c = 'á' then 'Á' else if c = 'é' then 'É' else if c = 'í' then 'Í'
  else if c = 'ó' then 'Ó' else if c = 'ú' then 'Ú' else if c = 'ñ' then 'Ñ'
  else if c = 'ü' then 'Ü' else c

/-- `str.lower` on one char, same repertoire as `upChar`. -/
def lowChar (c : Char) : Char :=
  if 'A' ≤ c && c ≤ 'Z' then Char.ofNat (c.toNat + 32)
  else if c = 'Á' then 'á' else if c = 'É' then 'é' else if c = 'Í' then 'í'
  else if c = 'Ó' then 'ó' else if c = 'Ú' then 'ú' else if c = 'Ñ' then 'ñ'
  else if c = 'Ü' then 'ü' else c

/-- Python `str.upper`. -/
def upper (s : String) : String := String.mk (s.data.map upChar)

/-- Python `str.lower`. -/
def lower (s : String) : String := String.mk (s.data.map lowChar)

/-- Python `str.strip()` (no argument): drop leading/trailing whitespace. -/
def strip (s : String) : String :=
  String.mk (((s.data.dropWhile isSpace).reverse.dropWhile isSpace).reverse)

/-- Python `str.rstrip(c)` for a single-character argument: drop every
trailing occurrence of `c`. -/
def rstripAll (s : String) (c : Char) : String :=
  String.mk ((s.data.reverse.dropWhile (· = c)).reverse)

/-- Python `str.isdigit()` (ASCII digits). -/
def isdigitStr (s : String) : Bool := s ≠ "" && s.data.all isDigitCh

/-- Python substring test `sub in hay`. -/
def containsSubL : List Char → List Char → Bool
  | hay, sub =>
    if sub.isPrefixOf hay then true
    else match hay with
      | [] => false
      | _ :: t => containsSubL t sub

/-- Python substring test `sub in hay` on strings. -/
def containsSub (hay sub : String) : Bool := containsSubL hay.data sub.data

/-- Python `str.split()` with no argument: maximal runs of non-whitespace. -/
def splitWs (s : String) : List String :=
  let step : Char → List (List Char) → List (List Char) := fun c acc =>
    if isSpace c then [] :: acc
    else match acc with
      | [] => [[c]]
      | w :: rest => (c :: w) :: rest
  ((s.data.foldr step []).filter (· ≠ [])).map String.mk

/-- Python `str.split(sep)` for a one-character separator. -/
def splitChar (sep : Char) (s : String) : List String :=
  let step : Char → List (List Char) → List (List Char) := fun c acc =>
    if c = sep then [] :: acc
    else match acc with
      | [] => [[c]]
      | w :: rest => (c :: w) :: rest
  (s.data.foldr step [[]]).map String.mk

/-- Python `str.endswith(suf)`. -/
def endsW (s suf : String) : Bool := suf.data.isSuffixOf s.data

/-- Tail of `pyReplace` (fuel bounds the scan; the pattern is nonempty at
every call site, so `hay.length` fuel suffices). -/
def replaceGo (pat rep : List Char) : Nat → List Char → List Char
  | 0, hay => hay
  | _, [] => []
  | f + 1, c :: t =>
    if pat ≠ [] && pat.isPrefixOf (c :: t) then
      rep ++ replaceGo pat rep f ((c :: t).drop pat.length)
    else c :: replaceGo pat rep f t

/-- Python `str.replace(pat, rep)`: all occurrences, left to right,
non-overlapping. -/
def pyReplace (s pat rep : String) : String :=
  String.mk (replaceGo pat.data rep.data s.data.length s.data)

/-- Python `str.zfill(w)`. -/
def zfill (s : String) (w : Nat) : String :=
  if w ≤ s.length then s
  else match s.data with
    | c :: rest =>
      if c = '+' || c = '-' then
        String.mk (c :: (List.replicate (w - s.length) '0' ++ rest))
      else String.mk (List.replicate (w - s.length) '0' ++ s.data)
    | [] => String.mk (List.replicate w '0')

/-- Python `str.splitlines()` restricted to `\n` separators (the only line
separator occurring in extracted statement text). -/
def splitlines (s : String) : List String :=
  if s = "" then []
  else if endsW s "\n" then (splitChar '\n' s).dropLast
  else splitChar '\n' s

/-- Python `sep.join(parts)`. -/
def joinSep (sep : String) : List String → String
  | [] => ""
  | x :: xs => xs.foldl (fun acc y => acc ++ sep ++ y) x

/-- Numeric value of a list of ASCII digit characters (most significant
first), as used by Python `int()` on a digit string. -/
def digitsVal (cs : List Char) : Nat :=
  cs.foldl (fun a c => a * 10 + (c.toNat - 48)) 0

/-- Python `int()` on a string already known to consist of digits. -/
def intOfDigits (s : String) : Nat := digitsVal s.data

/-! ## The Python `float()` model

`pyFloat?` models Python's `float(str)` conversion on finite decimal
literals: optional surrounding whitespace, an optional sign, a mantissa
(`digits`, `digits.digits?` or `.digits`), and an optional exponent part
(`e`/`E`, optional sign, digits).  It returns `none` exactly where
`float()` raises `ValueError` (up to the conventions stated at the top of
this file). -/

/-- Leading sign: returns (negative?, rest). -/
def takeSign : List Char → Bool × List Char
  | '+' :: r => (false, r)
  | '-' :: r => (true, r)
  | cs => (false, cs)

/-- Mantissa of a decimal literal: returns its value and the remaining
characters, or `none` if no digit is present where required. -/
def mantissa? (cs : List Char) : Option (ℚ × List Char) :=
  let p1 := cs.span isDigitCh
  match p1.2 with
  | '.' :: r2 =>
    let p2 := r2.span isDigitCh
    if p1.1.isEmpty && p2.1.isEmpty then none
    else some ((digitsVal p1.1 : ℚ) + (digitsVal p2.1 : ℚ) / (10 : ℚ) ^ p2.1.length, p2.2)
  | _ => if p1.1.isEmpty then none else some ((digitsVal p1.1 : ℚ), p1.2)

/-- Exponent suffix: given the characters following the mantissa, returns
the scale factor, or `none` if they are not a valid (possibly empty)
exponent part consuming the whole rest. -/
def expScale? (cs : List Char) : Option ℚ :=
  match cs with
  | [] => some 1
  | c :: r =>
    if c = 'e' || c = 'E' then
      let sg := takeSign r
      let p := sg.2.span isDigitCh
      if p.1.isEmpty || !p.2.isEmpty then none
      else if sg.1 then some (((10 : ℚ) ^ digitsVal p.1)⁻¹)
      else some ((10 : ℚ) ^ digitsVal p.1)
    else none

/-- Python `float(s)` on finite decimal literals (see module docstring);
`none` models `ValueError`. -/
def pyFloat? (s : String) : Option ℚ :=
  let cs := (s.data.dropWhile isSpace).reverse.dropWhile isSpace |>.reverse
  let sg := takeSign cs
  match mantissa? sg.2 with
  | none => none
  | some (m, r) =>
    match expScale? r with
    | none => none
    | some k => some ((if sg.1 then -m else m) * k)

end Py

/-! ## Amount normalizers (source: `banamex_parser.py` and `bbva_parser.py`) -/

namespace Banamex

/-- `banamex_parser._parse_amount_token`: normalizes a token such as
`'1,600.00'` or `'62.18-'` to a value (negative when a trailing `-` is
present); an unparsable remainder yields `0.0`. -/
def _parse_amount_token (tok : String) : ℚ :=
  let t := Py.strip tok
  let neg := Py.endsW t "-"
  let t2 := Py.pyReplace (Py.rstripAll t '-') "," ""
  let v := (Py.pyFloat? t2).getD 0
  if neg then -v else v

/-- `banamex_parser._clean_amount`: `None`/empty input yields `0.0`,
otherwise `$` and `,` are stripped and the result converted with
`float()`, with `ValueError` mapped to `0.0`. -/
def _clean_amount (text : Option String) : ℚ :=
  match text with
  | none => 0
  | some t =>
    if Py.strip t = "" then 0
    else (Py.pyFloat? (Py.strip (Py.pyReplace (Py.pyReplace t "$" "") "," ""))).getD 0

end Banamex

namespace BBVA

/-- `bbva_parser._clean_amount`: like the Banamex version but without the
`$` stripping. -/
def _clean_amount (text : Option String) : ℚ :=
  match text with
  | none => 0
  | some t =>
    if Py.strip t = "" then 0
    else (Py.pyFloat? (Py.strip (Py.pyReplace t "," ""))).getD 0

end BBVA

example : Banamex._parse_amount_token "1,600.00" = 1600 := by decide
example : Banamex._parse_amount_token "62.18-" = -(6218/100 : ℚ) := by decide
example : Banamex._parse_amount_token "(50.00)" = 0 := by decide
example : Banamex._parse_amount_token "" = 0 := by decide
example : BBVA._clean_amount (some "1,600.00") = 1600 := by decide
example : BBVA._clean_amount (some "62.18-") = 0 := by decide
example : Banamex._clean_amount (some "$1,600.00") = 1600 := by decide
example : Py.pyFloat? "-50.00" = some (-50) := by decide
example : Py.pyFloat? "1e2" = some 100 := by decide
example : Py.pyFloat? "1E-2" = some (1/100) := by decide
example : Py.pyFloat? ".5" = some (1/2) := by decide
example : Py.pyFloat? "abc" = none := by decide
example : Py.upper "1 ene" = "1 ENE" := by decide
example : Py.splitWs "  a  bb " = ["a", "bb"] := by decide
example : Py.zfill "5" 2 = "05" := by decide

/-! ## A small backtracking regex engine

Interprets the `re` patterns used by the parsers.  Results are produced in
Python's backtracking priority order (alternation: left first; greedy
quantifiers: longest first; lazy quantifiers: shortest first), and
`research` scans candidate start positions left to right, so the first
result agrees with Python's `re.search`/`re.match`.  Recursion is
structural on a fuel argument chosen large enough for the pattern shapes
used here (no unbounded quantifier is nested inside another unbounded
quantifier in any of the source patterns, so every unbounded iteration
consumes at least one character). -/

namespace Rx

/-- Word character for `\w`/`\b` (`re.UNICODE` on the statement
repertoire: ASCII alphanumerics, underscore, accented Spanish letters). -/
def isWordCh (c : Char) : Bool :=
  ('a' ≤ c && c ≤ 'z') || ('A' ≤ c && c ≤ 'Z') || Py.isDigitCh c || c = '_' ||
  c = 'á' || c = 'é' || c = 'í' || c = 'ó' || c = 'ú' || c = 'ñ' || c = 'ü' ||
  c = 'Á' || c = 'É' || c = 'Í' || c = 'Ó' || c = 'Ú' || c = 'Ñ' || c = 'Ü'

/-- One item of a character class. -/
inductive CItem where
  | ch (c : Char)
  | range (lo hi : Char)
  | digit
  | space
  | wordc
deriving Repr, DecidableEq

def citemTest : CItem → Char → Bool
  | .ch d, c => c = d
  | .range lo hi, c => lo ≤ c && c ≤ hi
  | .digit, c => Py.isDigitCh c
  | .space, c => Py.isSpace c
  | .wordc, c => isWordCh c

/-- A single-character pattern: literal, `.`, or a (possibly negated)
character class. -/
inductive CP where
  | lit (c : Char)
  | dot
  | cls (neg : Bool) (items : List CItem)
deriving Repr, DecidableEq

/-- Does character `c` match the single-character pattern, under the
`re.IGNORECASE` (`ci`) and `re.DOTALL` (`dotAll`) flags? -/
def cpTest (ci dotAll : Bool) (p : CP) (c : Char) : Bool :=
  match p with
  | .lit d => if ci then Py.lowChar c = Py.lowChar d else c = d
  | .dot => dotAll || c ≠ '\n'
  | .cls neg items =>
    let inSet :=
      if ci then
        items.any (fun it =>
          citemTest it c || citemTest it (Py.lowChar c) || citemTest it (Py.upChar c))
      else items.any (citemTest · c)
    neg ≠ inSet

/-- Regex AST.  `star` is an unbounded quantifier, `repN lo hi` a bounded
counted one; `lazy` selects shortest-first priority. -/
inductive Re where
  | eps
  | cp (p : CP)
  | seq (a b : Re)
  | alt (a b : Re)
  | star (lazy : Bool) (r : Re)
  | repN (lo hi : Nat) (lazy : Bool) (r : Re)
  | grp (i : Nat) (r : Re)
  | bos
  | eos
  | wordb
deriving Repr, DecidableEq

/-- Matcher state: current position and captures (most recent first). -/
structure MSt where
  pos : Nat
  caps : List (Nat × Nat × Nat)
deriving Repr, DecidableEq

/-- Word-boundary test at a position (Python `\b`). -/
def atWordB (t : List Char) (pos : Nat) : Bool :=
  let before :=
    if pos = 0 then false
    else match t.get? (pos - 1) with
      | some c => isWordCh c
      | none => false
  let after :=
    match t.get? pos with
    | some c => isWordCh c
    | none => false
  before ≠ after

/-- All ways the pattern can match starting at the given state, in
backtracking priority order (each result: final state). -/
def mrun (ci dotAll : Bool) (t : List Char) : Nat → Re → MSt → List MSt
  | 0, _, _ => []
  | f + 1, re, st =>
    match re with
    | .eps => [st]
    | .cp p =>
      match t.get? st.pos with
      | some c => if cpTest ci dotAll p c then [⟨st.pos + 1, st.caps⟩] else []
      | none => []
    | .seq a b => (mrun ci dotAll t f a st).flatMap (fun st' => mrun ci dotAll t f b st')
    | .alt a b => mrun ci dotAll t f a st ++ mrun ci dotAll t f b st
    | .grp i r =>
      (mrun ci dotAll t f r st).map (fun st' => ⟨st'.pos, (i, st.pos, st'.pos) :: st'.caps⟩)
    | .star lz r =>
      let rest := (mrun ci dotAll t f r st).flatMap
        (fun st' => if st.pos < st'.pos then mrun ci dotAll t f (.star lz r) st' else [])
      if lz then st :: rest else rest ++ [st]
    | .repN lo hi lz r =>
      if hi = 0 then [st]
      else if 0 < lo then
        (mrun ci dotAll t f r st).flatMap
          (fun st' => mrun ci dotAll t f (.repN (lo - 1) (hi - 1) lz r) st')
      else
        let rest := (mrun ci dotAll t f r st).flatMap
          (fun st' => mrun ci dotAll t f (.repN 0 (hi - 1) lz r) st')
        if lz then st :: rest else rest ++ [st]
    | .bos => if st.pos = 0 then [st] else []
    | .eos =>
      if st.pos = t.length || (st.pos + 1 = t.length && t.get? st.pos = some '\n')
      then [st] else []
    | .wordb => if atWordB t st.pos then [st] else []

/-- Size measure used to pick an adequate fuel. -/
def reSize : Re → Nat
  | .eps => 1
  | .cp _ => 1
  | .seq a b => reSize a + reSize b + 1
  | .alt a b => reSize a + reSize b + 1
  | .star _ r => reSize r + 1
  | .repN _ hi _ r => hi * (reSize r + 1) + 1
  | .grp _ r => reSize r + 1
  | .bos => 1
  | .eos => 1
  | .wordb => 1

/-- Fuel sufficient for the pattern shapes used in this development. -/
def fuelFor (re : Re) (t : List Char) : Nat :=
  (t.length + 2) * (reSize re + 2) + 1000

/-- A match object: matched span and captures over the original text. -/
structure RMatch where
  text : List Char
  startPos : Nat
  stopPos : Nat
  caps : List (Nat × Nat × Nat)
deriving Repr, DecidableEq

/-- Python `m.group(i)` (None for a non-participating group). -/
def RMatch.group? (m : RMatch) (i : Nat) : Option String :=
  match m.caps.find? (fun x => x.1 = i) with
  | some (_, a, b) => some (String.mk ((m.text.drop a).take (b - a)))
  | none => none

/-- `m.group(i)` where the pattern guarantees the group participates. -/
def RMatch.grp (m : RMatch) (i : Nat) : String := (m.group? i).getD ""

/-- The highest-priority match starting exactly at position `i`. -/
def mfirst (ci dotAll : Bool) (re : Re) (t : List Char) (i : Nat) : Option RMatch :=
  match (mrun ci dotAll t (fuelFor re t) re ⟨i, []⟩).head? with
  | some st => some ⟨t, i, st.pos, st.caps⟩
  | none => none

/-- Scan start positions left to right for the leftmost match; the first
argument (structural fuel) is the number of start positions left to try. -/
def searchAux (ci dotAll : Bool) (re : Re) (t : List Char) : Nat → Nat → Option RMatch
  | 0, _ => none
  | f + 1, i =>
    match mfirst ci dotAll re t i with
    | some m => some m
    | none => searchAux ci dotAll re t f (i + 1)

/-- Python `re.search(pattern, s)`. -/
def research (ci dotAll : Bool) (re : Re) (s : String) : Option RMatch :=
  searchAux ci dotAll re s.data (s.data.length + 1) 0

/-- Python `re.match(pattern, s)` (anchored at the start only). -/
def rematch (ci dotAll : Bool) (re : Re) (s : String) : Option RMatch :=
  mfirst ci dotAll re s.data 0

/-- Python `re.fullmatch(pattern, s)` as a Boolean (no groups needed by
the callers here). -/
def refullmatch (ci : Bool) (re : Re) (s : String) : Bool :=
  (mrun ci false s.data (fuelFor re s.data) re ⟨0, []⟩).any
    (fun st => st.pos = s.data.length)

/-! Pattern constructors. -/

def rlit1 (c : Char) : Re := .cp (.lit c)

/-- Literal string pattern. -/
def rstr (s : String) : Re := (s.data.map rlit1).foldr .seq .eps

/-- Sequential composition of a list of patterns. -/
def rcat (l : List Re) : Re := l.foldr .seq .eps

def rd : Re := .cp (.cls false [.digit])
def rw : Re := .cp (.cls false [.wordc])
def rsp : Re := .cp (.cls false [.space])
def rnd : Re := .cp (.cls true [.digit])
def rdot : Re := .cp .dot
def rcls (items : List CItem) : Re := .cp (.cls false items)
def rncls (items : List CItem) : Re := .cp (.cls true items)
def rstar (r : Re) : Re := .star false r
def rstarL (r : Re) : Re := .star true r
def rplus (r : Re) : Re := .seq r (.star false r)
def ropt (r : Re) : Re := .repN 0 1 false r
def rrep (lo hi : Nat) (r : Re) : Re := .repN lo hi false r
def rexact (n : Nat) (r : Re) : Re := .repN n n false r
def ratleast (n : Nat) (r : Re) : Re := .seq (.repN n n false r) (.star false r)
def rgrp (i : Nat) (r : Re) : Re := .grp i r

end Rx

example :
    (Rx.research true false
      (Rx.rcat [Rx.rstr "CLABE Interbancaria", Rx.rplus Rx.rsp,
        Rx.rgrp 1 (Rx.rexact 18 (Rx.rcls [.range '0' '9']))])
      "x CLABE interbancaria 012345678901234567 y").map (fun m => m.grp 1)
    = some "012345678901234567" := by decide

example :
    (Rx.rematch false false (Rx.rcat [Rx.rgrp 1 (Rx.rcat [Rx.rlit1 '$',
      Rx.ropt (Rx.rlit1 ' '), Rx.ropt (Rx.rlit1 '-'), Rx.rrep 1 3 Rx.rd,
      Rx.rstar (Rx.rcat [Rx.rlit1 ',', Rx.rexact 3 Rx.rd]),
      Rx.ropt (Rx.rcat [Rx.rlit1 '.', Rx.rexact 2 Rx.rd])]), Rx.Re.eos])
      "$1,600.00").map (fun m => m.grp 1) = some "$1,600.00" := by
  decide

example :
    Rx.research false false (Rx.rcat [Rx.rstr "PAGINA ", Rx.rplus Rx.rd,
      Rx.rstr " / ", Rx.rplus Rx.rd]) "zz PAGINA 3 / 12 zz" ≠ none := by
  decide

/-! ## Data model

A `Word` is one positioned text fragment as returned by pdfplumber's
`extract_words` (`text`, `x0`, `x1`, `top`).  A `Page` carries the data the
parsers read from a pdfplumber page: its `height`, the word lists produced
by the two `extract_words` calls the parsers make (`wordsT2` for
`x_tolerance=2, y_tolerance=2`; `wordsT3` for `x_tolerance=2,
y_tolerance=3`), and the text produced by `extract_text`.  All of these are
inputs supplied by the external layout provider; a document (`pdf.pages`)
is the list of its pages. -/

structure Word where
  text : String
  x0 : ℚ
  x1 : ℚ
  top : ℚ
deriving Repr, DecidableEq

structure Page where
  height : ℚ
  wordsT2 : List Word
  wordsT3 : List Word
  text : String
deriving Repr, DecidableEq

/-- One emitted transaction dictionary.  `Fecha` is optional because the
Banamex parser stores `None` for an unparsable date; the Banamex
transaction dict has no `"Banco"` key, modelled as `none`. -/
structure Tx where
  Fecha : Option String
  Descripcion : String
  Retiro : ℚ
  Deposito : ℚ
  Saldo : ℚ
  Banco : Option String
deriving Repr, DecidableEq

/-- The result dictionary shared by both dialects' `parse`. -/
structure StatementResult where
  clabe_interbancaria : Option String
  rfc : Option String
  nom_cliente : Option String
  num_cuenta : Option String
  periodo_inicial : Option String
  periodo_final : Option String
  saldo_inicial : ℚ
  saldo_final : ℚ
  total_importe_cargos : ℚ
  total_movimientos_cargo : Nat
  total_importe_abonos : ℚ
  total_movimientos_abono : Nat
  movimientos : List Tx
deriving Repr, DecidableEq

/-- Python `" ".join(parts)`. -/
def joinSp : List String → String
  | [] => ""
  | x :: xs => xs.foldl (fun acc y => acc ++ " " ++ y) x

/-- The text of a grouped line: `" ".join(w['text'] for w in line_words)`. -/
def lineText (l : List Word) : String := joinSp (l.map Word.text)

/-! ## Calendar helpers (model of `datetime.strptime`/`strftime`) -/

namespace Cal

def isLeap (y : Nat) : Bool := (y % 4 = 0 && y % 100 ≠ 0) || y % 400 = 0

def daysInMonth (y m : Nat) : Nat :=
  if m = 2 then (if isLeap y then 29 else 28)
  else if m = 4 || m = 6 || m = 9 || m = 11 then 30
  else 31

/-- Validity check performed by `datetime.strptime` on a parsed
(year, month, day) triple. -/
def validDate (y m d : Nat) : Bool :=
  1 ≤ m && m ≤ 12 && 1 ≤ d && d ≤ daysInMonth y m && 1 ≤ y && y ≤ 9999

/-- Zero-pad a number to two digits (`%02d`, `%m`, `%d`). -/
def pad2 (n : Nat) : String := if n < 10 then "0" ++ toString n else toString n

/-- Zero-pad a year to four digits (`%Y` output). -/
def pad4 (n : Nat) : String :=
  if n < 10 then "000" ++ toString n
  else if n < 100 then "00" ++ toString n
  else if n < 1000 then "0" ++ toString n
  else toString n

/-- `datetime.strftime('%Y-%m-%d')` on a (year, month, day) triple. -/
def isoOf (y m d : Nat) : String := pad4 y ++ "-" ++ pad2 m ++ "-" ++ pad2 d

/-- Parse `1`–`maxLen` leading digits; returns value, count and rest. -/
def takeDigits (maxLen : Nat) (cs : List Char) : Option (Nat × List Char) :=
  let run := cs.takeWhile Py.isDigitCh
  if run.length = 0 || maxLen < run.length then none
  else some (Py.digitsVal run, cs.drop run.length)

/-- `datetime.strptime(s, '%Y-%m-%d')`, returning the (y, m, d) triple;
`none` models `ValueError`.  (As in Python, each numeric field matches a
maximal digit run of bounded length and the whole string must be
consumed.) -/
def strptimeYmd (s : String) : Option (Nat × Nat × Nat) :=
  match takeDigits 4 s.data with
  | some (y, '-' :: r1) =>
    match takeDigits 2 r1 with
    | some (m, '-' :: r2) =>
      match takeDigits 2 r2 with
      | some (d, []) => if validDate y m d then some (y, m, d) else none
      | _ => none
    | _ => none
  | _ => none

/-- English month abbreviations accepted by `strptime`'s `%b` (matched
case-insensitively). -/
def enMonth? (s : String) : Option Nat :=
  (([("JAN", 1), ("FEB", 2), ("MAR", 3), ("APR", 4), ("MAY", 5), ("JUN", 6),
     ("JUL", 7), ("AUG", 8), ("SEP", 9), ("OCT", 10), ("NOV", 11),
     ("DEC", 12)] : List (String × Nat)).find?
    (fun kv => kv.1 = Py.upper s)).map (·.2)

/-- `datetime.strptime(s, '%d/%b/%Y').strftime('%Y-%m-%d')`;
`none` models `ValueError`. -/
def strptimeDbY (s : String) : Option String :=
  match takeDigits 2 s.data with
  | some (d, '/' :: r1) =>
    let mon := r1.takeWhile (fun c => !Py.isDigitCh c && c ≠ '/')
    match enMonth? (String.mk mon) with
    | some m =>
      match r1.drop mon.length with
      | '/' :: r2 =>
        match takeDigits 4 r2 with
        | some (y, []) => if validDate y m d then some (isoOf y m d) else none
        | _ => none
      | _ => none
    | none => none
  | _ => none

/-- Two-digit-year pivot used by `strptime`'s `%y`. -/
def pivotY (yy : Nat) : Nat := if yy ≤ 68 then 2000 + yy else 1900 + yy

/-- `datetime.strptime(s, '%d-%m-%Y').strftime('%Y-%m-%d')`;
`none` models `ValueError`. -/
def strptimeDmY (s : String) : Option String :=
  match takeDigits 2 s.data with
  | some (d, '-' :: r1) =>
    match takeDigits 2 r1 with
    | some (m, '-' :: r2) =>
      match takeDigits 4 r2 with
      | some (y, []) => if validDate y m d then some (isoOf y m d) else none
      | _ => none
    | _ => none
  | _ => none

/-- `datetime.strptime(s, '%d-%m-%y').strftime('%Y-%m-%d')`;
`none` models `ValueError`. -/
def strptimeDmy2 (s : String) : Option String :=
  match takeDigits 2 s.data with
  | some (d, '-' :: r1) =>
    match takeDigits 2 r1 with
    | some (m, '-' :: r2) =>
      match takeDigits 2 r2 with
      | some (yy, []) =>
        if validDate (pivotY yy) m d then some (isoOf (pivotY yy) m d) else none
      | _ => none
    | _ => none
  | _ => none

/-- `datetime.strptime(s, '%d/%m/%y').strftime('%Y-%m-%d')`;
`none` models `ValueError`. -/
def strptimeDslashMy (s : String) : Option String :=
  match takeDigits 2 s.data with
  | some (d, '/' :: r1) =>
    match takeDigits 2 r1 with
    | some (m, '/' :: r2) =>
      match takeDigits 2 r2 with
      | some (yy, []) =>
        if validDate (pivotY yy) m d then some (isoOf (pivotY yy) m d) else none
      | _ => none
    | _ => none
  | _ => none

end Cal

example : Cal.strptimeYmd "2025-04-13" = some (2025, 4, 13) := by
  decide
example : Cal.strptimeYmd "2025-04-99" = none := by decide
example : Cal.strptimeDbY "01/FEB/2025" = some "2025-02-01" := by
  decide
example : Cal.strptimeDbY "01/ENE/2025" = none := by decide
example : Cal.strptimeDmY "13-04-2025" = some "2025-04-13" := by
  decide
example : Cal.strptimeDslashMy "03/02/24" = some "2024-02-03" := by
  decide

/-! ## Banamex parser (`src/parsers/banamex_parser.py`) -/

namespace Banamex

/-- `banamex_parser.MONTH_MAP` (insertion order matters: the date
normalizer replaces the first key found as a substring and stops). -/
def MONTH_MAP : List (String × String) :=
  [("ENE", "01"), ("FEB", "02"), ("MAR", "03"), ("ABR", "04"), ("MAY", "05"),
   ("JUN", "06"), ("JUL", "07"), ("AGO", "08"), ("SEP", "09"), ("OCT", "10"),
   ("NOV", "11"), ("DIC", "12"),
   ("ENERO", "01"), ("FEBRERO", "02"), ("MARZO", "03"), ("ABRIL", "04"),
   ("MAYO", "05"), ("JUNIO", "06"), ("JULIO", "07"), ("AGOSTO", "08"),
   ("SEPTIEMBRE", "09"), ("OCTUBRE", "10"), ("NOVIEMBRE", "11"),
   ("DICIEMBRE", "12")]

/-- The `for month_es, month_num in MONTH_MAP.items(): … break` loop of
`_format_date_banamex`: replace all occurrences of the first month name
found as a substring, then stop. -/
def replaceFirstMonth : List (String × String) → String → String
  | [], s => s
  | (k, v) :: rest, s =>
    if Py.containsSub s k then Py.pyReplace s k v else replaceFirstMonth rest s

/-- `banamex_parser._format_date_banamex(date_str, year)`. -/
def _format_date_banamex (date_str year : String) : Option String :=
  if date_str = "" then none
  else
    let clean0 := Py.pyReplace (Py.upper date_str) " DE " " "
    let clean1 := replaceFirstMonth MONTH_MAP clean0
    match Py.splitWs clean1 with
    | p0 :: p1 :: rest =>
      if Py.isdigitStr p0 && Py.isdigitStr p1 then
        let eff := match rest with
          | p2 :: _ => if Py.isdigitStr p2 then p2 else year
          | [] => year
        some (eff ++ "-" ++ Py.zfill p1 2 ++ "-" ++ Py.zfill p0 2)
      else none
    | _ => none

/-- Column boundaries resolved on a Banamex page: `retiro` and `deposito`
are guaranteed by `find_column_boundaries`; `saldo` is optional. -/
structure Cols where
  retiro : ℚ × ℚ
  deposito : ℚ × ℚ
  saldo : Option (ℚ × ℚ)
deriving Repr, DecidableEq

/-- Intermediate `boundaries` dict while scanning header words. -/
structure BDict where
  retiro : Option (ℚ × ℚ)
  deposito : Option (ℚ × ℚ)
  saldo : Option (ℚ × ℚ)
deriving Repr, DecidableEq

/-- One step of the header-word loop of
`banamex_parser.find_column_boundaries`. -/
def boundStep (b : BDict) (w : Word) : BDict :=
  let text := (Py.upper w.text).data
  if "RETIRO".data.isPrefixOf text then { b with retiro := some (w.x0, w.x1) }
  else if "DEPOSITO".data.isPrefixOf text || "DEPÓSITO".data.isPrefixOf text then
    { b with deposito := some (w.x0, w.x1) }
  else if "SALDO".data.isPrefixOf text then { b with saldo := some (w.x0, w.x1) }
  else b

/-- `banamex_parser.find_column_boundaries`: scan words in the upper half
of the page for header labels; succeed only when both `retiro` and
`deposito` resolved. -/
def find_column_boundaries (page : Page) : Option Cols :=
  let header_candidates := page.wordsT2.filter (fun w => w.top < page.height * (1/2))
  let b := header_candidates.foldl boundStep ⟨none, none, none⟩
  match b.retiro, b.deposito with
  | some r, some d => some ⟨r, d, b.saldo⟩
  | _, _ => none

/-- Sort a finished line left-to-right: `sorted(current_line, key=λw: w['x0'])`
(Python's sort is stable, as is `List.mergeSort`). -/
def sortLine (l : List Word) : List Word :=
  l.mergeSort (fun a b => decide (a.x0 ≤ b.x0))

/-- Tail of the grouping loop: `curRev` is the current line in reverse
(so its head is `current_line[-1]`). -/
def groupGo (tol : ℚ) : List Word → List Word → List (List Word)
  | [], curRev => [sortLine curRev.reverse]
  | w :: ws, curRev =>
    match curRev with
    | last :: _ =>
      if |w.top - last.top| ≤ tol then groupGo tol ws (w :: curRev)
      else sortLine curRev.reverse :: groupGo tol ws [w]
    | [] => groupGo tol ws [w]

/-- `banamex_parser.group_words_into_lines(words, tolerance=3)` (both
call sites use the default tolerance). -/
def group_words_into_lines (words : List Word) : List (List Word) :=
  match words with
  | [] => []
  | w :: ws => groupGo 3 ws [w]

/-- `re.match(r"^\d{1,2}\s+[A-Z]{3}", s)` and (same shape, with groups)
`re.match(r"(\d{1,2})\s+([A-Z]{3})", s)`: an anchored maximal-munch
translation (the counted pieces admit no backtracking: a digit can never
match `\s`, nor a space `[A-Z]`), returning the two groups. -/
def matchDayMon3 (s : String) : Option (String × String) :=
  let cs := s.data
  let d := cs.takeWhile Py.isDigitCh
  if d.length = 0 || 2 < d.length then none
  else
    let r1 := cs.drop d.length
    let sp := r1.takeWhile Py.isSpace
    if sp.length = 0 then none
    else
      match r1.drop sp.length with
      | a :: b :: c :: _ =>
        if ('A' ≤ a && a ≤ 'Z') && ('A' ≤ b && b ≤ 'Z') && ('A' ≤ c && c ≤ 'Z')
        then some (String.mk d, String.mk [a, b, c])
        else none
      | _ => none

/-- `re.sub(r"^\d{1,2}\s+[A-Z]{3}\s+", "", s)`: remove the anchored match
(if any) from the front. -/
def stripDayMon3 (s : String) : String :=
  let cs := s.data
  let d := cs.takeWhile Py.isDigitCh
  if d.length = 0 || 2 < d.length then s
  else
    let r1 := cs.drop d.length
    let sp := r1.takeWhile Py.isSpace
    if sp.length = 0 then s
    else
      match r1.drop sp.length with
      | a :: b :: c :: r3 =>
        if ('A' ≤ a && a ≤ 'Z') && ('A' ≤ b && b ≤ 'Z') && ('A' ≤ c && c ≤ 'Z')
        then
          let sp2 := r3.takeWhile Py.isSpace
          if sp2.length = 0 then s else String.mk (r3.drop sp2.length)
        else s
      | _ => s

/-- Stop markers of the transaction section
(`parse_transactions`, applied to the upper-cased line text). -/
def isStopLine (u : String) : Bool :=
  Py.containsSub u "SALDO MINIMO REQUERIDO" ||
  Py.containsSub u "RESUMEN OPERACIONES TARJETA" ||
  Py.containsSub u "GLOSARIO"

/-- State of the block-collection phase of `parse_transactions`:
`inSec` is `in_tx_section`, `cur` is `current_block` (in order),
`blocks` the collected `transaction_blocks` (in order). -/
structure ScanSt where
  inSec : Bool
  cur : List (List Word)
  blocks : List (List (List Word))
deriving Repr, DecidableEq

/-- The per-page line loop of `parse_transactions` (stopping the loop —
`break` — when a stop marker is met inside the section). -/
def scanLines : ScanSt → List (List Word) → ScanSt
  | st, [] => st
  | st, lw :: rest =>
    let u := Py.upper (lineText lw)
    let st1 := if Py.containsSub u "DETALLE DE OPERACIONES" then { st with inSec := true } else st
    if !st1.inSec then scanLines st1 rest
    else if isStopLine u then { st1 with inSec := false }
    else if (matchDayMon3 u).isSome then
      if st1.cur ≠ [] then
        scanLines { inSec := st1.inSec, cur := [lw], blocks := st1.blocks ++ [st1.cur] } rest
      else scanLines { st1 with cur := [lw] } rest
    else if st1.cur ≠ [] then scanLines { st1 with cur := st1.cur ++ [lw] } rest
    else scanLines st1 rest

/-- `float(word_text.replace(',', ''))` succeeds? (the `is_numeric` check
of `parse_transactions`). -/
def wordIsNumeric (w : Word) : Bool :=
  (Py.pyFloat? (Py.pyReplace w.text "," "")).isSome

/-- Accumulator of the word-classification loop over a block. -/
structure Amts where
  retiro : ℚ
  deposito : ℚ
  saldo : ℚ
  descParts : List String
deriving Repr, DecidableEq

/-- One step of the word-classification loop of `parse_transactions`:
numeric words inside the `retiro`/`deposito` windows accumulate by `+=`,
a numeric word inside the (optional) `saldo` window overwrites `saldo`,
everything else joins the description. -/
def classifyWord (cb : Cols) (a : Amts) (w : Word) : Amts :=
  let cx := (w.x0 + w.x1) / 2
  if wordIsNumeric w then
    if cb.retiro.1 - 20 ≤ cx && cx ≤ cb.retiro.2 + 20 then
      { a with retiro := a.retiro + _clean_amount (some w.text) }
    else if cb.deposito.1 - 20 ≤ cx && cx ≤ cb.deposito.2 + 20 then
      { a with deposito := a.deposito + _clean_amount (some w.text) }
    else
      match cb.saldo with
      | some sb =>
        if sb.1 - 20 ≤ cx && cx ≤ sb.2 + 20 then
          { a with saldo := _clean_amount (some w.text) }
        else { a with descParts := a.descParts ++ [w.text] }
      | none => { a with descParts := a.descParts ++ [w.text] }
  else { a with descParts := a.descParts ++ [w.text] }

/-- Finalization of one collected block by `parse_transactions`: date from
the first line, word classification, description cleanup, and the guard
`if clean_desc or (retiro > 0 or deposito > 0)`. -/
def finalizeBlock (cb : Cols) (year : String) (block : List (List Word)) : Option Tx :=
  let first_line_text := lineText (block.headD [])
  match matchDayMon3 (Py.upper first_line_text) with
  | none => none
  | some (day, month_str) =>
    let date := _format_date_banamex (day ++ " " ++ month_str) year
    let a := (block.flatMap id).foldl (classifyWord cb) ⟨0, 0, 0, []⟩
    let clean_desc := Py.strip (stripDayMon3 (joinSp a.descParts))
    if clean_desc ≠ "" || (a.retiro > 0 || a.deposito > 0) then
      some ⟨date, clean_desc, a.retiro, a.deposito, a.saldo, none⟩
    else none

/-- The page loop of `parse_transactions`: resolve (and cache) column
boundaries, then feed the page's grouped lines to the scanner. -/
def pageStep (st : Option Cols × ScanSt) (page : Page) : Option Cols × ScanSt :=
  let cb := match st.1 with
    | some c => some c
    | none => find_column_boundaries page
  (cb, scanLines st.2 (group_words_into_lines page.wordsT3))

/-- `banamex_parser.parse_transactions(pages, year)`. -/
def parse_transactions (pages : List Page) (year : String) : List Tx :=
  let fin := pages.foldl pageStep (none, ⟨false, [], []⟩)
  let blocks := if fin.2.cur ≠ [] then fin.2.blocks ++ [fin.2.cur] else fin.2.blocks
  match fin.1 with
  | none => []
  | some cb => blocks.filterMap (finalizeBlock cb year)

end Banamex

example : Banamex._format_date_banamex "15 AGO" "2024" = some "2024-08-15" := by
  decide
example : Banamex._format_date_banamex "5 13" "2024" = some "2024-13-05" := by
  decide
example : Banamex._format_date_banamex "15 AGOSTO" "2024" = none := by
  decide
example : Banamex._format_date_banamex "13 ABRIL 2025" "x" = none := by
  decide
example : Banamex.matchDayMon3 "02 ENE PAGO" = some ("02", "ENE") := by
  decide
example : Banamex.stripDayMon3 "02 ENE PAGO X" = "PAGO X" := by
  decide
example : Banamex.stripDayMon3 "02 ENE" = "02 ENE" := by decide

/-! ## Banamex metadata extraction -/

namespace Banamex

/-- `[\d,]+\.\d{2}` (amount sub-pattern of the metadata regexes). -/
def patAmt : Rx.Re :=
  Rx.rcat [Rx.rplus (Rx.rcls [.digit, .ch ',']), Rx.rlit1 '.', Rx.rexact 2 Rx.rd]

/-- `CLABE Interbancaria\s+([0-9]{18})` (searched with `re.IGNORECASE`). -/
def patClabe : Rx.Re :=
  Rx.rcat [Rx.rstr "CLABE Interbancaria", Rx.rplus Rx.rsp,
    Rx.rgrp 1 (Rx.rexact 18 (Rx.rcls [.range '0' '9']))]

/-- `banamex_parser._parse_clabe`. -/
def _parse_clabe (text : String) : Option String :=
  (Rx.research true false patClabe text).map (·.grp 1)

/-- `(?:Registro Federal de Contribuyentes|RFC)\s*:?\s*([A-Z0-9]{12,13})`
(`re.IGNORECASE`). -/
def patRfc : Rx.Re :=
  Rx.rcat [.alt (Rx.rstr "Registro Federal de Contribuyentes") (Rx.rstr "RFC"),
    Rx.rstar Rx.rsp, Rx.ropt (Rx.rlit1 ':'), Rx.rstar Rx.rsp,
    Rx.rgrp 1 (Rx.rrep 12 13 (Rx.rcls [.range 'A' 'Z', .range '0' '9']))]

/-- `banamex_parser._parse_rfc`. -/
def _parse_rfc (text : String) : Option String :=
  (Rx.research true false patRfc text).map (·.grp 1)

/-- `Nombre del Receptor\s+([^\n]+)` (`re.IGNORECASE`). -/
def patRecep : Rx.Re :=
  Rx.rcat [Rx.rstr "Nombre del Receptor", Rx.rplus Rx.rsp,
    Rx.rgrp 1 (Rx.rplus (Rx.rncls [.ch '\n']))]

/-- `CLIENTE:\s*([^\n]+)` (`re.IGNORECASE`). -/
def patCliente : Rx.Re :=
  Rx.rcat [Rx.rstr "CLIENTE:", Rx.rstar Rx.rsp,
    Rx.rgrp 1 (Rx.rplus (Rx.rncls [.ch '\n']))]

/-- `(CPA CONTROL DE COMPROBANTES DIGITALES S DE RL DE C)`
(`re.IGNORECASE`). -/
def patCpa : Rx.Re :=
  Rx.rgrp 1 (Rx.rstr "CPA CONTROL DE COMPROBANTES DIGITALES S DE RL DE C")

/-- `[A-ZÁÉÍÓÚÑ\s]{10,}`, used with `re.fullmatch` (case-sensitive). -/
def patCapsLine : Rx.Re :=
  Rx.ratleast 10 (Rx.rcls [.range 'A' 'Z', .ch 'Á', .ch 'É', .ch 'Í', .ch 'Ó',
    .ch 'Ú', .ch 'Ñ', .space])

/-- Noise words excluded by method 4 of `_parse_client_name`. -/
def clientNoise : List String :=
  ["BANAMEX", "ESTADO DE CUENTA", "CLIENTE", "RFC", "C.R."]

/-- `banamex_parser._parse_client_name`: four fallback methods. -/
def _parse_client_name (text : String) : Option String :=
  match Rx.research true false patRecep text with
  | some m => some (Py.strip (m.grp 1))
  | none =>
  match Rx.research true false patCliente text with
  | some m => some (Py.strip (m.grp 1))
  | none =>
  match Rx.research true false patCpa text with
  | some m => some (Py.strip (m.grp 1))
  | none =>
  (Py.splitChar '\n' text).findSome? fun line =>
    let clean := Py.strip line
    if Rx.refullmatch false patCapsLine clean &&
       !(clientNoise.any (fun w => Py.containsSub clean w)) then
      some clean
    else none

/-- `Número de cuenta de cheques\s+([0-9]+)` (case-sensitive). -/
def patCtaCheques : Rx.Re :=
  Rx.rcat [Rx.rstr "Número de cuenta de cheques", Rx.rplus Rx.rsp,
    Rx.rgrp 1 (Rx.rplus (Rx.rcls [.range '0' '9']))]

/-- `CONTRATO\s+([0-9]{10})` (case-sensitive). -/
def patContrato : Rx.Re :=
  Rx.rcat [Rx.rstr "CONTRATO", Rx.rplus Rx.rsp,
    Rx.rgrp 1 (Rx.rexact 10 (Rx.rcls [.range '0' '9']))]

/-- `banamex_parser._parse_account_number`. -/
def _parse_account_number (text : String) : Option String :=
  match Rx.research false false patCtaCheques text with
  | some m => some (m.grp 1)
  | none => (Rx.research false false patContrato text).map (·.grp 1)

/-- The lowercase month table `meses` of
`_format_flexible_date_banamex`. -/
def meses : List (String × Nat) :=
  [("enero", 1), ("febrero", 2), ("marzo", 3), ("abril", 4), ("mayo", 5),
   ("junio", 6), ("julio", 7), ("agosto", 8), ("septiembre", 9),
   ("octubre", 10), ("noviembre", 11), ("diciembre", 12)]

def lookupMes (s : String) : Option Nat :=
  (meses.find? (fun kv => kv.1 = s)).map (·.2)

/-- `(\d{1,2})\s+de\s+(\w+)\s+(\d{4})` (`re.IGNORECASE`). -/
def patDdeMY : Rx.Re :=
  Rx.rcat [Rx.rgrp 1 (Rx.rrep 1 2 Rx.rd), Rx.rplus Rx.rsp, Rx.rstr "de",
    Rx.rplus Rx.rsp, Rx.rgrp 2 (Rx.rplus Rx.rw), Rx.rplus Rx.rsp,
    Rx.rgrp 3 (Rx.rexact 4 Rx.rd)]

/-- `(\d{2})/([A-Z]{3})/(\d{4})` (`re.IGNORECASE`). -/
def patDbY : Rx.Re :=
  Rx.rcat [Rx.rgrp 1 (Rx.rexact 2 Rx.rd), Rx.rlit1 '/',
    Rx.rgrp 2 (Rx.rexact 3 (Rx.rcls [.range 'A' 'Z'])), Rx.rlit1 '/',
    Rx.rgrp 3 (Rx.rexact 4 Rx.rd)]

/-- `(\d{1,2})\s+de\s+(\w+)` (`re.IGNORECASE`). -/
def patDdeM : Rx.Re :=
  Rx.rcat [Rx.rgrp 1 (Rx.rrep 1 2 Rx.rd), Rx.rplus Rx.rsp, Rx.rstr "de",
    Rx.rplus Rx.rsp, Rx.rgrp 2 (Rx.rplus Rx.rw)]

/-- `banamex_parser._format_flexible_date_banamex(date_str, default_year=None)`.
The module defines this name twice; the later definition (the one with the
`meses` table) shadows the earlier one at import time, so only it is
embedded here. -/
def _format_flexible_date_banamex (date_str : String) (default_year : Option String) :
    Option String :=
  match Rx.research true false patDdeMY date_str with
  | some m =>
    match lookupMes (Py.lower (m.grp 2)) with
    | some mes =>
      some (m.grp 3 ++ "-" ++ Cal.pad2 mes ++ "-" ++ Cal.pad2 (Py.intOfDigits (m.grp 1)))
    | none => ffd2 date_str default_year
  | none => ffd2 date_str default_year
where
  /-- Second and third methods (`01/FEB/2025` via `strptime('%d/%b/%Y')`,
  then day-and-month with the default year). -/
  ffd2 (date_str : String) (default_year : Option String) : Option String :=
    match Rx.research true false patDbY date_str with
    | some m =>
      match Cal.strptimeDbY (m.grp 1 ++ "/" ++ m.grp 2 ++ "/" ++ m.grp 3) with
      | some iso => some iso
      | none => ffd3 date_str default_year
    | none => ffd3 date_str default_year
  ffd3 (date_str : String) (default_year : Option String) : Option String :=
    match Rx.research true false patDdeM date_str, default_year with
    | some m, some y =>
      match lookupMes (Py.lower (m.grp 2)) with
      | some mes =>
        some (y ++ "-" ++ Cal.pad2 mes ++ "-" ++ Cal.pad2 (Py.intOfDigits (m.grp 1)))
      | none => none
    | _, _ => none

/-- `Per[ií]odo\s+del\s+(\d{1,2}\s+de\s+\w+)(?:\s+del)?\s+al\s+(\d{1,2}\s+de\s+\w+)(?:\s+del)?\s+(\d{4})`
(`re.IGNORECASE`). -/
def patPeriodo1 : Rx.Re :=
  Rx.rcat [Rx.rstr "Per", Rx.rcls [.ch 'i', .ch 'í'], Rx.rstr "odo",
    Rx.rplus Rx.rsp, Rx.rstr "del", Rx.rplus Rx.rsp,
    Rx.rgrp 1 (Rx.rcat [Rx.rrep 1 2 Rx.rd, Rx.rplus Rx.rsp, Rx.rstr "de",
      Rx.rplus Rx.rsp, Rx.rplus Rx.rw]),
    Rx.ropt (Rx.rcat [Rx.rplus Rx.rsp, Rx.rstr "del"]),
    Rx.rplus Rx.rsp, Rx.rstr "al", Rx.rplus Rx.rsp,
    Rx.rgrp 2 (Rx.rcat [Rx.rrep 1 2 Rx.rd, Rx.rplus Rx.rsp, Rx.rstr "de",
      Rx.rplus Rx.rsp, Rx.rplus Rx.rw]),
    Rx.ropt (Rx.rcat [Rx.rplus Rx.rsp, Rx.rstr "del"]),
    Rx.rplus Rx.rsp, Rx.rgrp 3 (Rx.rexact 4 Rx.rd)]

/-- `RESUMEN DEL:\s*(\d{2}/[A-Z]{3}/\d{4})\s+AL\s+(\d{2}/[A-Z]{3}/\d{4})`
(`re.IGNORECASE`). -/
def patPeriodo2 : Rx.Re :=
  Rx.rcat [Rx.rstr "RESUMEN DEL:", Rx.rstar Rx.rsp,
    Rx.rgrp 1 (Rx.rcat [Rx.rexact 2 Rx.rd, Rx.rlit1 '/',
      Rx.rexact 3 (Rx.rcls [.range 'A' 'Z']), Rx.rlit1 '/', Rx.rexact 4 Rx.rd]),
    Rx.rplus Rx.rsp, Rx.rstr "AL", Rx.rplus Rx.rsp,
    Rx.rgrp 2 (Rx.rcat [Rx.rexact 2 Rx.rd, Rx.rlit1 '/',
      Rx.rexact 3 (Rx.rcls [.range 'A' 'Z']), Rx.rlit1 '/', Rx.rexact 4 Rx.rd])]

/-- `banamex_parser._parse_period`. -/
def _parse_period (text : String) : Option String × Option String :=
  match Rx.research true false patPeriodo1 text with
  | some m =>
    let year := m.grp 3
    let start_str := m.grp 1 ++ " " ++ year
    let end_str := m.grp 2 ++ " " ++ year
    (_format_flexible_date_banamex start_str (some year),
     _format_flexible_date_banamex end_str (some year))
  | none =>
    match Rx.research true false patPeriodo2 text with
    | some m =>
      (_format_flexible_date_banamex (m.grp 1) none,
       _format_flexible_date_banamex (m.grp 2) none)
    | none => (none, none)

/-- `Saldo anterior\s+\$?([\d,]+\.\d{2})` (`re.IGNORECASE`). -/
def patSaldoAnt : Rx.Re :=
  Rx.rcat [Rx.rstr "Saldo anterior", Rx.rplus Rx.rsp, Rx.ropt (Rx.rlit1 '$'),
    Rx.rgrp 1 patAmt]

/-- `(?:SALDO AL CORTE|SALDO AL \d{1,2} DE \w+ DE \d{4})\s+\$?([\d,]+\.\d{2})`
(`re.IGNORECASE`). -/
def patSaldoCorte : Rx.Re :=
  Rx.rcat [.alt (Rx.rstr "SALDO AL CORTE")
      (Rx.rcat [Rx.rstr "SALDO AL ", Rx.rrep 1 2 Rx.rd, Rx.rstr " DE ",
        Rx.rplus Rx.rw, Rx.rstr " DE ", Rx.rexact 4 Rx.rd]),
    Rx.rplus Rx.rsp, Rx.ropt (Rx.rlit1 '$'), Rx.rgrp 1 patAmt]

/-- `banamex_parser._parse_balances`. -/
def _parse_balances (text : String) : ℚ × ℚ :=
  let initial := match Rx.research true false patSaldoAnt text with
    | some m => _clean_amount (some (m.grp 1))
    | none => 0
  let final := match Rx.research true false patSaldoCorte text with
    | some m => _clean_amount (some (m.grp 1))
    | none => 0
  (initial, final)

/-- `\(?\+\)?\s*(\d+)\s*Depósitos\s+\$?([\d,]+\.\d{2})` (`re.IGNORECASE`). -/
def patDepA : Rx.Re :=
  Rx.rcat [Rx.ropt (Rx.rlit1 '('), Rx.rlit1 '+', Rx.ropt (Rx.rlit1 ')'),
    Rx.rstar Rx.rsp, Rx.rgrp 1 (Rx.rplus Rx.rd), Rx.rstar Rx.rsp,
    Rx.rstr "Depósitos", Rx.rplus Rx.rsp, Rx.ropt (Rx.rlit1 '$'),
    Rx.rgrp 2 patAmt]

/-- `Depósitos\s+([\d,]+\.\d{2})` (`re.IGNORECASE`). -/
def patDepB : Rx.Re :=
  Rx.rcat [Rx.rstr "Depósitos", Rx.rplus Rx.rsp, Rx.rgrp 1 patAmt]

/-- `\(?\-\)?\s*(\d+)\s*Retiros(?:/Otros cargos)?\s+\$?([\d,]+\.\d{2})`
(`re.IGNORECASE`). -/
def patRetA : Rx.Re :=
  Rx.rcat [Rx.ropt (Rx.rlit1 '('), Rx.rlit1 '-', Rx.ropt (Rx.rlit1 ')'),
    Rx.rstar Rx.rsp, Rx.rgrp 1 (Rx.rplus Rx.rd), Rx.rstar Rx.rsp,
    Rx.rstr "Retiros", Rx.ropt (Rx.rstr "/Otros cargos"), Rx.rplus Rx.rsp,
    Rx.ropt (Rx.rlit1 '$'), Rx.rgrp 2 patAmt]

/-- `Retiros/Otros cargos\s+([\d,]+\.\d{2})` (`re.IGNORECASE`). -/
def patRetB : Rx.Re :=
  Rx.rcat [Rx.rstr "Retiros/Otros cargos", Rx.rplus Rx.rsp, Rx.rgrp 1 patAmt]

/-- `banamex_parser._parse_totals` → `(imp_c, mov_c, imp_a, mov_a)`. -/
def _parse_totals (text : String) : ℚ × Nat × ℚ × Nat :=
  let (imp_a, mov_a) := match Rx.research true false patDepA text with
    | some m => (_clean_amount (some (m.grp 2)), Py.intOfDigits (m.grp 1))
    | none =>
      match Rx.research true false patDepB text with
      | some m => (_clean_amount (some (m.grp 1)), 0)
      | none => (0, 0)
  let (imp_c, mov_c) := match Rx.research true false patRetA text with
    | some m => (_clean_amount (some (m.grp 2)), Py.intOfDigits (m.grp 1))
    | none =>
      match Rx.research true false patRetB text with
      | some m => (_clean_amount (some (m.grp 1)), 0)
      | none => (0, 0)
  (imp_c, mov_c, imp_a, mov_a)

/-- `banamex_parser.parse(pdf, year)`.  Returns `none` when the
`datetime.strptime(periodo_final, "%Y-%m-%d")` call raises (an uncaught
`ValueError` aborting the whole parse). -/
def parse (pages : List Page) (year : String) : Option StatementResult :=
  let full_text := Py.joinSep "\n" (pages.map Page.text)
  let periodo := _parse_period full_text
  let effY : Option String := match periodo.2 with
    | some pf => (Cal.strptimeYmd pf).map (fun ymd => toString ymd.1)
    | none => some year
  match effY with
  | none => none
  | some ey =>
    let balances := _parse_balances full_text
    let totals := _parse_totals full_text
    some
      { clabe_interbancaria := _parse_clabe full_text
        rfc := _parse_rfc full_text
        nom_cliente := _parse_client_name full_text
        num_cuenta := _parse_account_number full_text
        periodo_inicial := periodo.1
        periodo_final := periodo.2
        saldo_inicial := balances.1
        saldo_final := balances.2
        total_importe_cargos := totals.1
        total_movimientos_cargo := totals.2.1
        total_importe_abonos := totals.2.2.1
        total_movimientos_abono := totals.2.2.2
        movimientos := parse_transactions pages ey }

end Banamex

example : Banamex._parse_clabe "x CLABE Interbancaria 012345678901234567" =
    some "012345678901234567" := by decide
example : Banamex._parse_period "RESUMEN DEL: 01/FEB/2025 AL 28/FEB/2025" =
    (some "2025-02-01", some "2025-02-28") := by decide
example : Banamex._format_flexible_date_banamex "13 de abril 2025" none =
    some "2025-04-13" := by decide
example : Banamex._parse_totals "(-) 3 Retiros $1,500.00" = (1500, 3, 0, 0) := by
  decide
example : Banamex._parse_balances "Saldo anterior $2,000.10" = (20001/10, 0) := by
  decide
example : Banamex._parse_client_name "x\nJUAN PEREZ GOMEZ\ny" =
    some "JUAN PEREZ GOMEZ" := by decide

/-! ## BBVA parser (`src/parsers/bbva_parser.py`) -/

namespace BBVA

/-- `bbva_parser.IGNORE_PATTERNS`, in source order.  Literal-text patterns
become literal patterns (`\.` is a literal dot); `\d+`/`\s+`/`[oó]`
become the corresponding engine constructs, and the unescaped dots of
`www.bbva.mx` are genuine regex dots. -/
def IGNORE_PATTERNS : List Rx.Re :=
  [Rx.rstr "Estado de Cuenta",
   Rx.rcat [Rx.rstr "Libret", Rx.rcls [.ch 'o', .ch 'ó'], Rx.rstr "n Básico"],
   Rx.rstr "Cuenta Digital",
   Rx.rstr "No. de Cuenta",
   Rx.rstr "No. de Cliente",
   Rx.rcat [Rx.rstr "PAGINA ", Rx.rplus Rx.rd, Rx.rstr " / ", Rx.rplus Rx.rd],
   Rx.rstr "BBVA MEXICO, S.A., INSTITUCION DE BANCA MULTIPLE",
   Rx.rstr "Estimado Cliente",
   Rx.rstr "su Contrato ha sido modificado",
   Rx.rstr "Con BBVA adelante",
   Rx.rstr "MAESTRA PYME BBVA",
   Rx.rstr "MAESTRA DOLARES PYME BBVA",
   Rx.rstr "MAESTRA PERSONAL BBVA",
   Rx.rstr "MAESTRA EMPRESARIAL BBVA",
   Rx.rstr "MAESTRA PYME DIGITAL BBVA",
   Rx.rstr "MAESTRA PERSONAL DIGITAL BBVA",
   Rx.rstr "MAESTRA EMPRESARIAL DIGITAL BBVA",
   Rx.rstr "BBVA Contigo",
   Rx.rstr "BBVA Contigo Empresarial",
   Rx.rstr "BBVA Contigo Pyme",
   Rx.rcat [Rx.rstr "FECHA", Rx.rplus Rx.rsp, Rx.rstr "OPER"],
   Rx.rcat [Rx.rstr "SALDO", Rx.rplus Rx.rsp, Rx.rstr "OPER"],
   Rx.rstr "COD. DESCRIPCIÓN",
   Rx.rstr "REFERENCIA",
   Rx.rstr "CARGOS",
   Rx.rstr "ABONOS",
   Rx.rstr "SALDO",
   Rx.rstr "LINEA BBVA",
   Rx.rstr "Av. Paseo de la Reforma",
   Rx.rstr "COMISION NACIONAL PARA",
   Rx.rstr "Este documento es una representación impresa de un CFDI",
   Rx.rstr "Ponemos a su disposición",
   Rx.rstr "UNIDAD ESPECIALIZADA DE ATENCION",
   Rx.rstr "ACLARACIONES",
   Rx.rstr "LEYENDAS DE ADVERTENCIA",
   Rx.rstr "La GAT Real es el rendimiento",
   Rx.rcat [Rx.rstr "el cual puede consultarlo en cualquier sucursal o www",
     Rx.rdot, Rx.rstr "bbva", Rx.rdot,
     Rx.rstr "mx La GAT Real es el rendimiento que obtendría después de descontar la inflación estimada"],
   Rx.rstr "GAT Real",
   Rx.rstr "el cual puede consultarlo en cualquier sucursal",
   Rx.rcat [Rx.rstr "No. Cuenta ", Rx.rplus Rx.rd],
   Rx.rcat [Rx.rstr "No. Cliente ", Rx.rplus Rx.rd]]

/-- `bbva_parser.is_ignore_line`: any ignore pattern matches
(`re.IGNORECASE`). -/
def is_ignore_line (text : String) : Bool :=
  IGNORE_PATTERNS.any (fun p => (Rx.research true false p text).isSome)

/-- `bbva_parser.MONTH_MAP` (three-letter Spanish abbreviations). -/
def MONTH_MAP : List (String × String) :=
  [("ENE", "01"), ("FEB", "02"), ("MAR", "03"), ("ABR", "04"), ("MAY", "05"),
   ("JUN", "06"), ("JUL", "07"), ("AGO", "08"), ("SEP", "09"), ("OCT", "10"),
   ("NOV", "11"), ("DIC", "12")]

/-- `MONTH_MAP.get(key, '00')`, as used for the debit transaction date. -/
def lookupMonth (s : String) : String :=
  ((MONTH_MAP.find? (fun kv => kv.1 = s)).map (·.2)).getD "00"

/-- `bbva_parser._format_flexible_date(date_str)`: upper-case, `/`→`-`,
replace every month abbreviation, then try `strptime` with `%d-%m-%Y` and
`%d-%m-%y`. -/
def _format_flexible_date (date_str : String) : Option String :=
  if date_str = "" then none
  else
    let ds0 := Py.pyReplace (Py.upper date_str) "/" "-"
    let ds := MONTH_MAP.foldl (fun s kv => Py.pyReplace s kv.1 kv.2) ds0
    match Cal.strptimeDmY ds with
    | some iso => some iso
    | none => Cal.strptimeDmy2 ds

/-- `[\d,]+\.\d{2}`. -/
def patAmt : Rx.Re :=
  Rx.rcat [Rx.rplus (Rx.rcls [.digit, .ch ',']), Rx.rlit1 '.', Rx.rexact 2 Rx.rd]

/-- `TOTAL IMPORTES:\s+\$\s*([\d,]+\.\d{2})\s+-\$\s*([\d,]+\.\d{2})`
(`re.IGNORECASE`). -/
def patTotImp : Rx.Re :=
  Rx.rcat [Rx.rstr "TOTAL IMPORTES:", Rx.rplus Rx.rsp, Rx.rlit1 '$',
    Rx.rstar Rx.rsp, Rx.rgrp 1 patAmt, Rx.rplus Rx.rsp, Rx.rlit1 '-',
    Rx.rlit1 '$', Rx.rstar Rx.rsp, Rx.rgrp 2 patAmt]

/-- `TOTAL IMPORTE CARGOS\s+([\d,]+\.\d{2})\s+TOTAL MOVIMIENTOS CARGOS\s+(\d+)`
(`re.IGNORECASE`). -/
def patTotCargos : Rx.Re :=
  Rx.rcat [Rx.rstr "TOTAL IMPORTE CARGOS", Rx.rplus Rx.rsp, Rx.rgrp 1 patAmt,
    Rx.rplus Rx.rsp, Rx.rstr "TOTAL MOVIMIENTOS CARGOS", Rx.rplus Rx.rsp,
    Rx.rgrp 2 (Rx.rplus Rx.rd)]

/-- `TOTAL IMPORTE ABONOS\s+([\d,]+\.\d{2})\s+TOTAL MOVIMIENTOS ABONOS\s+(\d+)`
(`re.IGNORECASE`). -/
def patTotAbonos : Rx.Re :=
  Rx.rcat [Rx.rstr "TOTAL IMPORTE ABONOS", Rx.rplus Rx.rsp, Rx.rgrp 1 patAmt,
    Rx.rplus Rx.rsp, Rx.rstr "TOTAL MOVIMIENTOS ABONOS", Rx.rplus Rx.rsp,
    Rx.rgrp 2 (Rx.rplus Rx.rd)]

/-- `bbva_parser._parse_totals(text, is_credit)` → `(imp_c, mov_c, imp_a, mov_a)`. -/
def _parse_totals (text : String) (is_credit : Bool) : ℚ × Nat × ℚ × Nat :=
  if is_credit then
    match Rx.research true false patTotImp text with
    | some m => (_clean_amount (some (m.grp 1)), 0, _clean_amount (some (m.grp 2)), 0)
    | none => (0, 0, 0, 0)
  else
    let (imp_c, mov_c) := match Rx.research true false patTotCargos text with
      | some m => (_clean_amount (some (m.grp 1)), Py.intOfDigits (m.grp 2))
      | none => (0, 0)
    let (imp_a, mov_a) := match Rx.research true false patTotAbonos text with
      | some m => (_clean_amount (some (m.grp 1)), Py.intOfDigits (m.grp 2))
      | none => (0, 0)
    (imp_c, mov_c, imp_a, mov_a)

/-- `(?:No\.?\s+(?:de\s+)?)?Cuenta\s+CLABE\s+([\d\s]+)` (`re.IGNORECASE`). -/
def patClabe : Rx.Re :=
  Rx.rcat [Rx.ropt (Rx.rcat [Rx.rstr "No", Rx.ropt (Rx.rlit1 '.'),
      Rx.rplus Rx.rsp, Rx.ropt (Rx.rcat [Rx.rstr "de", Rx.rplus Rx.rsp])]),
    Rx.rstr "Cuenta", Rx.rplus Rx.rsp, Rx.rstr "CLABE", Rx.rplus Rx.rsp,
    Rx.rgrp 1 (Rx.rplus (Rx.rcls [.digit, .space]))]

/-- `bbva_parser._parse_clabe`: the captured digits-and-spaces run must
contain exactly 18 digits once `re.sub(r'\D', '', ·)` is applied. -/
def _parse_clabe (text : String) : Option String :=
  match Rx.research true false patClabe text with
  | some m =>
    let cleaned := String.mk ((m.grp 1).data.filter Py.isDigitCh)
    if cleaned.length = 18 then some cleaned else none
  | none => none

/-- `No\.\s+de\s+Tarjeta\s+([\d\s]+)` (`re.IGNORECASE`). -/
def patTarjeta : Rx.Re :=
  Rx.rcat [Rx.rstr "No.", Rx.rplus Rx.rsp, Rx.rstr "de", Rx.rplus Rx.rsp,
    Rx.rstr "Tarjeta", Rx.rplus Rx.rsp,
    Rx.rgrp 1 (Rx.rplus (Rx.rcls [.digit, .space]))]

/-- `No\.?\s+(?:de\s+)?Cuenta\s+(\d+)` (`re.IGNORECASE`). -/
def patCuenta : Rx.Re :=
  Rx.rcat [Rx.rstr "No", Rx.ropt (Rx.rlit1 '.'), Rx.rplus Rx.rsp,
    Rx.ropt (Rx.rcat [Rx.rstr "de", Rx.rplus Rx.rsp]), Rx.rstr "Cuenta",
    Rx.rplus Rx.rsp, Rx.rgrp 1 (Rx.rplus Rx.rd)]

/-- `bbva_parser._parse_account_number`: card number (whitespace removed)
with priority, falling back to the debit account number. -/
def _parse_account_number (text : String) : Option String :=
  match Rx.research true false patTarjeta text with
  | some m => some (String.mk ((m.grp 1).data.filter (fun c => !Py.isSpace c)))
  | none => (Rx.research true false patCuenta text).map (·.grp 1)

/-- `Nombre\s+del\s+Receptor\s*:\s*(.+)` (`re.IGNORECASE`). -/
def patReceptor : Rx.Re :=
  Rx.rcat [Rx.rstr "Nombre", Rx.rplus Rx.rsp, Rx.rstr "del", Rx.rplus Rx.rsp,
    Rx.rstr "Receptor", Rx.rstar Rx.rsp, Rx.rlit1 ':', Rx.rstar Rx.rsp,
    Rx.rgrp 1 (Rx.rplus Rx.rdot)]

/-- The uppercase-letters-and-whitespace class of the second client-name
pattern. -/
def capsWs : Rx.Re :=
  Rx.rcls [.range 'A' 'Z', .ch 'Á', .ch 'É', .ch 'Í', .ch 'Ó', .ch 'Ú',
    .ch 'Ñ', .space]

/-- `BBVA\s*\n\s*([A-ZÁÉÍÓÚÑ\s]{10,}\b(?:SA\s+DE\s+CV|S\s+DE\s+RL\s+DE\s+CV|SA\s+PI\s+DE\s+CV)?)`
(case-sensitive). -/
def patBbvaName : Rx.Re :=
  Rx.rcat [Rx.rstr "BBVA", Rx.rstar Rx.rsp, Rx.rlit1 '\n', Rx.rstar Rx.rsp,
    Rx.rgrp 1 (Rx.rcat [Rx.ratleast 10 capsWs, Rx.Re.wordb,
      Rx.ropt (.alt
        (Rx.rcat [Rx.rstr "SA", Rx.rplus Rx.rsp, Rx.rstr "DE", Rx.rplus Rx.rsp,
          Rx.rstr "CV"])
        (.alt
          (Rx.rcat [Rx.rstr "S", Rx.rplus Rx.rsp, Rx.rstr "DE", Rx.rplus Rx.rsp,
            Rx.rstr "RL", Rx.rplus Rx.rsp, Rx.rstr "DE", Rx.rplus Rx.rsp,
            Rx.rstr "CV"])
          (Rx.rcat [Rx.rstr "SA", Rx.rplus Rx.rsp, Rx.rstr "PI", Rx.rplus Rx.rsp,
            Rx.rstr "DE", Rx.rplus Rx.rsp, Rx.rstr "CV"])))])]

/-- `^R\.F\.C\s+[A-Z0-9]+` (`re.IGNORECASE`, searched on a stripped line). -/
def patRfcLine : Rx.Re :=
  Rx.rcat [Rx.Re.bos, Rx.rstr "R.F.C", Rx.rplus Rx.rsp,
    Rx.rplus (Rx.rcls [.range 'A' 'Z', .range '0' '9'])]

/-- `^(No\.|Fecha|Periodo)` (`re.IGNORECASE`). -/
def patNoFechaPer : Rx.Re :=
  Rx.rcat [Rx.Re.bos,
    Rx.rgrp 1 (.alt (Rx.rstr "No.") (.alt (Rx.rstr "Fecha") (Rx.rstr "Periodo")))]

/-- Upward scan of method 3 of `_parse_client_name`: from line `j-1` down
to line `0`, the first stripped line longer than 10 characters that does
not start with `No.`/`Fecha`/`Periodo`. -/
def scanUp (lines : List String) : Nat → Option String
  | 0 => none
  | j + 1 =>
    let line := Py.strip (lines.getD j "")
    if line.length > 10 && !(Rx.research true false patNoFechaPer line).isSome then
      some line
    else scanUp lines j

/-- `bbva_parser._parse_client_name`: three fallback methods. -/
def _parse_client_name (text : String) : Option String :=
  let m2 : Option String :=
    match Rx.research false false patBbvaName text with
    | some m =>
      let name := Py.strip (m.grp 1)
      if !Py.containsSub (Py.lower name) "estado de cuenta" then some name else m3
    | none => m3
  match Rx.research true false patReceptor text with
  | some m =>
    let name := Py.strip (m.grp 1)
    if !Py.containsSub (Py.lower name) "código postal" then some name else m2
  | none => m2
where
  m3 : Option String :=
    let lines := Py.splitlines text
    match lines.findIdx? (fun l => (Rx.research true false patRfcLine (Py.strip l)).isSome) with
    | some i => scanUp lines i
    | none => none

/-- `Periodo\s.*?Del\s+([\d\/]{8,10})\s+al\s+([\d\/]{8,10})`
(`re.IGNORECASE | re.DOTALL`). -/
def patPeriodoC : Rx.Re :=
  Rx.rcat [Rx.rstr "Periodo", Rx.rsp, Rx.rstarL Rx.rdot, Rx.rstr "Del",
    Rx.rplus Rx.rsp, Rx.rgrp 1 (Rx.rrep 8 10 (Rx.rcls [.digit, .ch '/'])),
    Rx.rplus Rx.rsp, Rx.rstr "al", Rx.rplus Rx.rsp,
    Rx.rgrp 2 (Rx.rrep 8 10 (Rx.rcls [.digit, .ch '/']))]

/-- `[\d]{2}\/(?:\w{3}|\d{2})\/\d{2,4}` (one period date of the debit
pattern). -/
def patPerDate : Rx.Re :=
  Rx.rcat [Rx.rexact 2 Rx.rd, Rx.rlit1 '/',
    .alt (Rx.rexact 3 Rx.rw) (Rx.rexact 2 Rx.rd), Rx.rlit1 '/',
    Rx.rrep 2 4 Rx.rd]

/-- `Periodo\s+(?:DEL\s+)?(…)\s+AL\s+(…)` (`re.IGNORECASE | re.DOTALL`). -/
def patPeriodoD : Rx.Re :=
  Rx.rcat [Rx.rstr "Periodo", Rx.rplus Rx.rsp,
    Rx.ropt (Rx.rcat [Rx.rstr "DEL", Rx.rplus Rx.rsp]), Rx.rgrp 1 patPerDate,
    Rx.rplus Rx.rsp, Rx.rstr "AL", Rx.rplus Rx.rsp, Rx.rgrp 2 patPerDate]

/-- `bbva_parser._parse_period(text, is_credit)`. -/
def _parse_period (text : String) (is_credit : Bool) : Option String × Option String :=
  let pat := if is_credit then patPeriodoC else patPeriodoD
  match Rx.research true true pat text with
  | some m => (_format_flexible_date (m.grp 1), _format_flexible_date (m.grp 2))
  | none => (none, none)

/-- `Saldo Inicial del Periodo\s*\+?\s*\$?\s*([\d,]+\.\d{2})`
(`re.IGNORECASE | re.DOTALL`). -/
def patSaldoIniC : Rx.Re :=
  Rx.rcat [Rx.rstr "Saldo Inicial del Periodo", Rx.rstar Rx.rsp,
    Rx.ropt (Rx.rlit1 '+'), Rx.rstar Rx.rsp, Rx.ropt (Rx.rlit1 '$'),
    Rx.rstar Rx.rsp, Rx.rgrp 1 patAmt]

/-- `Saldo al Corte\s*\$?\s*([\d,]+\.\d{2})` (`re.IGNORECASE | re.DOTALL`). -/
def patSaldoCorteC : Rx.Re :=
  Rx.rcat [Rx.rstr "Saldo al Corte", Rx.rstar Rx.rsp, Rx.ropt (Rx.rlit1 '$'),
    Rx.rstar Rx.rsp, Rx.rgrp 1 patAmt]

/-- `(?:Saldo\s+(?:de\s+)?Liquidación\s+Inicial|Saldo\s+Inicial)\s*\+?\s*\$?([\d,]+\.\d{2})`
(`re.IGNORECASE`). -/
def patSaldoIniD : Rx.Re :=
  Rx.rcat [.alt
      (Rx.rcat [Rx.rstr "Saldo", Rx.rplus Rx.rsp,
        Rx.ropt (Rx.rcat [Rx.rstr "de", Rx.rplus Rx.rsp]),
        Rx.rstr "Liquidación", Rx.rplus Rx.rsp, Rx.rstr "Inicial"])
      (Rx.rcat [Rx.rstr "Saldo", Rx.rplus Rx.rsp, Rx.rstr "Inicial"]),
    Rx.rstar Rx.rsp, Rx.ropt (Rx.rlit1 '+'), Rx.rstar Rx.rsp,
    Rx.ropt (Rx.rlit1 '$'), Rx.rgrp 1 patAmt]

/-- `(?:Saldo\s+(?:de\s+Operación\s+)?Final)\s*(?:\(\+\))?\s*\$?([\d,]+\.\d{2})`
(`re.IGNORECASE`). -/
def patSaldoFinD : Rx.Re :=
  Rx.rcat [Rx.rstr "Saldo", Rx.rplus Rx.rsp,
    Rx.ropt (Rx.rcat [Rx.rstr "de", Rx.rplus Rx.rsp, Rx.rstr "Operación",
      Rx.rplus Rx.rsp]),
    Rx.rstr "Final", Rx.rstar Rx.rsp, Rx.ropt (Rx.rstr "(+)"),
    Rx.rstar Rx.rsp, Rx.ropt (Rx.rlit1 '$'), Rx.rgrp 1 patAmt]

/-- `bbva_parser._parse_balances(text, is_credit)`. -/
def _parse_balances (text : String) (is_credit : Bool) : ℚ × ℚ :=
  if is_credit then
    let ini := match Rx.research true true patSaldoIniC text with
      | some m => _clean_amount (some (m.grp 1))
      | none => 0
    let fin := match Rx.research true true patSaldoCorteC text with
      | some m => _clean_amount (some (m.grp 1))
      | none => 0
    (ini, fin)
  else
    let ini := match Rx.research true false patSaldoIniD text with
      | some m => _clean_amount (some (m.grp 1))
      | none => 0
    let fin := match Rx.research true false patSaldoFinD text with
      | some m => _clean_amount (some (m.grp 1))
      | none => 0
    (ini, fin)

/-- `R\.?F\.?C\.?\s*[:]?\s*([A-Z0-9]{12,13})` (`re.IGNORECASE`). -/
def patRfc : Rx.Re :=
  Rx.rcat [Rx.rlit1 'R', Rx.ropt (Rx.rlit1 '.'), Rx.rlit1 'F',
    Rx.ropt (Rx.rlit1 '.'), Rx.rlit1 'C', Rx.ropt (Rx.rlit1 '.'),
    Rx.rstar Rx.rsp, Rx.ropt (Rx.rlit1 ':'), Rx.rstar Rx.rsp,
    Rx.rgrp 1 (Rx.rrep 12 13 (Rx.rcls [.range 'A' 'Z', .range '0' '9']))]

/-- `bbva_parser._parse_rfc`. -/
def _parse_rfc (text : String) : Option String :=
  (Rx.research true false patRfc text).map (·.grp 1)

end BBVA

namespace BBVA

/-- Column boundaries resolved on a BBVA page (`find_column_boundaries`
succeeds only when all three of `retiro`, `deposito`, `saldo` resolve:
`len(boundaries) >= 3`). -/
structure Cols where
  retiro : ℚ × ℚ
  deposito : ℚ × ℚ
  saldo : ℚ × ℚ
deriving Repr, DecidableEq

/-- Intermediate `boundaries` dict. -/
structure BDict where
  retiro : Option (ℚ × ℚ)
  deposito : Option (ℚ × ℚ)
  saldo : Option (ℚ × ℚ)
deriving Repr, DecidableEq

/-- One step of the word loop of `bbva_parser.find_column_boundaries`:
exact matches on the upper-cased text; the `SALDO` branch (taken only the
first time) records the coordinates of the **last** `SALDO` word of the
page. -/
def boundStep (words : List Word) (b : BDict) (w : Word) : BDict :=
  let text := Py.upper w.text
  if text = "CARGOS" then { b with retiro := some (w.x0, w.x1) }
  else if text = "ABONOS" then { b with deposito := some (w.x0, w.x1) }
  else if text = "SALDO" && b.saldo = none then
    match (words.filter (fun v => Py.upper v.text = "SALDO")).getLast? with
    | some last => { b with saldo := some (last.x0, last.x1) }
    | none => b
  else b

/-- `bbva_parser.find_column_boundaries`. -/
def find_column_boundaries (page : Page) : Option Cols :=
  let words := page.wordsT2
  let b := words.foldl (boundStep words) ⟨none, none, none⟩
  match b.retiro, b.deposito, b.saldo with
  | some r, some d, some s => some ⟨r, d, s⟩
  | _, _, _ => none

/-- `bbva_parser.group_words_into_lines` (code identical to the Banamex
version; both call sites use the default tolerance 3). -/
def group_words_into_lines (words : List Word) : List (List Word) :=
  match words with
  | [] => []
  | w :: ws => Banamex.groupGo 3 ws [w]

/-- `re.match(r'(\d{2}/\w{3})', line_text)`, returning the day and month
pieces of the group (the caller splits the group on `/`). -/
def matchDdSlashW3 (s : String) : Option (String × String) :=
  match s.data with
  | a :: b :: '/' :: c :: d :: e :: _ =>
    if Py.isDigitCh a && Py.isDigitCh b && Rx.isWordCh c && Rx.isWordCh d &&
       Rx.isWordCh e then
      some (String.mk [a, b], String.mk [c, d, e])
    else none
  | _ => none

/-- `re.sub(r'^\d{2}/\w{3}\s+\d{2}/\w{3}\s+', '', s)` (anchored
maximal-munch translation; the fixed-count pieces admit no
backtracking). -/
def stripTwoDates (s : String) : String :=
  match s.data with
  | a :: b :: '/' :: c :: d :: e :: r1 =>
    if Py.isDigitCh a && Py.isDigitCh b && Rx.isWordCh c && Rx.isWordCh d &&
       Rx.isWordCh e then
      let sp1 := r1.takeWhile Py.isSpace
      if sp1.length = 0 then s
      else
        match r1.drop sp1.length with
        | a2 :: b2 :: '/' :: c2 :: d2 :: e2 :: r2 =>
          if Py.isDigitCh a2 && Py.isDigitCh b2 && Rx.isWordCh c2 &&
             Rx.isWordCh d2 && Rx.isWordCh e2 then
            let sp2 := r2.takeWhile Py.isSpace
            if sp2.length = 0 then s else String.mk (r2.drop sp2.length)
          else s
        | _ => s
    else s
  | _ => s

/-- Accumulator of the per-word loop of a debit transaction line. -/
structure DebAmts where
  retiro : ℚ
  deposito : ℚ
  saldo : ℚ
  descParts : List String
deriving Repr, DecidableEq

/-- One step of the word loop of `parse_debito`: each monetary column
**assigns** (last write wins), everything else joins the description. -/
def debClassify (cb : Cols) (a : DebAmts) (w : Word) : DebAmts :=
  let cx := (w.x0 + w.x1) / 2
  if cb.retiro.1 ≤ cx && cx ≤ cb.retiro.2 + 20 then
    { a with retiro := _clean_amount (some w.text) }
  else if cb.deposito.1 ≤ cx && cx ≤ cb.deposito.2 + 20 then
    { a with deposito := _clean_amount (some w.text) }
  else if cb.saldo.1 ≤ cx && cx ≤ cb.saldo.2 + 40 then
    { a with saldo := _clean_amount (some w.text) }
  else { a with descParts := a.descParts ++ [w.text] }

/-- The transaction built from one date-matched debit line, including the
page-level balance fallback (`if saldo == 0.0: …` scan over all page
words near the line's top). -/
def mkDebTx (cb : Cols) (pageWords : List Word) (year : String)
    (line_words : List Word) (day month_str : String) : Tx :=
  let date_str := year ++ "-" ++ lookupMonth (Py.upper month_str) ++ "-" ++ day
  let a := line_words.foldl (debClassify cb) ⟨0, 0, 0, []⟩
  let saldo :=
    if a.saldo = 0 then
      let top0 := (line_words.headD ⟨"", 0, 0, 0⟩).top
      match pageWords.find? (fun w =>
        let cx := (w.x0 + w.x1) / 2
        cb.saldo.1 ≤ cx && cx ≤ cb.saldo.2 + 40 && |w.top - top0| < 5) with
      | some w => _clean_amount (some w.text)
      | none => a.saldo
    else a.saldo
  let clean_desc := Py.strip (stripTwoDates (joinSp a.descParts))
  ⟨some date_str, clean_desc, a.retiro, a.deposito, saldo, some "BBVA"⟩

/-- Append a continuation line's stripped text to the last transaction's
description (`all_transactions[-1]["Descripción"] += " " + …`). -/
def appendLastDesc (txs : List Tx) (lt : String) : List Tx :=
  match txs.getLast? with
  | some t =>
    txs.dropLast ++ [{ t with Descripcion := t.Descripcion ++ " " ++ Py.strip lt }]
  | none => txs

/-- The per-page line loop of `parse_debito` (returning early — `break` —
on the stop marker). -/
def debScan (cb : Cols) (pageWords : List Word) (year : String) :
    Bool × List Tx → List (List Word) → Bool × List Tx
  | st, [] => st
  | (inSec, txs), lw :: rest =>
    let lt := lineText lw
    if is_ignore_line lt then debScan cb pageWords year (inSec, txs) rest
    else if Py.containsSub lt "Detalle de Movimientos Realizados" then
      debScan cb pageWords year (true, txs) rest
    else if Py.containsSub lt "Total de Movimientos" then (false, txs)
    else if !inSec then debScan cb pageWords year (inSec, txs) rest
    else
      match matchDdSlashW3 lt with
      | some (day, mon) =>
        debScan cb pageWords year (inSec, txs ++ [mkDebTx cb pageWords year lw day mon]) rest
      | none =>
        if txs ≠ [] && Py.strip lt ≠ "" then
          debScan cb pageWords year (inSec, appendLastDesc txs lt) rest
        else debScan cb pageWords year (inSec, txs) rest

/-- The page loop of `parse_debito`: boundary caching; a page without
resolvable boundaries is skipped entirely (`continue`). -/
def debPageStep (year : String) (st : Option Cols × Bool × List Tx) (page : Page) :
    Option Cols × Bool × List Tx :=
  let cb0 := match st.1 with
    | some c => some c
    | none => find_column_boundaries page
  match cb0 with
  | none => (none, st.2.1, st.2.2)
  | some cb =>
    let words := page.wordsT2
    let fin := debScan cb words year (st.2.1, st.2.2) (group_words_into_lines words)
    (some cb, fin.1, fin.2)

/-- `bbva_parser.parse_debito(pdf, year)`. -/
def parse_debito (pages : List Page) (year : String) : List Tx :=
  (pages.foldl (debPageStep year) (none, false, [])).2.2

/-- `(\$ ?-?\d{1,3}(?:,\d{3})*(?:\.\d{2})?)$` (case-sensitive). -/
def patImporte : Rx.Re :=
  Rx.rcat [Rx.rgrp 1 (Rx.rcat [Rx.rlit1 '$', Rx.ropt (Rx.rlit1 ' '),
      Rx.ropt (Rx.rlit1 '-'), Rx.rrep 1 3 Rx.rd,
      Rx.rstar (Rx.rcat [Rx.rlit1 ',', Rx.rexact 3 Rx.rd]),
      Rx.ropt (Rx.rcat [Rx.rlit1 '.', Rx.rexact 2 Rx.rd])]),
    Rx.Re.eos]

/-- Python `str.rfind(sub)`: highest index at which `sub` occurs. -/
def rfindSub (s sub : String) : Option Nat :=
  (List.range (s.data.length + 1)).reverse.find?
    (fun i => sub.data.isPrefixOf (s.data.drop i))

/-- `re.match(r'(\d{2}/\d{2}/\d{2})\s+(\d{2}/\d{2}/\d{2})\s+(.*)', line)`
(anchored maximal-munch translation: the fixed-count date pieces admit no
backtracking, and with the greedy `\s+` the trailing `(.*)` group starts
after the maximal whitespace run). -/
def matchCcLine (s : String) : Option (String × String × String) :=
  match takeDate8 s.data with
  | some (d1, r1) =>
    let sp1 := r1.takeWhile Py.isSpace
    if sp1.length = 0 then none
    else
      match takeDate8 (r1.drop sp1.length) with
      | some (d2, r2) =>
        let sp2 := r2.takeWhile Py.isSpace
        if sp2.length = 0 then none
        else
          some (String.mk d1, String.mk d2,
            String.mk ((r2.drop sp2.length).takeWhile (· ≠ '\n')))
      | none => none
  | none => none
where
  /-- `\d{2}/\d{2}/\d{2}` at the front; returns the matched characters and
  the rest. -/
  takeDate8 : List Char → Option (List Char × List Char)
  | a :: b :: '/' :: c :: d :: '/' :: e :: f :: rest =>
    if [a, b, c, d, e, f].all Py.isDigitCh then
      some ([a, b, '/', c, d, '/', e, f], rest)
    else none
  | _ => none

/-- The transaction built from one credit-card line. -/
def mkCcTx (fecha_apli_iso rest : String) : Tx :=
  match Rx.research false false patImporte rest with
  | some m =>
    let g := m.grp 1
    let importe_txt := Py.strip (Py.pyReplace g "$" "")
    let importe := (Py.pyFloat? (Py.pyReplace importe_txt "," "")).getD 0
    let descripcion :=
      match rfindSub rest g with
      | some i => Py.strip (String.mk (rest.data.take i))
      | none => Py.strip (String.mk (rest.data.take (rest.data.length - 1)))
    let retiro := if importe > 0 then importe else 0
    let deposito := if importe < 0 then |importe| else 0
    ⟨some fecha_apli_iso, descripcion, retiro, deposito, 0, some "BBVA TC"⟩
  | none => ⟨some fecha_apli_iso, rest, 0, 0, 0, some "BBVA TC"⟩

/-- `to_iso` of `parse_credit_card`: `dd/mm/yy` → ISO, falling back to the
raw string on `ValueError`. -/
def to_iso (ds : String) : String := (Cal.strptimeDslashMy ds).getD ds

/-- The per-page line loop of `parse_credit_card` (lines of the page's
extracted text; `break` on `TOTAL IMPORTES`). -/
def ccScan : Bool × List Tx → List String → Bool × List Tx
  | st, [] => st
  | (inSec, txs), line :: rest =>
    if Py.containsSub line "Movimientos Efectuados Tarjeta Titular" then
      ccScan (true, txs) rest
    else if Py.containsSub line "TOTAL IMPORTES" then (false, txs)
    else if !inSec then ccScan (inSec, txs) rest
    else
      match matchCcLine line with
      | some (_fecha_aut, fecha_apli, r) =>
        ccScan (inSec, txs ++ [mkCcTx (to_iso fecha_apli) r]) rest
      | none => ccScan (inSec, txs) rest

/-- `bbva_parser.parse_credit_card(pdf, year)` (the `year` argument is
unused by the source function: both dates come with their own two-digit
years). -/
def parse_credit_card (pages : List Page) (_year : String) : List Tx :=
  (pages.foldl (fun st page => ccScan st (Py.splitChar '\n' page.text)) (false, [])).2

/-- `bbva_parser.parse(pdf, year)`. -/
def parse (pages : List Page) (year : String) : StatementResult :=
  let full_text := Py.joinSep "\n" (pages.map Page.text)
  let is_credit := Py.containsSub full_text "Saldo al Corte" &&
    Py.containsSub full_text "No. de Tarjeta"
  let periodo := _parse_period full_text is_credit
  let balances := _parse_balances full_text is_credit
  let totals := _parse_totals full_text is_credit
  let transactions := if is_credit then parse_credit_card pages year
    else parse_debito pages year
  let mov_c := if is_credit then (transactions.filter (fun t => t.Retiro > 0)).length
    else totals.2.1
  let mov_a := if is_credit then (transactions.filter (fun t => t.Deposito > 0)).length
    else totals.2.2.2
  { clabe_interbancaria := _parse_clabe full_text
    rfc := _parse_rfc full_text
    nom_cliente := _parse_client_name full_text
    num_cuenta := _parse_account_number full_text
    periodo_inicial := periodo.1
    periodo_final := periodo.2
    saldo_inicial := balances.1
    saldo_final := balances.2
    total_importe_cargos := totals.1
    total_movimientos_cargo := mov_c
    total_importe_abonos := totals.2.2.1
    total_movimientos_abono := mov_a
    movimientos := transactions }

end BBVA

example : BBVA.is_ignore_line "CARGOS ABONOS SALDO" = true := by
  decide
example : BBVA.is_ignore_line "02/ENE PAGO 150.00 900.00" = false := by
  decide
example : BBVA._format_flexible_date "01/ENE/2023" = some "2023-01-01" := by
  decide
example : BBVA.matchDdSlashW3 "02/ENE PAGO" = some ("02", "ENE") := by
  decide
example : BBVA.matchCcLine "01/02/24 03/02/24 OXXO GAS $ 345.00" =
    some ("01/02/24", "03/02/24", "OXXO GAS $ 345.00") := by
  decide
example : BBVA.mkCcTx "2024-02-03" "OXXO GAS $ 345.00" =
    ⟨some "2024-02-03", "OXXO GAS", 345, 0, 0, some "BBVA TC"⟩ := by
  decide
example : BBVA.mkCcTx "2024-02-03" "PAGO TARJETA $ -345.00" =
    ⟨some "2024-02-03", "PAGO TARJETA", 0, 345, 0, some "BBVA TC"⟩ := by
  decide
example : BBVA._parse_period "Periodo DEL 01/ENE/2023 AL 31/ENE/2023" false =
    (some "2023-01-01", some "2023-01-31") := by decide

/-! ## Concrete documents used by counterexamples and witnesses

Header words sit in the upper half of each page (height 800, tops 50);
the monetary windows that result are: Banamex `retiro` `[80, 160]`,
`deposito` `[180, 260]`, `saldo` `[280, 360]`; BBVA `retiro` `[100, 160]`,
`deposito` `[200, 260]`, `saldo` `[300, 380]`. -/

def bmxHdr : List Word :=
  [⟨"RETIROS", 100, 140, 50⟩, ⟨"DEPOSITOS", 200, 240, 50⟩, ⟨"SALDO", 300, 340, 50⟩]

def bmxStartLine : List Word :=
  [⟨"DETALLE", 10, 30, 100⟩, ⟨"DE", 32, 36, 100⟩, ⟨"OPERACIONES", 38, 60, 100⟩]

/-- A Banamex transaction line whose balance column holds `100.00`
followed (further right) by `0.00`. -/
def c1TxLine : List Word :=
  [⟨"01", 10, 14, 110⟩, ⟨"ENE", 16, 22, 110⟩, ⟨"FOO", 24, 30, 110⟩,
   ⟨"100.00", 300, 320, 110⟩, ⟨"0.00", 330, 350, 110⟩]

def c1Page : Page := ⟨800, bmxHdr, bmxHdr ++ bmxStartLine ++ c1TxLine, ""⟩

/-- Page 1 for C3: start marker, one transaction, then a stop marker. -/
def c3Page1 : Page :=
  ⟨800, bmxHdr,
   bmxHdr ++ bmxStartLine ++
     [⟨"01", 10, 14, 110⟩, ⟨"ENE", 16, 22, 110⟩, ⟨"FOO", 24, 30, 110⟩,
      ⟨"100.00", 110, 130, 110⟩] ++
     [⟨"GLOSARIO", 10, 40, 120⟩],
   ""⟩

/-- Page 2 for C3: the start marker appears again, then another
transaction line. -/
def c3Page2 : Page :=
  ⟨800, [],
   [⟨"DETALLE", 10, 30, 100⟩, ⟨"DE", 32, 36, 100⟩, ⟨"OPERACIONES", 38, 60, 100⟩,
    ⟨"02", 10, 14, 110⟩, ⟨"ENE", 16, 22, 110⟩, ⟨"BAR", 24, 30, 110⟩,
    ⟨"200.00", 110, 130, 110⟩],
   ""⟩

/-- A Banamex transaction line carrying a negative charge token. -/
def c8Page : Page :=
  ⟨800, bmxHdr,
   bmxHdr ++ bmxStartLine ++
     [⟨"01", 10, 14, 110⟩, ⟨"ENE", 16, 22, 110⟩, ⟨"NEG", 24, 30, 110⟩,
      ⟨"-50.00", 110, 130, 110⟩],
   ""⟩

/-- BBVA header words. -/
def bbvaHdr : List Word :=
  [⟨"CARGOS", 100, 140, 50⟩, ⟨"ABONOS", 200, 240, 50⟩, ⟨"SALDO", 300, 340, 50⟩]

def bbvaStartLine : List Word :=
  [⟨"Detalle", 10, 20, 100⟩, ⟨"de", 22, 26, 100⟩, ⟨"Movimientos", 28, 48, 100⟩,
   ⟨"Realizados", 50, 70, 100⟩]

/-- A BBVA debit page with one transaction line; its page text carries a
statement period ending in 2023. -/
def c4Page : Page :=
  ⟨800, bbvaHdr ++ bbvaStartLine ++
     [⟨"02/ENE", 10, 20, 110⟩, ⟨"PAGO", 24, 40, 110⟩, ⟨"150.00", 110, 130, 110⟩,
      ⟨"900.00", 305, 335, 110⟩],
   [], "Periodo 01/ENE/2023 AL 31/ENE/2023"⟩

/-- A page whose words carry charge and credit header labels but no
balance label. -/
def c5Page : Page := ⟨800, [⟨"CARGOS", 100, 140, 50⟩, ⟨"ABONOS", 200, 240, 50⟩], [], ""⟩

/-- A Banamex page with one transaction and empty page text (every
metadata pattern misses). -/
def c6Page : Page :=
  ⟨800, bmxHdr,
   bmxHdr ++ bmxStartLine ++
     [⟨"01", 10, 14, 110⟩, ⟨"ENE", 16, 22, 110⟩, ⟨"FOO", 24, 30, 110⟩,
      ⟨"100.00", 110, 130, 110⟩],
   ""⟩

/-- A Banamex document whose text carries a statement period ending in
2025 and whose words hold one transaction line. -/
def c4BmxPage : Page :=
  ⟨800, bmxHdr, bmxHdr ++ bmxStartLine ++ c1TxLine,
   "RESUMEN DEL: 01/FEB/2025 AL 28/FEB/2025"⟩

/-! ## C2 — amount normalizer -/

/-- C2 counterexample: the claim's parenthetical negation does not exist
in the code: `"(50.00)"` maps to `0.0` (unparsable), not `-50.00`, in
every amount normalizer; and `bbva_parser._clean_amount` does not handle
the trailing minus either (`"62.18-"` → `0.0`, not `-62.18`). -/
theorem C2_counterexample :
    Banamex._parse_amount_token "(50.00)" = 0 ∧
    Banamex._clean_amount (some "(50.00)") = 0 ∧
    BBVA._clean_amount (some "(50.00)") = 0 ∧
    BBVA._clean_amount (some "62.18-") = 0 := by
  refine ⟨?_, ?_, ?_, ?_⟩ <;> decide

/-- C2 (amended): the normalizers are total functions into values; on the
claim's tokens, `_parse_amount_token` yields `1600.00`, `-62.18`
(trailing minus negates), `0.0` for empty input and `0.0` for
`"(50.00)"` (parentheses are not interpreted, the token is simply
unparsable); both `_clean_amount` variants yield `1600.00` for
`"1,600.00"` and `0.0` for empty, `"62.18-"` and `"(50.00)"`. -/
theorem C2_amended :
    Banamex._parse_amount_token "1,600.00" = 1600 ∧
    Banamex._parse_amount_token "62.18-" = -(6218 / 100 : ℚ) ∧
    Banamex._parse_amount_token "" = 0 ∧
    Banamex._parse_amount_token "(50.00)" = 0 ∧
    Banamex._clean_amount (some "1,600.00") = 1600 ∧
    Banamex._clean_amount (some "") = 0 ∧
    BBVA._clean_amount (some "1,600.00") = 1600 ∧
    BBVA._clean_amount (some "62.18-") = 0 ∧
    BBVA._clean_amount (some "(50.00)") = 0 ∧
    BBVA._clean_amount (some "") = 0 := by
  refine ⟨?_, ?_, ?_, ?_, ?_, ?_, ?_, ?_, ?_, ?_⟩ <;> decide

/-! ## C7 — date normalization -/

/-- C7 counterexample: date normalization does not guarantee
null-or-valid-calendar-date.  The Banamex normalizer maps the garbage
fragment `"5 13"` to `"2024-13-05"` (month 13), and a BBVA debit line
with the unknown month token `XYZ` yields the date `"2024-00-02"`
(month `00`), not null. -/
theorem C7_counterexample :
    Banamex._format_date_banamex "5 13" "2024" = some "2024-13-05" ∧
    (BBVA.mkDebTx ⟨(100, 140), (200, 240), (300, 340)⟩ [] "2024"
        [⟨"02/XYZ", 10, 20, 110⟩] "02" "XYZ").Fecha = some "2024-00-02" := by
  refine ⟨by decide, by decide⟩

/-- C7 (amended): both normalizers are total and never raise, and
`"15 AGO"` with year `"2024"` yields `"2024-08-15"`; the Banamex
normalizer yields null when the cleaned fragment does not split into
digit day/month tokens (e.g. on garbage), and every non-null result has
the shape `year-MM-DD` with the month and day tokens zero-padded to two
digits but **without** calendar validation; the BBVA debit date is never
null: it is always `year-MM-day` where `MM` is the month-map lookup with
default `'00'`. -/
theorem C7_amended :
    Banamex._format_date_banamex "15 AGO" "2024" = some "2024-08-15" ∧
    Banamex._format_date_banamex "GARBAGE" "2024" = none ∧
    (∀ s y r, Banamex._format_date_banamex s y = some r →
      ∃ eff m d, Py.isdigitStr d = true ∧ Py.isdigitStr m = true ∧
        r = eff ++ "-" ++ Py.zfill m 2 ++ "-" ++ Py.zfill d 2) ∧
    (∀ cb pw y lw d m, (BBVA.mkDebTx cb pw y lw d m).Fecha =
      some (y ++ "-" ++ BBVA.lookupMonth (Py.upper m) ++ "-" ++ d)) := by
  refine ⟨by decide, by decide, ?_, fun cb pw y lw d m => rfl⟩
  intro s y r h
  unfold Banamex._format_date_banamex at h
  split at h
  · exact absurd h (by simp)
  · simp only [] at h
    split at h
    case _ xs d m tl hsp =>
      split at h
      case isTrue hd =>
        exact ⟨_, m, d, (Bool.and_eq_true _ _ ▸ hd).1,
          (Bool.and_eq_true _ _ ▸ hd).2, (Option.some.inj h).symm⟩
      case isFalse => exact absurd h (by simp)
    case _ => exact absurd h (by simp)

/-- C7 witness: the amended shape property instantiated at `"15 AGO"`. -/
theorem C7_witness :
    Banamex._format_date_banamex "15 AGO" "2024" = some "2024-08-15" ∧
    ∃ eff m d, Py.isdigitStr d = true ∧ Py.isdigitStr m = true ∧
      "2024-08-15" = eff ++ "-" ++ Py.zfill m 2 ++ "-" ++ Py.zfill d 2 :=
  ⟨C7_amended.1, C7_amended.2.2.1 "15 AGO" "2024" "2024-08-15" C7_amended.1⟩

/-! ## C5 — column boundary detector -/

/-- C5 counterexample: a BBVA page carrying both the charge (`CARGOS`)
and credit (`ABONOS`) header labels but no balance label yields **null**
(the BBVA detector demands all three roles), contradicting the claim
that both charge and credit suffice with balance optional. -/
theorem C5_counterexample :
    c5Page.wordsT2.map Word.text = ["CARGOS", "ABONOS"] ∧
    BBVA.find_column_boundaries c5Page = none := by
  refine ⟨by decide, by decide⟩

/-- The word carries the charge-column label (first branch of
`Banamex.boundStep`). -/
def bmxRetLabel (w : Word) : Bool := "RETIRO".data.isPrefixOf (Py.upper w.text).data

/-- The word carries the credit-column label (second branch of
`Banamex.boundStep`). -/
def bmxDepLabel (w : Word) : Bool :=
  !bmxRetLabel w &&
    ("DEPOSITO".data.isPrefixOf (Py.upper w.text).data ||
     "DEPÓSITO".data.isPrefixOf (Py.upper w.text).data)

lemma bmx_boundStep_retiro (b : Banamex.BDict) (w : Word) :
    (Banamex.boundStep b w).retiro
      = if bmxRetLabel w then some (w.x0, w.x1) else b.retiro := by
  by_cases h1 : "RETIRO".data.isPrefixOf (Py.upper w.text).data
  · simp [Banamex.boundStep, bmxRetLabel, h1]
  · by_cases h2 : ("DEPOSITO".data.isPrefixOf (Py.upper w.text).data ||
                   "DEPÓSITO".data.isPrefixOf (Py.upper w.text).data)
    · simp [Banamex.boundStep, bmxRetLabel, h1, h2]
    · by_cases h3 : "SALDO".data.isPrefixOf (Py.upper w.text).data <;>
        simp [Banamex.boundStep, bmxRetLabel, h1, h2, h3]

lemma bmx_boundStep_deposito (b : Banamex.BDict) (w : Word) :
    (Banamex.boundStep b w).deposito
      = if bmxDepLabel w then some (w.x0, w.x1) else b.deposito := by
  by_cases h1 : "RETIRO".data.isPrefixOf (Py.upper w.text).data
  · simp [Banamex.boundStep, bmxDepLabel, bmxRetLabel, h1]
  · by_cases h2 : ("DEPOSITO".data.isPrefixOf (Py.upper w.text).data ||
                   "DEPÓSITO".data.isPrefixOf (Py.upper w.text).data)
    · simp [Banamex.boundStep, bmxDepLabel, bmxRetLabel, h1, h2]
    · by_cases h3 : "SALDO".data.isPrefixOf (Py.upper w.text).data <;>
        simp [Banamex.boundStep, bmxDepLabel, bmxRetLabel, h1, h2, h3]

lemma bmx_fold_retiro_isSome (l : List Word) (b : Banamex.BDict) :
    ((l.foldl Banamex.boundStep b).retiro.isSome : Bool)
      = (b.retiro.isSome || l.any bmxRetLabel) := by
  induction l generalizing b with
  | nil => simp
  | cons w l ih =>
    simp only [List.foldl_cons, List.any_cons, ih, bmx_boundStep_retiro]
    by_cases h : bmxRetLabel w <;> simp [h]

lemma bmx_fold_deposito_isSome (l : List Word) (b : Banamex.BDict) :
    ((l.foldl Banamex.boundStep b).deposito.isSome : Bool)
      = (b.deposito.isSome || l.any bmxDepLabel) := by
  induction l generalizing b with
  | nil => simp
  | cons w l ih =>
    simp only [List.foldl_cons, List.any_cons, ih, bmx_boundStep_deposito]
    by_cases h : bmxDepLabel w <;> simp [h]

lemma bbva_boundStep_retiro (words : List Word) (b : BBVA.BDict) (w : Word) :
    (BBVA.boundStep words b w).retiro
      = if Py.upper w.text = "CARGOS" then some (w.x0, w.x1) else b.retiro := by
  cases hl : (words.filter (fun v => Py.upper v.text = "SALDO")).getLast? with
  | none =>
    by_cases h1 : Py.upper w.text = "CARGOS"
    · simp [BBVA.boundStep, h1]
    · by_cases h2 : Py.upper w.text = "ABONOS"
      · simp [BBVA.boundStep, h1, h2]
      · by_cases h3 : (Py.upper w.text = "SALDO" ∧ b.saldo = none) <;>
          simp [BBVA.boundStep, h1, h2, h3, hl]
  | some last =>
    by_cases h1 : Py.upper w.text = "CARGOS"
    · simp [BBVA.boundStep, h1]
    · by_cases h2 : Py.upper w.text = "ABONOS"
      · simp [BBVA.boundStep, h1, h2]
      · by_cases h3 : (Py.upper w.text = "SALDO" ∧ b.saldo = none) <;>
          simp [BBVA.boundStep, h1, h2, h3, hl]

lemma bbva_boundStep_deposito (words : List Word) (b : BBVA.BDict) (w : Word) :
    (BBVA.boundStep words b w).deposito
      = if Py.upper w.text = "ABONOS" then some (w.x0, w.x1) else b.deposito := by
  cases hl : (words.filter (fun v => Py.upper v.text = "SALDO")).getLast? with
  | none =>
    by_cases h1 : Py.upper w.text = "CARGOS"
    · have h2 : ¬(Py.upper w.text = "ABONOS") := by rw [h1]; decide
      simp [BBVA.boundStep, h1, h2]
    · by_cases h2 : Py.upper w.text = "ABONOS"
      · simp [BBVA.boundStep, h1, h2]
      · by_cases h3 : (Py.upper w.text = "SALDO" ∧ b.saldo = none) <;>
          simp [BBVA.boundStep, h1, h2, h3, hl]
  | some last =>
    by_cases h1 : Py.upper w.text = "CARGOS"
    · have h2 : ¬(Py.upper w.text = "ABONOS") := by rw [h1]; decide
      simp [BBVA.boundStep, h1, h2]
    · by_cases h2 : Py.upper w.text = "ABONOS"
      · simp [BBVA.boundStep, h1, h2]
      · by_cases h3 : (Py.upper w.text = "SALDO" ∧ b.saldo = none) <;>
          simp [BBVA.boundStep, h1, h2, h3, hl]

lemma bbva_boundStep_saldo_isSome (words : List Word) (b : BBVA.BDict) (w : Word) :
    ((BBVA.boundStep words b w).saldo.isSome : Bool)
      = (b.saldo.isSome ||
         (decide (Py.upper w.text = "SALDO") &&
          (words.filter (fun v => Py.upper v.text = "SALDO")).getLast?.isSome)) := by
  cases hl : (words.filter (fun v => Py.upper v.text = "SALDO")).getLast? with
  | none =>
    by_cases h1 : Py.upper w.text = "CARGOS"
    · have h3 : ¬(Py.upper w.text = "SALDO") := by rw [h1]; decide
      simp [BBVA.boundStep, h1, h3, hl]
    · by_cases h2 : Py.upper w.text = "ABONOS"
      · have h3 : ¬(Py.upper w.text = "SALDO") := by rw [h2]; decide
        simp [BBVA.boundStep, h1, h2, h3, hl]
      · by_cases h3 : (Py.upper w.text = "SALDO" ∧ b.saldo = none)
        · simp [BBVA.boundStep, h1, h2, h3, hl, Option.isSome_none, h3.1]
        · by_cases h4 : Py.upper w.text = "SALDO"
          · have h5 : b.saldo.isSome := by
              rcases hb : b.saldo with _ | v
              · exact absurd ⟨h4, hb⟩ h3
              · simp
            simp [BBVA.boundStep, h1, h2, h3, hl, h4, h5]
          · simp [BBVA.boundStep, h1, h2, h3, hl, h4]
  | some last =>
    by_cases h1 : Py.upper w.text = "CARGOS"
    · have h3 : ¬(Py.upper w.text = "SALDO") := by rw [h1]; decide
      simp [BBVA.boundStep, h1, h3, hl]
    · by_cases h2 : Py.upper w.text = "ABONOS"
      · have h3 : ¬(Py.upper w.text = "SALDO") := by rw [h2]; decide
        simp [BBVA.boundStep, h1, h2, h3, hl]
      · by_cases h3 : (Py.upper w.text = "SALDO" ∧ b.saldo = none)
        · simp [BBVA.boundStep, h1, h2, h3, hl, h3.1]
        · by_cases h4 : Py.upper w.text = "SALDO"
          · have h6 : b.saldo ≠ none := fun hb => h3 ⟨h4, hb⟩
            simp [BBVA.boundStep, h1, h2, h3, hl, h4, h6,
              Option.isSome_iff_ne_none]
          · simp [BBVA.boundStep, h1, h2, h3, hl, h4]

lemma bbva_fold_retiro_isSome (words l : List Word) (b : BBVA.BDict) :
    ((l.foldl (BBVA.boundStep words) b).retiro.isSome : Bool)
      = (b.retiro.isSome || l.any (fun w => Py.upper w.text = "CARGOS")) := by
  induction l generalizing b with
  | nil => simp
  | cons w l ih =>
    simp only [List.foldl_cons, List.any_cons, ih, bbva_boundStep_retiro]
    by_cases h : Py.upper w.text = "CARGOS" <;> simp [h]

lemma bbva_fold_deposito_isSome (words l : List Word) (b : BBVA.BDict) :
    ((l.foldl (BBVA.boundStep words) b).deposito.isSome : Bool)
      = (b.deposito.isSome || l.any (fun w => Py.upper w.text = "ABONOS")) := by
  induction l generalizing b with
  | nil => simp
  | cons w l ih =>
    simp only [List.foldl_cons, List.any_cons, ih, bbva_boundStep_deposito]
    by_cases h : Py.upper w.text = "ABONOS" <;> simp [h]

lemma bbva_fold_saldo_isSome (words l : List Word) (b : BBVA.BDict) :
    ((l.foldl (BBVA.boundStep words) b).saldo.isSome : Bool)
      = (b.saldo.isSome ||
         (l.any (fun w => Py.upper w.text = "SALDO") &&
          (words.filter (fun v => Py.upper v.text = "SALDO")).getLast?.isSome)) := by
  induction l generalizing b with
  | nil => simp
  | cons w l ih =>
    simp only [List.foldl_cons, List.any_cons, ih, bbva_boundStep_saldo_isSome]
    by_cases h : Py.upper w.text = "SALDO" <;>
      by_cases h2 : (words.filter (fun v => Py.upper v.text = "SALDO")).getLast?.isSome <;>
      cases hb : b.saldo.isSome <;>
      simp [h, h2, hb, Bool.or_assoc]



lemma bmx_fcb_isSome (p : Page) :
    ((Banamex.find_column_boundaries p).isSome : Bool)
      = ((p.wordsT2.filter (fun w => w.top < p.height * (1/2))).any bmxRetLabel &&
         (p.wordsT2.filter (fun w => w.top < p.height * (1/2))).any bmxDepLabel) := by
  have hr := bmx_fold_retiro_isSome
    (p.wordsT2.filter (fun w => w.top < p.height * (1/2))) ⟨none, none, none⟩
  have hd := bmx_fold_deposito_isSome
    (p.wordsT2.filter (fun w => w.top < p.height * (1/2))) ⟨none, none, none⟩
  simp only [Option.isSome_none, Bool.false_or] at hr hd
  unfold Banamex.find_column_boundaries
  simp only []
  rcases hR : (List.foldl Banamex.boundStep ⟨none, none, none⟩
      (p.wordsT2.filter (fun w => w.top < p.height * (1/2)))).retiro with _ | r <;>
    rcases hD : (List.foldl Banamex.boundStep ⟨none, none, none⟩
      (p.wordsT2.filter (fun w => w.top < p.height * (1/2)))).deposito with _ | d <;>
    rw [hR] at hr <;> rw [hD] at hd <;> rw [← hr, ← hd] <;> rfl

lemma bbva_fcb_isSome (p : Page) :
    ((BBVA.find_column_boundaries p).isSome : Bool)
      = (p.wordsT2.any (fun w => Py.upper w.text = "CARGOS") &&
         (p.wordsT2.any (fun w => Py.upper w.text = "ABONOS") &&
          p.wordsT2.any (fun w => Py.upper w.text = "SALDO"))) := by
  have hr := bbva_fold_retiro_isSome p.wordsT2 p.wordsT2 ⟨none, none, none⟩
  have hd := bbva_fold_deposito_isSome p.wordsT2 p.wordsT2 ⟨none, none, none⟩
  have hs := bbva_fold_saldo_isSome p.wordsT2 p.wordsT2 ⟨none, none, none⟩
  have hfilter : ((p.wordsT2.filter (fun v => Py.upper v.text = "SALDO")).getLast?.isSome : Bool)
      = p.wordsT2.any (fun w => Py.upper w.text = "SALDO") := by
    rcases hg : (p.wordsT2.filter (fun v => Py.upper v.text = "SALDO")).getLast? with _ | v
    · rcases hany : p.wordsT2.any (fun w => Py.upper w.text = "SALDO") with _ | _
      · simp [hg]
      · exfalso
        rw [List.getLast?_eq_none_iff] at hg
        rcases List.any_eq_true.mp hany with ⟨w, hw, hws⟩
        exact List.filter_eq_nil_iff.mp hg w hw hws
    · have hne : p.wordsT2.filter (fun v => Py.upper v.text = "SALDO") ≠ [] := by
        intro hnil
        rw [hnil] at hg
        simp at hg
      rcases List.exists_mem_of_ne_nil _ hne with ⟨w, hw⟩
      have hmf := List.mem_filter.mp hw
      have hany : p.wordsT2.any (fun w => Py.upper w.text = "SALDO") = true :=
        List.any_eq_true.mpr ⟨w, hmf.1, hmf.2⟩
      simp [hg, hany]
  simp only [Option.isSome_none, Bool.false_or] at hr hd hs
  rw [hfilter, Bool.and_self] at hs
  unfold BBVA.find_column_boundaries
  simp only []
  rcases hR : (List.foldl (BBVA.boundStep p.wordsT2) ⟨none, none, none⟩ p.wordsT2).retiro
      with _ | r <;>
    rcases hD : (List.foldl (BBVA.boundStep p.wordsT2) ⟨none, none, none⟩
      p.wordsT2).deposito with _ | d <;>
    rcases hS : (List.foldl (BBVA.boundStep p.wordsT2) ⟨none, none, none⟩
      p.wordsT2).saldo with _ | sl <;>
    rw [hR] at hr <;> rw [hD] at hd <;> rw [hS] at hs <;>
    rw [← hr, ← hd, ← hs] <;> rfl

/-- C5 (amended): the Banamex detector returns a non-null mapping exactly
when both a charge label (`RETIRO…`) and a credit label
(`DEPOSITO…`/`DEPÓSITO…`) occur among the upper-half header words — the
balance label is optional there; the BBVA detector instead returns
non-null exactly when **all three** labels `CARGOS`, `ABONOS` and `SALDO`
occur among the page's words (fewer than three resolved roles, not fewer
than two, yields null). -/
theorem C5_amended :
    (∀ p : Page,
      (Banamex.find_column_boundaries p).isSome = true ↔
        ((p.wordsT2.filter (fun w => w.top < p.height * (1/2))).any bmxRetLabel = true ∧
         (p.wordsT2.filter (fun w => w.top < p.height * (1/2))).any bmxDepLabel = true)) ∧
    (∀ p : Page,
      (BBVA.find_column_boundaries p).isSome = true ↔
        (p.wordsT2.any (fun w => Py.upper w.text = "CARGOS") = true ∧
         p.wordsT2.any (fun w => Py.upper w.text = "ABONOS") = true ∧
         p.wordsT2.any (fun w => Py.upper w.text = "SALDO") = true)) := by
  constructor
  · intro p
    rw [bmx_fcb_isSome]
    exact Iff.of_eq (Bool.and_eq_true _ _)
  · intro p
    rw [bbva_fcb_isSome]
    simp [Bool.and_eq_true]


/-! ## C10 — line grouper -/

lemma sortLine_length (l : List Word) :
    (Banamex.sortLine l).length = l.length := by
  unfold Banamex.sortLine
  exact List.length_mergeSort l

lemma sortLine_mem {w : Word} {l : List Word} :
    w ∈ Banamex.sortLine l ↔ w ∈ l :=
  (List.mergeSort_perm l _).mem_iff

lemma sortLine_sorted (l : List Word) :
    (Banamex.sortLine l).Pairwise (fun a b => a.x0 ≤ b.x0) := by
  have h := @List.sorted_mergeSort Word (fun a b => decide (a.x0 ≤ b.x0))
    (fun a b c hab hbc => by
      simp only [decide_eq_true_eq] at *
      exact le_trans hab hbc)
    (fun a b => by
      simp only [Bool.or_eq_true, decide_eq_true_eq]
      exact le_total a.x0 b.x0)
    l
  exact h.imp (fun hab => of_decide_eq_true hab)

lemma groupGo_length_sum (tol : ℚ) (ws cur : List Word) :
    ((Banamex.groupGo tol ws cur).map List.length).sum = ws.length + cur.length := by
  induction ws generalizing cur with
  | nil => simp [Banamex.groupGo, sortLine_length]
  | cons w ws ih =>
    cases cur with
    | nil =>
      rw [show Banamex.groupGo tol (w :: ws) [] = Banamex.groupGo tol ws [w] from rfl, ih]
      simp
    | cons last rest =>
      by_cases h : |w.top - last.top| ≤ tol
      · rw [show Banamex.groupGo tol (w :: ws) (last :: rest)
            = Banamex.groupGo tol ws (w :: last :: rest) from by
          simp [Banamex.groupGo, h], ih]
        simp only [List.length_cons, List.length_nil, List.length_reverse]
        omega
      · rw [show Banamex.groupGo tol (w :: ws) (last :: rest)
            = Banamex.sortLine (last :: rest).reverse :: Banamex.groupGo tol ws [w] from by
          simp [Banamex.groupGo, h]]
        simp only [List.map_cons, List.sum_cons, ih, sortLine_length]
        simp only [List.length_cons, List.length_nil, List.length_reverse]
        omega

lemma groupGo_sorted (tol : ℚ) (ws : List Word) :
    ∀ cur l, l ∈ Banamex.groupGo tol ws cur →
      l.Pairwise (fun a b => a.x0 ≤ b.x0) := by
  induction ws with
  | nil =>
    intro cur l hl
    simp only [Banamex.groupGo, List.mem_singleton] at hl
    subst hl
    exact sortLine_sorted _
  | cons w ws ih =>
    intro cur l hl
    cases cur with
    | nil =>
      simp only [Banamex.groupGo] at hl
      exact ih _ _ hl
    | cons last rest =>
      by_cases h : |w.top - last.top| ≤ tol
      · simp only [Banamex.groupGo, h, if_true] at hl
        exact ih _ _ hl
      · simp only [Banamex.groupGo, h, if_false, List.mem_cons] at hl
        rcases hl with rfl | hl
        · exact sortLine_sorted _
        · exact ih _ _ hl

lemma groupGo_mem (tol : ℚ) (ws : List Word) :
    ∀ cur l w, l ∈ Banamex.groupGo tol ws cur → w ∈ l → w ∈ ws ∨ w ∈ cur := by
  induction ws with
  | nil =>
    intro cur l w hl hw
    simp only [Banamex.groupGo, List.mem_singleton] at hl
    subst hl
    right
    have := sortLine_mem.mp hw
    rwa [List.mem_reverse] at this
  | cons x ws ih =>
    intro cur l w hl hw
    cases cur with
    | nil =>
      simp only [Banamex.groupGo] at hl
      rcases ih _ _ _ hl hw with h | h
      · exact Or.inl (List.mem_cons_of_mem _ h)
      · simp only [List.mem_singleton] at h
        exact Or.inl (h ▸ List.mem_cons_self _ _)
    | cons last rest =>
      by_cases h : |x.top - last.top| ≤ tol
      · simp only [Banamex.groupGo, h, if_true] at hl
        rcases ih _ _ _ hl hw with hm | hm
        · exact Or.inl (List.mem_cons_of_mem _ hm)
        · rcases List.mem_cons.mp hm with rfl | hm
          · exact Or.inl (List.mem_cons_self _ _)
          · exact Or.inr hm
      · simp only [Banamex.groupGo, h, if_false, List.mem_cons] at hl
        rcases hl with rfl | hl
        · have := sortLine_mem.mp hw
          rw [List.mem_reverse] at this
          exact Or.inr this
        · rcases ih _ _ _ hl hw with hm | hm
          · exact Or.inl (List.mem_cons_of_mem _ hm)
          · simp only [List.mem_singleton] at hm
            exact Or.inl (hm ▸ List.mem_cons_self _ _)

/-- Word-count conservation for the grouper (both dialects share the
code). -/
lemma group_length_sum (ws : List Word) :
    ((Banamex.group_words_into_lines ws).map List.length).sum = ws.length := by
  cases ws with
  | nil => simp [Banamex.group_words_into_lines]
  | cons w ws =>
    unfold Banamex.group_words_into_lines
    rw [groupGo_length_sum]
    simp

/-- Every word of a grouped line comes from the input list. -/
lemma group_mem (ws : List Word) (l : List Word) (w : Word)
    (hl : l ∈ Banamex.group_words_into_lines ws) (hw : w ∈ l) : w ∈ ws := by
  cases ws with
  | nil => simp [Banamex.group_words_into_lines] at hl
  | cons x ws =>
    unfold Banamex.group_words_into_lines at hl
    rcases groupGo_mem 3 ws [x] l w hl hw with h | h
    · exact List.mem_cons_of_mem _ h
    · simp only [List.mem_singleton] at h
      exact h ▸ List.mem_cons_self _ _

lemma group_sorted (ws l : List Word)
    (hl : l ∈ Banamex.group_words_into_lines ws) :
    l.Pairwise (fun a b => a.x0 ≤ b.x0) := by
  cases ws with
  | nil => simp [Banamex.group_words_into_lines] at hl
  | cons x ws =>
    unfold Banamex.group_words_into_lines at hl
    exact groupGo_sorted 3 ws [x] l hl

/-- C10 (confirmed): the line grouper of either dialect conserves the
total word count (each input word lands in exactly one output line),
returns every line sorted by increasing left x-coordinate, and maps the
empty input to the empty list of lines. -/
theorem C10_theorem :
    (∀ ws : List Word,
      ((Banamex.group_words_into_lines ws).map List.length).sum = ws.length ∧
      ((BBVA.group_words_into_lines ws).map List.length).sum = ws.length) ∧
    (∀ ws l, l ∈ Banamex.group_words_into_lines ws →
      l.Pairwise (fun a b => a.x0 ≤ b.x0)) ∧
    (∀ ws l, l ∈ BBVA.group_words_into_lines ws →
      l.Pairwise (fun a b => a.x0 ≤ b.x0)) ∧
    Banamex.group_words_into_lines [] = [] ∧
    BBVA.group_words_into_lines [] = [] := by
  have hsame : ∀ ws, BBVA.group_words_into_lines ws = Banamex.group_words_into_lines ws := by
    intro ws
    cases ws <;> rfl
  refine ⟨fun ws => ⟨group_length_sum ws, ?_⟩, group_sorted, ?_, rfl, rfl⟩
  · rw [hsame]; exact group_length_sum ws
  · intro ws l hl
    rw [hsame] at hl
    exact group_sorted ws l hl

/-- C10 witness: the grouper properties instantiated on a concrete word
list (two lines, unsorted input). -/
theorem C10_witness :
    ((Banamex.group_words_into_lines
        [⟨"b", 30, 40, 10⟩, ⟨"a", 10, 20, 10⟩, ⟨"c", 5, 8, 30⟩]).map
      List.length).sum = 3 ∧
    ([⟨"a", 10, 20, 10⟩, ⟨"b", 30, 40, 10⟩] : List Word).Pairwise
      (fun a b => a.x0 ≤ b.x0) :=
  ⟨(C10_theorem.1 _).1,
   C10_theorem.2.1 [⟨"b", 30, 40, 10⟩, ⟨"a", 10, 20, 10⟩, ⟨"c", 5, 8, 30⟩]
     [⟨"a", 10, 20, 10⟩, ⟨"b", 30, 40, 10⟩] (by
       rw [show Banamex.group_words_into_lines
           [⟨"b", 30, 40, 10⟩, ⟨"a", 10, 20, 10⟩, ⟨"c", 5, 8, 30⟩]
           = [[⟨"a", 10, 20, 10⟩, ⟨"b", 30, 40, 10⟩], [⟨"c", 5, 8, 30⟩]] from by
           with_unfolding_all decide]
       exact List.mem_cons_self _ _)⟩

/-! ## C1 — amount accumulation inside a block -/

/-- The word is classified into the Banamex charge column (numeric and
inside the `retiro` window). -/
def bmxRetHit (cb : Banamex.Cols) (w : Word) : Bool :=
  Banamex.wordIsNumeric w &&
    (cb.retiro.1 - 20 ≤ (w.x0 + w.x1) / 2 && (w.x0 + w.x1) / 2 ≤ cb.retiro.2 + 20)

/-- The word is classified into the Banamex credit column. -/
def bmxDepHit (cb : Banamex.Cols) (w : Word) : Bool :=
  Banamex.wordIsNumeric w &&
    !(cb.retiro.1 - 20 ≤ (w.x0 + w.x1) / 2 && (w.x0 + w.x1) / 2 ≤ cb.retiro.2 + 20) &&
    (cb.deposito.1 - 20 ≤ (w.x0 + w.x1) / 2 && (w.x0 + w.x1) / 2 ≤ cb.deposito.2 + 20)

/-- The word is classified into the Banamex balance column. -/
def bmxSalHit (cb : Banamex.Cols) (w : Word) : Bool :=
  Banamex.wordIsNumeric w &&
    !(cb.retiro.1 - 20 ≤ (w.x0 + w.x1) / 2 && (w.x0 + w.x1) / 2 ≤ cb.retiro.2 + 20) &&
    !(cb.deposito.1 - 20 ≤ (w.x0 + w.x1) / 2 && (w.x0 + w.x1) / 2 ≤ cb.deposito.2 + 20) &&
    (match cb.saldo with
     | some sb => (sb.1 - 20 ≤ (w.x0 + w.x1) / 2 && (w.x0 + w.x1) / 2 ≤ sb.2 + 20 : Bool)
     | none => false)

/-- The parsed value a classified word contributes. -/
def bmxVal (w : Word) : ℚ := Banamex._clean_amount (some w.text)

lemma bmx_classify_retiro (cb : Banamex.Cols) (a : Banamex.Amts) (w : Word) :
    (Banamex.classifyWord cb a w).retiro
      = if bmxRetHit cb w then a.retiro + bmxVal w else a.retiro := by
  unfold Banamex.classifyWord bmxRetHit bmxVal
  simp only []
  rcases hs : cb.saldo with _ | sb
  · by_cases h1 : Banamex.wordIsNumeric w <;>
    by_cases hA : cb.retiro.1 - 20 ≤ (w.x0 + w.x1) / 2 <;>
    by_cases hB : (w.x0 + w.x1) / 2 ≤ cb.retiro.2 + 20 <;>
    by_cases hC : cb.deposito.1 - 20 ≤ (w.x0 + w.x1) / 2 <;>
    by_cases hD : (w.x0 + w.x1) / 2 ≤ cb.deposito.2 + 20 <;>
      simp only [hs, h1, hA, hB, hC, hD, Bool.and_eq_true, decide_eq_true_eq,
        true_and, false_and, and_true, and_false, if_true, if_false,
        ite_true, ite_false, eq_self_iff_true, Bool.true_and, Bool.false_and,
        not_true, not_false_iff, Bool.not_eq_true, Bool.false_eq_true] <;> rfl
  · by_cases h1 : Banamex.wordIsNumeric w <;>
    by_cases hA : cb.retiro.1 - 20 ≤ (w.x0 + w.x1) / 2 <;>
    by_cases hB : (w.x0 + w.x1) / 2 ≤ cb.retiro.2 + 20 <;>
    by_cases hC : cb.deposito.1 - 20 ≤ (w.x0 + w.x1) / 2 <;>
    by_cases hD : (w.x0 + w.x1) / 2 ≤ cb.deposito.2 + 20 <;>
    by_cases hE : sb.1 - 20 ≤ (w.x0 + w.x1) / 2 <;>
    by_cases hF : (w.x0 + w.x1) / 2 ≤ sb.2 + 20 <;>
      simp only [hs, h1, hA, hB, hC, hD, hE, hF, Bool.and_eq_true, decide_eq_true_eq,
        true_and, false_and, and_true, and_false, if_true, if_false,
        ite_true, ite_false, eq_self_iff_true, Bool.true_and, Bool.false_and,
        not_true, not_false_iff, Bool.not_eq_true, Bool.false_eq_true] <;> rfl

lemma bmx_classify_deposito (cb : Banamex.Cols) (a : Banamex.Amts) (w : Word) :
    (Banamex.classifyWord cb a w).deposito
      = if bmxDepHit cb w then a.deposito + bmxVal w else a.deposito := by
  unfold Banamex.classifyWord bmxDepHit bmxVal
  simp only []
  rcases hs : cb.saldo with _ | sb
  · by_cases h1 : Banamex.wordIsNumeric w <;>
    by_cases hA : cb.retiro.1 - 20 ≤ (w.x0 + w.x1) / 2 <;>
    by_cases hB : (w.x0 + w.x1) / 2 ≤ cb.retiro.2 + 20 <;>
    by_cases hC : cb.deposito.1 - 20 ≤ (w.x0 + w.x1) / 2 <;>
    by_cases hD : (w.x0 + w.x1) / 2 ≤ cb.deposito.2 + 20 <;>
      simp only [hs, h1, hA, hB, hC, hD, Bool.and_eq_true, decide_eq_true_eq,
        true_and, false_and, and_true, and_false, if_true, if_false,
        ite_true, ite_false, eq_self_iff_true, Bool.true_and, Bool.false_and,
        not_true, not_false_iff, Bool.not_eq_true, Bool.false_eq_true] <;> rfl
  · by_cases h1 : Banamex.wordIsNumeric w <;>
    by_cases hA : cb.retiro.1 - 20 ≤ (w.x0 + w.x1) / 2 <;>
    by_cases hB : (w.x0 + w.x1) / 2 ≤ cb.retiro.2 + 20 <;>
    by_cases hC : cb.deposito.1 - 20 ≤ (w.x0 + w.x1) / 2 <;>
    by_cases hD : (w.x0 + w.x1) / 2 ≤ cb.deposito.2 + 20 <;>
    by_cases hE : sb.1 - 20 ≤ (w.x0 + w.x1) / 2 <;>
    by_cases hF : (w.x0 + w.x1) / 2 ≤ sb.2 + 20 <;>
      simp only [hs, h1, hA, hB, hC, hD, hE, hF, Bool.and_eq_true, decide_eq_true_eq,
        true_and, false_and, and_true, and_false, if_true, if_false,
        ite_true, ite_false, eq_self_iff_true, Bool.true_and, Bool.false_and,
        not_true, not_false_iff, Bool.not_eq_true, Bool.false_eq_true] <;> rfl

lemma bmx_classify_saldo (cb : Banamex.Cols) (a : Banamex.Amts) (w : Word) :
    (Banamex.classifyWord cb a w).saldo
      = if bmxSalHit cb w then bmxVal w else a.saldo := by
  unfold Banamex.classifyWord bmxSalHit bmxVal
  simp only []
  rcases hs : cb.saldo with _ | sb
  · by_cases h1 : Banamex.wordIsNumeric w <;>
    by_cases hA : cb.retiro.1 - 20 ≤ (w.x0 + w.x1) / 2 <;>
    by_cases hB : (w.x0 + w.x1) / 2 ≤ cb.retiro.2 + 20 <;>
    by_cases hC : cb.deposito.1 - 20 ≤ (w.x0 + w.x1) / 2 <;>
    by_cases hD : (w.x0 + w.x1) / 2 ≤ cb.deposito.2 + 20 <;>
      simp only [hs, h1, hA, hB, hC, hD, Bool.and_eq_true, decide_eq_true_eq,
        true_and, false_and, and_true, and_false, if_true, if_false,
        ite_true, ite_false, eq_self_iff_true, Bool.true_and, Bool.false_and,
        not_true, not_false_iff, Bool.not_eq_true, Bool.false_eq_true] <;> rfl
  · by_cases h1 : Banamex.wordIsNumeric w <;>
    by_cases hA : cb.retiro.1 - 20 ≤ (w.x0 + w.x1) / 2 <;>
    by_cases hB : (w.x0 + w.x1) / 2 ≤ cb.retiro.2 + 20 <;>
    by_cases hC : cb.deposito.1 - 20 ≤ (w.x0 + w.x1) / 2 <;>
    by_cases hD : (w.x0 + w.x1) / 2 ≤ cb.deposito.2 + 20 <;>
    by_cases hE : sb.1 - 20 ≤ (w.x0 + w.x1) / 2 <;>
    by_cases hF : (w.x0 + w.x1) / 2 ≤ sb.2 + 20 <;>
      simp only [hs, h1, hA, hB, hC, hD, hE, hF, Bool.and_eq_true, decide_eq_true_eq,
        true_and, false_and, and_true, and_false, if_true, if_false,
        ite_true, ite_false, eq_self_iff_true, Bool.true_and, Bool.false_and,
        not_true, not_false_iff, Bool.not_eq_true, Bool.false_eq_true] <;> rfl

lemma bmx_fold_retiro (cb : Banamex.Cols) (ws : List Word) (a : Banamex.Amts) :
    (ws.foldl (Banamex.classifyWord cb) a).retiro
      = a.retiro + ((ws.filter (bmxRetHit cb)).map bmxVal).sum := by
  induction ws generalizing a with
  | nil => simp
  | cons w ws ih =>
    simp only [List.foldl_cons, ih, List.filter_cons]
    by_cases h : bmxRetHit cb w
    · simp [h, bmx_classify_retiro, add_assoc]
    · simp [h, bmx_classify_retiro]

lemma bmx_fold_deposito (cb : Banamex.Cols) (ws : List Word) (a : Banamex.Amts) :
    (ws.foldl (Banamex.classifyWord cb) a).deposito
      = a.deposito + ((ws.filter (bmxDepHit cb)).map bmxVal).sum := by
  induction ws generalizing a with
  | nil => simp
  | cons w ws ih =>
    simp only [List.foldl_cons, ih, List.filter_cons]
    by_cases h : bmxDepHit cb w
    · simp [h, bmx_classify_deposito, add_assoc]
    · simp [h, bmx_classify_deposito]

lemma getLastD_cons {α : Type} (c d : α) (M : List α) :
    ((c :: M).getLast?).getD d = (M.getLast?).getD c := by
  cases M with
  | nil => rfl
  | cons x xs =>
    rw [List.getLast?_cons_cons]
    rcases hg : (x :: xs).getLast? with _ | v
    · exact absurd hg (by simp)
    · rfl

lemma bmx_fold_saldo (cb : Banamex.Cols) (ws : List Word) (a : Banamex.Amts) :
    (ws.foldl (Banamex.classifyWord cb) a).saldo
      = (((ws.filter (bmxSalHit cb)).map bmxVal).getLast?).getD a.saldo := by
  induction ws generalizing a with
  | nil => simp
  | cons w ws ih =>
    simp only [List.foldl_cons, ih, List.filter_cons]
    by_cases h : bmxSalHit cb w
    · simp only [h, if_true, List.map_cons, getLastD_cons]
      rw [bmx_classify_saldo]
      simp [h]
    · simp only [h]
      rw [bmx_classify_saldo]
      simp [h]

/-- The word falls into the BBVA debit charge column (position only; no
numeric test in `parse_debito`). -/
def bbvaRetHit (cb : BBVA.Cols) (w : Word) : Bool :=
  cb.retiro.1 ≤ (w.x0 + w.x1) / 2 && (w.x0 + w.x1) / 2 ≤ cb.retiro.2 + 20

/-- The word falls into the BBVA debit credit column. -/
def bbvaDepHit (cb : BBVA.Cols) (w : Word) : Bool :=
  !(cb.retiro.1 ≤ (w.x0 + w.x1) / 2 && (w.x0 + w.x1) / 2 ≤ cb.retiro.2 + 20) &&
  (cb.deposito.1 ≤ (w.x0 + w.x1) / 2 && (w.x0 + w.x1) / 2 ≤ cb.deposito.2 + 20)

/-- The word falls into the BBVA debit balance column. -/
def bbvaSalHit (cb : BBVA.Cols) (w : Word) : Bool :=
  !(cb.retiro.1 ≤ (w.x0 + w.x1) / 2 && (w.x0 + w.x1) / 2 ≤ cb.retiro.2 + 20) &&
  !(cb.deposito.1 ≤ (w.x0 + w.x1) / 2 && (w.x0 + w.x1) / 2 ≤ cb.deposito.2 + 20) &&
  (cb.saldo.1 ≤ (w.x0 + w.x1) / 2 && (w.x0 + w.x1) / 2 ≤ cb.saldo.2 + 40)

/-- The parsed value a BBVA-classified word contributes. -/
def bbvaVal (w : Word) : ℚ := BBVA._clean_amount (some w.text)

lemma bbva_debClassify_retiro (cb : BBVA.Cols) (a : BBVA.DebAmts) (w : Word) :
    (BBVA.debClassify cb a w).retiro
      = if bbvaRetHit cb w then bbvaVal w else a.retiro := by
  unfold BBVA.debClassify bbvaRetHit bbvaVal
  simp only []
  by_cases hA : cb.retiro.1 ≤ (w.x0 + w.x1) / 2 <;>
  by_cases hB : (w.x0 + w.x1) / 2 ≤ cb.retiro.2 + 20 <;>
  by_cases hC : cb.deposito.1 ≤ (w.x0 + w.x1) / 2 <;>
  by_cases hD : (w.x0 + w.x1) / 2 ≤ cb.deposito.2 + 20 <;>
  by_cases hE : cb.saldo.1 ≤ (w.x0 + w.x1) / 2 <;>
  by_cases hF : (w.x0 + w.x1) / 2 ≤ cb.saldo.2 + 40 <;>
    simp only [hA, hB, hC, hD, hE, hF, Bool.and_eq_true, decide_eq_true_eq,
      Bool.not_eq_true', decide_eq_false_iff_not,
      true_and, false_and, and_true, and_false, if_true, if_false,
      ite_true, ite_false, eq_self_iff_true, not_true, not_false_iff,
      Bool.not_eq_true, Bool.false_eq_true] <;> rfl

lemma bbva_debClassify_deposito (cb : BBVA.Cols) (a : BBVA.DebAmts) (w : Word) :
    (BBVA.debClassify cb a w).deposito
      = if bbvaDepHit cb w then bbvaVal w else a.deposito := by
  unfold BBVA.debClassify bbvaDepHit bbvaVal
  simp only []
  by_cases hA : cb.retiro.1 ≤ (w.x0 + w.x1) / 2 <;>
  by_cases hB : (w.x0 + w.x1) / 2 ≤ cb.retiro.2 + 20 <;>
  by_cases hC : cb.deposito.1 ≤ (w.x0 + w.x1) / 2 <;>
  by_cases hD : (w.x0 + w.x1) / 2 ≤ cb.deposito.2 + 20 <;>
  by_cases hE : cb.saldo.1 ≤ (w.x0 + w.x1) / 2 <;>
  by_cases hF : (w.x0 + w.x1) / 2 ≤ cb.saldo.2 + 40 <;>
    simp only [hA, hB, hC, hD, hE, hF, Bool.and_eq_true, decide_eq_true_eq,
      Bool.not_eq_true', decide_eq_false_iff_not,
      true_and, false_and, and_true, and_false, if_true, if_false,
      ite_true, ite_false, eq_self_iff_true, not_true, not_false_iff,
      Bool.not_eq_true, Bool.false_eq_true] <;> rfl

lemma bbva_debClassify_saldo (cb : BBVA.Cols) (a : BBVA.DebAmts) (w : Word) :
    (BBVA.debClassify cb a w).saldo
      = if bbvaSalHit cb w then bbvaVal w else a.saldo := by
  unfold BBVA.debClassify bbvaSalHit bbvaVal
  simp only []
  by_cases hA : cb.retiro.1 ≤ (w.x0 + w.x1) / 2 <;>
  by_cases hB : (w.x0 + w.x1) / 2 ≤ cb.retiro.2 + 20 <;>
  by_cases hC : cb.deposito.1 ≤ (w.x0 + w.x1) / 2 <;>
  by_cases hD : (w.x0 + w.x1) / 2 ≤ cb.deposito.2 + 20 <;>
  by_cases hE : cb.saldo.1 ≤ (w.x0 + w.x1) / 2 <;>
  by_cases hF : (w.x0 + w.x1) / 2 ≤ cb.saldo.2 + 40 <;>
    simp only [hA, hB, hC, hD, hE, hF, Bool.and_eq_true, decide_eq_true_eq,
      Bool.not_eq_true', decide_eq_false_iff_not,
      true_and, false_and, and_true, and_false, if_true, if_false,
      ite_true, ite_false, eq_self_iff_true, not_true, not_false_iff,
      Bool.not_eq_true, Bool.false_eq_true] <;> rfl

lemma bbva_fold_retiro (cb : BBVA.Cols) (ws : List Word) (a : BBVA.DebAmts) :
    (ws.foldl (BBVA.debClassify cb) a).retiro
      = (((ws.filter (bbvaRetHit cb)).map bbvaVal).getLast?).getD a.retiro := by
  induction ws generalizing a with
  | nil => simp
  | cons w ws ih =>
    simp only [List.foldl_cons, ih, List.filter_cons]
    by_cases h : bbvaRetHit cb w
    · simp only [h, if_true, List.map_cons, getLastD_cons]
      rw [bbva_debClassify_retiro]
      simp [h]
    · simp only [h]
      rw [bbva_debClassify_retiro]
      simp [h]

lemma bbva_fold_deposito (cb : BBVA.Cols) (ws : List Word) (a : BBVA.DebAmts) :
    (ws.foldl (BBVA.debClassify cb) a).deposito
      = (((ws.filter (bbvaDepHit cb)).map bbvaVal).getLast?).getD a.deposito := by
  induction ws generalizing a with
  | nil => simp
  | cons w ws ih =>
    simp only [List.foldl_cons, ih, List.filter_cons]
    by_cases h : bbvaDepHit cb w
    · simp only [h, if_true, List.map_cons, getLastD_cons]
      rw [bbva_debClassify_deposito]
      simp [h]
    · simp only [h]
      rw [bbva_debClassify_deposito]
      simp [h]

lemma bbva_fold_saldo (cb : BBVA.Cols) (ws : List Word) (a : BBVA.DebAmts) :
    (ws.foldl (BBVA.debClassify cb) a).saldo
      = (((ws.filter (bbvaSalHit cb)).map bbvaVal).getLast?).getD a.saldo := by
  induction ws generalizing a with
  | nil => simp
  | cons w ws ih =>
    simp only [List.foldl_cons, ih, List.filter_cons]
    by_cases h : bbvaSalHit cb w
    · simp only [h, if_true, List.map_cons, getLastD_cons]
      rw [bbva_debClassify_saldo]
      simp [h]
    · simp only [h]
      rw [bbva_debClassify_saldo]
      simp [h]

/-- C1: counterexample. On a block whose balance column holds `100.00`
followed by `0.00`, the emitted transaction's balance is `0` — the **last**
balance-column value, zero included — not the last **non-zero** value
`100.00` the claim requires. The second conjunct shows both tokens were
classified into the balance column of that block. -/
theorem C1_counterexample :
    Banamex.parse_transactions [c1Page] "2024"
      = [⟨some "2024-01-01", "FOO", 0, 0, 0, none⟩]
    ∧ (Banamex.find_column_boundaries c1Page).map
        (fun cb => (c1TxLine.filter (bmxSalHit cb)).map bmxVal)
      = some [100, 0] := by
  constructor
  · with_unfolding_all decide
  · with_unfolding_all decide

/-- C1: amended accumulation law. In the Banamex word loop the charge and
credit amounts are the **sums** of the tokens classified into those roles
and the balance is the **last** balance-column value (zero or not,
defaulting to `0`); in the BBVA debit word loop **all three** monetary
roles are assignments — last write wins — never sums. -/
theorem C1_amended :
    (∀ (cb : Banamex.Cols) (ws : List Word),
        (ws.foldl (Banamex.classifyWord cb) ⟨0, 0, 0, []⟩).retiro
          = ((ws.filter (bmxRetHit cb)).map bmxVal).sum
      ∧ (ws.foldl (Banamex.classifyWord cb) ⟨0, 0, 0, []⟩).deposito
          = ((ws.filter (bmxDepHit cb)).map bmxVal).sum
      ∧ (ws.foldl (Banamex.classifyWord cb) ⟨0, 0, 0, []⟩).saldo
          = (((ws.filter (bmxSalHit cb)).map bmxVal).getLast?).getD 0)
    ∧ (∀ (cb : BBVA.Cols) (ws : List Word),
        (ws.foldl (BBVA.debClassify cb) ⟨0, 0, 0, []⟩).retiro
          = (((ws.filter (bbvaRetHit cb)).map bbvaVal).getLast?).getD 0
      ∧ (ws.foldl (BBVA.debClassify cb) ⟨0, 0, 0, []⟩).deposito
          = (((ws.filter (bbvaDepHit cb)).map bbvaVal).getLast?).getD 0
      ∧ (ws.foldl (BBVA.debClassify cb) ⟨0, 0, 0, []⟩).saldo
          = (((ws.filter (bbvaSalHit cb)).map bbvaVal).getLast?).getD 0) := by
  constructor
  · intro cb ws
    refine ⟨?_, ?_, ?_⟩
    · rw [bmx_fold_retiro]
      simp
    · rw [bmx_fold_deposito]
      simp
    · rw [bmx_fold_saldo]
  · intro cb ws
    exact ⟨bbva_fold_retiro cb ws _, bbva_fold_deposito cb ws _,
           bbva_fold_saldo cb ws _⟩

/-- C3: counterexample. After the stop marker `GLOSARIO` on page 1 closes
the section, the start marker `DETALLE DE OPERACIONES` on page 2 reopens
it: the transaction dated `02 ENE` on page 2 is emitted. The terminal
state is **not** absorbing across pages. -/
theorem C3_counterexample :
    Banamex.parse_transactions [c3Page1, c3Page2] "2024"
      = [⟨some "2024-01-01", "FOO DETALLE DE OPERACIONES", 100, 0, 0, none⟩,
         ⟨some "2024-01-02", "BAR", 200, 0, 0, none⟩] := by
  with_unfolding_all decide

/-- C3: amended section-state law. A stop marker is absorbing only for the
**remainder of the current page**: inside the section it ends the page scan
at once (discarding every later line of that page, start markers included),
but the scan state it leaves carries `inSec = false` and a later line
holding the start marker switches the scanner back into the section. The
same holds for the BBVA debit scanner. -/
theorem C3_amended :
    (∀ (st : Banamex.ScanSt) (lw : List Word) (rest : List (List Word)),
        st.inSec = true →
        Banamex.isStopLine (Py.upper (lineText lw)) = true →
        Banamex.scanLines st (lw :: rest) = ⟨false, st.cur, st.blocks⟩)
    ∧ (∀ (st : Banamex.ScanSt) (lw : List Word) (rest : List (List Word)),
        st.cur = [] →
        Py.containsSub (Py.upper (lineText lw)) "DETALLE DE OPERACIONES" = true →
        Banamex.isStopLine (Py.upper (lineText lw)) = false →
        Banamex.matchDayMon3 (Py.upper (lineText lw)) = none →
        Banamex.scanLines st (lw :: rest)
          = Banamex.scanLines ⟨true, [], st.blocks⟩ rest)
    ∧ (∀ (cb : BBVA.Cols) (pageWords : List Word) (year : String)
         (txs : List Tx) (lw : List Word) (rest : List (List Word)),
        BBVA.is_ignore_line (lineText lw) = false →
        Py.containsSub (lineText lw) "Detalle de Movimientos Realizados" = false →
        Py.containsSub (lineText lw) "Total de Movimientos" = true →
        BBVA.debScan cb pageWords year (true, txs) (lw :: rest) = (false, txs))
    ∧ (∀ (cb : BBVA.Cols) (pageWords : List Word) (year : String)
         (txs : List Tx) (lw : List Word) (rest : List (List Word)),
        BBVA.is_ignore_line (lineText lw) = false →
        Py.containsSub (lineText lw) "Detalle de Movimientos Realizados" = true →
        BBVA.debScan cb pageWords year (false, txs) (lw :: rest)
          = BBVA.debScan cb pageWords year (true, txs) rest) := by
  refine ⟨?_, ?_, ?_, ?_⟩
  · intro st lw rest hin hstop
    conv_lhs => rw [Banamex.scanLines]
    by_cases hd : Py.containsSub (Py.upper (lineText lw)) "DETALLE DE OPERACIONES" <;>
      simp [hd, hin, hstop]
  · intro st lw rest hcur hstart hstop hdm
    rcases st with ⟨inSec, cur, blocks⟩
    simp only at hcur
    subst hcur
    conv_lhs => rw [Banamex.scanLines]
    cases inSec <;> simp [hstart, hstop, hdm]
  · intro cb pageWords year txs lw rest hig hdet htot
    conv_lhs => rw [BBVA.debScan]
    simp [hig, hdet, htot]
  · intro cb pageWords year txs lw rest hig hdet
    conv_lhs => rw [BBVA.debScan]
    simp [hig, hdet]

/-- C3: witness for the amended law on concrete lines: a `GLOSARIO` line
inside the section, a `DETALLE DE OPERACIONES` line outside it, and BBVA
`Total de Movimientos` / `Detalle de Movimientos Realizados` lines. -/
theorem C3_witness :
    Banamex.scanLines ⟨true, [], []⟩ [[⟨"GLOSARIO", 10, 40, 120⟩], bmxStartLine]
      = ⟨false, [], []⟩
    ∧ Banamex.scanLines ⟨false, [], []⟩ (bmxStartLine :: [])
      = Banamex.scanLines ⟨true, [], []⟩ []
    ∧ BBVA.debScan ⟨(100, 160), (200, 260), (300, 380)⟩ [] "2024" (true, [])
        [[⟨"Total", 10, 20, 50⟩, ⟨"de", 22, 26, 50⟩, ⟨"Movimientos", 28, 40, 50⟩]]
      = (false, [])
    ∧ BBVA.debScan ⟨(100, 160), (200, 260), (300, 380)⟩ [] "2024" (false, [])
        [[⟨"Detalle", 10, 20, 50⟩, ⟨"de", 22, 26, 50⟩, ⟨"Movimientos", 28, 40, 50⟩,
          ⟨"Realizados", 42, 56, 50⟩]]
      = BBVA.debScan ⟨(100, 160), (200, 260), (300, 380)⟩ [] "2024" (true, []) [] :=
  ⟨C3_amended.1 ⟨true, [], []⟩ _ _ rfl (by decide),
   C3_amended.2.1 ⟨false, [], []⟩ _ _ rfl (by decide) (by decide) (by decide),
   C3_amended.2.2.1 _ _ _ _ _ _ (by with_unfolding_all decide) (by decide) (by decide),
   C3_amended.2.2.2 _ _ _ _ _ _ (by with_unfolding_all decide) (by decide)⟩

/-- C4: counterexample. A BBVA debit document whose text carries a
statement period ending in January **2023** still dates its movement with
the caller-supplied hint **2024**: the BBVA orchestrator never consults
the parsed period for the effective year. -/
theorem C4_counterexample :
    (BBVA.parse [c4Page] "2024").periodo_final = some "2023-01-31"
    ∧ (BBVA.parse [c4Page] "2024").movimientos
      = [⟨some "2024-01-02", "02/ENE PAGO", 150, 0, 900, some "BBVA"⟩] := by
  constructor
  · with_unfolding_all decide
  · with_unfolding_all decide

/-- C4: amended year-resolution law. Only the Banamex orchestrator prefers
the parsed period's end year (falling back to the hint when the period end
is absent); the BBVA orchestrator always forwards the caller hint to the
transaction parsers, and its credit-card parser ignores even that hint. -/
theorem C4_amended :
    (∀ (pages : List Page) (year : String) (r : StatementResult),
        (Banamex._parse_period (Py.joinSep "\n" (pages.map Page.text))).2 = none →
        Banamex.parse pages year = some r →
        r.movimientos = Banamex.parse_transactions pages year)
    ∧ (∀ (pages : List Page) (year pf : String) (ymd : Nat × Nat × Nat)
         (r : StatementResult),
        (Banamex._parse_period (Py.joinSep "\n" (pages.map Page.text))).2 = some pf →
        Cal.strptimeYmd pf = some ymd →
        Banamex.parse pages year = some r →
        r.movimientos = Banamex.parse_transactions pages (toString ymd.1))
    ∧ (∀ (pages : List Page) (year : String),
        (BBVA.parse pages year).movimientos
          = if Py.containsSub (Py.joinSep "\n" (pages.map Page.text)) "Saldo al Corte"
              && Py.containsSub (Py.joinSep "\n" (pages.map Page.text)) "No. de Tarjeta"
            then BBVA.parse_credit_card pages year
            else BBVA.parse_debito pages year)
    ∧ (∀ (pages : List Page) (y1 y2 : String),
        BBVA.parse_credit_card pages y1 = BBVA.parse_credit_card pages y2) := by
  refine ⟨?_, ?_, ?_, ?_⟩
  · intro pages year r hp hr
    unfold Banamex.parse at hr
    simp only [] at hr
    rw [hp] at hr
    simp only [] at hr
    rw [← Option.some.inj hr]
  · intro pages year pf ymd r hp hymd hr
    unfold Banamex.parse at hr
    simp only [] at hr
    rw [hp] at hr
    simp only [hymd, Option.map_some] at hr
    rw [← Option.some.inj hr]
  · intro pages year
    rfl
  · intro pages y1 y2
    rfl

/-- C4: witness for the amended law on the concrete Banamex document
`c4BmxPage`: the period ends in 2025, so the emitted movement is dated
`2025-01-01` although the caller hint was `2024`. -/
theorem C4_witness :
    (Banamex._parse_period (Py.joinSep "\n" ([c4BmxPage].map Page.text))).2
      = some "2025-02-28"
    ∧ Cal.strptimeYmd "2025-02-28" = some (2025, 2, 28)
    ∧ StatementResult.movimientos
        ⟨none, none, none, none, some "2025-02-01", some "2025-02-28", 0, 0, 0, 0, 0, 0,
         [⟨some "2025-01-01", "FOO", 0, 0, 0, none⟩]⟩
      = Banamex.parse_transactions [c4BmxPage] (toString (2025, 2, 28).1) := by
  refine ⟨by decide, by decide, ?_⟩
  exact C4_amended.2.1 [c4BmxPage] "2024" "2025-02-28" (2025, 2, 28)
    ⟨none, none, none, none, some "2025-02-01", some "2025-02-28", 0, 0, 0, 0, 0, 0,
      [⟨some "2025-01-01", "FOO", 0, 0, 0, none⟩]⟩
    (by decide) (by decide) (by with_unfolding_all decide)

/-- C6: counterexample. On a document none of whose metadata patterns
match, the string-valued fields are indeed left null and the transaction
is still extracted — but the opening/closing balances and the summary
totals come back as the number `0`, a guessed default: the result type
(mirroring the code, which always assigns a float) cannot even express
their absence. -/
theorem C6_counterexample :
    Banamex.parse [c6Page] "2024"
      = some ⟨none, none, none, none, none, none, 0, 0, 0, 0, 0, 0,
              [⟨some "2024-01-01", "FOO", 100, 0, 0, none⟩]⟩ := by
  with_unfolding_all decide

/-- C6: amended metadata-miss law. When every pattern of a field misses,
the string-valued fields (e.g. the CLABE) are null, but the balances and
totals are defaulted to `0` — they are plain numbers, never null — in both
dialects; and a metadata miss never blocks the transactions: whatever the
metadata text yields, the movements of a successful Banamex parse are
exactly the output of the transaction parser under some effective year. -/
theorem C6_amended :
    (∀ text, Rx.research true false Banamex.patClabe text = none →
        Banamex._parse_clabe text = none)
    ∧ (∀ text, Rx.research true false Banamex.patSaldoAnt text = none →
        Rx.research true false Banamex.patSaldoCorte text = none →
        Banamex._parse_balances text = (0, 0))
    ∧ (∀ text, Rx.research true false Banamex.patDepA text = none →
        Rx.research true false Banamex.patDepB text = none →
        Rx.research true false Banamex.patRetA text = none →
        Rx.research true false Banamex.patRetB text = none →
        Banamex._parse_totals text = (0, 0, 0, 0))
    ∧ (∀ text, Rx.research true false BBVA.patSaldoIniD text = none →
        Rx.research true false BBVA.patSaldoFinD text = none →
        BBVA._parse_balances text false = (0, 0))
    ∧ (∀ text, Rx.research true false BBVA.patTotCargos text = none →
        Rx.research true false BBVA.patTotAbonos text = none →
        BBVA._parse_totals text false = (0, 0, 0, 0))
    ∧ (∀ (pages : List Page) (year : String) (r : StatementResult),
        Banamex.parse pages year = some r →
        ∃ ey, r.movimientos = Banamex.parse_transactions pages ey) := by
  refine ⟨?_, ?_, ?_, ?_, ?_, ?_⟩
  · intro text h
    unfold Banamex._parse_clabe
    rw [h]
    rfl
  · intro text h1 h2
    unfold Banamex._parse_balances
    rw [h1, h2]
  · intro text h1 h2 h3 h4
    unfold Banamex._parse_totals
    rw [h1, h2, h3, h4]
  · intro text h1 h2
    unfold BBVA._parse_balances
    rw [if_neg (by simp), h1, h2]
  · intro text h1 h2
    unfold BBVA._parse_totals
    rw [if_neg (by simp), h1, h2]
  · intro pages year r hr
    unfold Banamex.parse at hr
    simp only [] at hr
    rcases hm : (Banamex._parse_period (Py.joinSep "\n" (pages.map Page.text))).2
        with _ | pf
    · rw [hm] at hr
      simp only [] at hr
      exact ⟨year, by rw [← Option.some.inj hr]⟩
    · rw [hm] at hr
      simp only [] at hr
      rcases hy : Cal.strptimeYmd pf with _ | ymd
      · rw [hy] at hr
        simp at hr
      · rw [hy] at hr
        simp only [Option.map] at hr
        exact ⟨toString ymd.1, by rw [← Option.some.inj hr]⟩

/-- C6: witness for the amended law: the empty text misses every pattern,
yielding a null CLABE but numeric-zero balances and totals; and the
`c6Page` document's parse carries the transaction parser's output. -/
theorem C6_witness :
    Banamex._parse_clabe "" = none
    ∧ Banamex._parse_balances "" = (0, 0)
    ∧ Banamex._parse_totals "" = (0, 0, 0, 0)
    ∧ BBVA._parse_balances "" false = (0, 0)
    ∧ BBVA._parse_totals "" false = (0, 0, 0, 0)
    ∧ ∃ ey, (StatementResult.movimientos
        ⟨none, none, none, none, none, none, 0, 0, 0, 0, 0, 0,
         [⟨some "2024-01-01", "FOO", 100, 0, 0, none⟩]⟩)
        = Banamex.parse_transactions [c6Page] ey :=
  ⟨C6_amended.1 "" (by decide),
   C6_amended.2.1 "" (by decide) (by decide),
   C6_amended.2.2.1 "" (by decide) (by decide) (by decide) (by decide),
   C6_amended.2.2.2.1 "" (by decide) (by decide),
   C6_amended.2.2.2.2.1 "" (by decide) (by decide),
   C6_amended.2.2.2.2.2 [c6Page] "2024"
     ⟨none, none, none, none, none, none, 0, 0, 0, 0, 0, 0,
      [⟨some "2024-01-01", "FOO", 100, 0, 0, none⟩]⟩
     (by with_unfolding_all decide)⟩

/-- A BBVA debit page whose charge column holds the token `-150.00`. -/
def c8BbvaPage : Page :=
  ⟨800, bbvaHdr ++ bbvaStartLine ++
     [⟨"02/ENE", 10, 20, 110⟩, ⟨"PAGO", 24, 40, 110⟩, ⟨"-150.00", 110, 130, 110⟩],
   [], ""⟩

/-- A BBVA credit-card page whose movement carries a negative amount. -/
def c8CcPage : Page :=
  ⟨800, [], [],
   "Movimientos Efectuados Tarjeta Titular\n01/02/24 03/02/24 PAGO TARJETA $ -345.00"⟩

lemma mkCcTx_nonneg (d r : String) :
    0 ≤ (BBVA.mkCcTx d r).Retiro ∧ 0 ≤ (BBVA.mkCcTx d r).Deposito := by
  unfold BBVA.mkCcTx
  rcases hm : Rx.research false false BBVA.patImporte r with _ | m
  · exact ⟨le_refl 0, le_refl 0⟩
  · simp only []
    constructor
    · split
      · rename_i h
        exact le_of_lt h
      · exact le_refl 0
    · split
      · exact abs_nonneg _
      · exact le_refl 0

lemma ccScan_mem (lines : List String) : ∀ (st : Bool × List Tx) (tx : Tx),
    tx ∈ (BBVA.ccScan st lines).2 →
    tx ∈ st.2 ∨ ∃ d r, tx = BBVA.mkCcTx d r := by
  induction lines with
  | nil =>
    intro st tx h
    exact Or.inl h
  | cons line rest ih =>
    intro st tx h
    rcases st with ⟨inSec, txs⟩
    rw [BBVA.ccScan] at h
    by_cases h1 : Py.containsSub line "Movimientos Efectuados Tarjeta Titular"
    · rw [if_pos h1] at h
      exact ih (true, txs) tx h
    · rw [if_neg h1] at h
      by_cases h2 : Py.containsSub line "TOTAL IMPORTES"
      · rw [if_pos h2] at h
        exact Or.inl h
      · rw [if_neg h2] at h
        cases inSec with
        | false =>
          simp only [Bool.not_false, if_true] at h
          exact ih (false, txs) tx h
        | true =>
          simp only [Bool.not_true, Bool.false_eq_true, if_false] at h
          rcases hm : BBVA.matchCcLine line with _ | ⟨fa, fapli, r⟩
          · rw [hm] at h
            exact ih (true, txs) tx h
          · rw [hm] at h
            rcases ih _ tx h with h' | h'
            · rcases List.mem_append.mp h' with h'' | h''
              · exact Or.inl h''
              · exact Or.inr ⟨BBVA.to_iso fapli, r, List.mem_singleton.mp h''⟩
            · exact Or.inr h'

lemma ccFold_mem (pages : List Page) : ∀ (st : Bool × List Tx) (tx : Tx),
    tx ∈ (pages.foldl
        (fun st page => BBVA.ccScan st (Py.splitChar '\n' page.text)) st).2 →
    tx ∈ st.2 ∨ ∃ d r, tx = BBVA.mkCcTx d r := by
  induction pages with
  | nil =>
    intro st tx h
    exact Or.inl h
  | cons page rest ih =>
    intro st tx h
    rw [List.foldl_cons] at h
    rcases ih _ tx h with h' | h'
    · exact ccScan_mem _ st tx h'
    · exact Or.inr h'

/-- C8: counterexample. Debit-side transactions are **not** clamped to
nonnegative values: a `-50.00` token in the Banamex charge column and a
`-150.00` token in the BBVA charge column both surface as negative
`Retiro` amounts in the emitted transactions. -/
theorem C8_counterexample :
    Banamex.parse_transactions [c8Page] "2024"
      = [⟨some "2024-01-01", "NEG", -50, 0, 0, none⟩]
    ∧ BBVA.parse_debito [c8BbvaPage] "2024"
      = [⟨some "2024-01-02", "02/ENE PAGO", -150, 0, 0, some "BBVA"⟩] := by
  constructor
  · with_unfolding_all decide
  · with_unfolding_all decide

/-- C8: amended sign law. Only the credit-card parser guarantees
nonnegative charge and credit amounts (positive amounts become charges,
negative ones become credits by absolute value); the two debit-side word
loops forward the amount normalizer's output unchanged — a column hit
contributes exactly `_clean_amount` of the token, whatever its sign. -/
theorem C8_amended :
    (∀ (pages : List Page) (year : String) (tx : Tx),
        tx ∈ BBVA.parse_credit_card pages year →
        0 ≤ tx.Retiro ∧ 0 ≤ tx.Deposito)
    ∧ (∀ (cb : Banamex.Cols) (a : Banamex.Amts) (w : Word),
        bmxRetHit cb w = true →
        (Banamex.classifyWord cb a w).retiro
          = a.retiro + Banamex._clean_amount (some w.text))
    ∧ (∀ (cb : BBVA.Cols) (a : BBVA.DebAmts) (w : Word),
        bbvaRetHit cb w = true →
        (BBVA.debClassify cb a w).retiro = BBVA._clean_amount (some w.text)) := by
  refine ⟨?_, ?_, ?_⟩
  · intro pages year tx h
    unfold BBVA.parse_credit_card at h
    rcases ccFold_mem pages (false, []) tx h with h' | ⟨d, r, rfl⟩
    · exact absurd h' (List.not_mem_nil tx)
    · exact mkCcTx_nonneg d r
  · intro cb a w hw
    rw [bmx_classify_retiro, if_pos hw]
    rfl
  · intro cb a w hw
    rw [bbva_debClassify_retiro, if_pos hw]
    rfl

/-- C8: witness for the amended law: the credit-card parse of the
`-345.00` movement is nonnegative (charge `0`, credit `345`), and on
concrete column hits both debit word loops surface `_clean_amount` of the
negative token unchanged. -/
theorem C8_witness :
    (0 ≤ (Tx.Retiro ⟨some "2024-02-03", "PAGO TARJETA", 0, 345, 0, some "BBVA TC"⟩)
      ∧ 0 ≤ (Tx.Deposito ⟨some "2024-02-03", "PAGO TARJETA", 0, 345, 0, some "BBVA TC"⟩))
    ∧ (Banamex.classifyWord ⟨(100, 140), (200, 240), some (300, 340)⟩ ⟨1, 2, 3, []⟩
        ⟨"-50.00", 110, 130, 110⟩).retiro
      = 1 + Banamex._clean_amount (some "-50.00")
    ∧ (BBVA.debClassify ⟨(100, 160), (200, 260), (300, 380)⟩ ⟨1, 2, 3, []⟩
        ⟨"-150.00", 110, 130, 110⟩).retiro
      = BBVA._clean_amount (some "-150.00") := by
  refine ⟨?_, ?_, ?_⟩
  · apply C8_amended.1 [c8CcPage] "x"
    rw [show BBVA.parse_credit_card [c8CcPage] "x"
        = [⟨some "2024-02-03", "PAGO TARJETA", 0, 345, 0, some "BBVA TC"⟩] from by
      with_unfolding_all decide]
    exact List.mem_singleton.mpr rfl
  · exact C8_amended.2.1 ⟨(100, 140), (200, 240), some (300, 340)⟩ ⟨1, 2, 3, []⟩
      ⟨"-50.00", 110, 130, 110⟩ (by decide)
  · exact C8_amended.2.2 ⟨(100, 160), (200, 260), (300, 380)⟩ ⟨1, 2, 3, []⟩
      ⟨"-150.00", 110, 130, 110⟩ (by decide)

/-- ASCII letter (either case); the character class relevant to the
month-token argument below. -/
def isAlphaCh (c : Char) : Bool := ('A' ≤ c && c ≤ 'Z') || ('a' ≤ c && c ≤ 'z')

/-- The list contains two adjacent characters both satisfying `p`. -/
def hasAdjP (p : Char → Bool) : List Char → Bool
  | a :: b :: r => (p a && p b) || hasAdjP p (b :: r)
  | _ => false

lemma hasAdjP_cons (p : Char → Bool) (c : Char) (l : List Char)
    (h : hasAdjP p l = true) : hasAdjP p (c :: l) = true := by
  cases l with
  | nil => exact absurd h (by simp [hasAdjP])
  | cons b r =>
    unfold hasAdjP
    rw [h]
    simp

lemma hasAdjP_drop (p : Char → Bool) : ∀ (n : Nat) (l : List Char),
    hasAdjP p (l.drop n) = true → hasAdjP p l = true := by
  intro n
  induction n with
  | zero => intro l h; exact h
  | succ k ih =>
    intro l h
    cases l with
    | nil => exact absurd h (by simp [hasAdjP])
    | cons c t => exact hasAdjP_cons p c t (ih t h)

lemma hasAdjP_map (p : Char → Bool) (f : Char → Char) : ∀ (l : List Char),
    hasAdjP p (l.map f) = hasAdjP (fun c => p (f c)) l := by
  intro l
  match l with
  | [] => rfl
  | [a] => rfl
  | a :: b :: r =>
    have ih := hasAdjP_map p f (b :: r)
    simp only [List.map_cons] at ih ⊢
    unfold hasAdjP
    rw [ih]

lemma hasAdjP_mono (p q : Char → Bool) (hpq : ∀ c, p c = true → q c = true) :
    ∀ (l : List Char), hasAdjP p l = true → hasAdjP q l = true := by
  intro l
  match l with
  | [] => exact fun h => absurd h (by simp [hasAdjP])
  | [a] => exact fun h => absurd h (by simp [hasAdjP])
  | a :: b :: r =>
    intro h
    unfold hasAdjP at h ⊢
    rcases Bool.or_eq_true _ _ ▸ h with h' | h'
    · rcases Bool.and_eq_true _ _ ▸ h' with ⟨h1, h2⟩
      rw [hpq a h1, hpq b h2]
      simp
    · rw [hasAdjP_mono p q hpq (b :: r) h']
      simp

lemma hasAdjP_exists (p : Char → Bool) : ∀ (l : List Char),
    hasAdjP p l = true → ∃ c ∈ l, p c = true := by
  intro l
  match l with
  | [] => exact fun h => absurd h (by simp [hasAdjP])
  | [a] => exact fun h => absurd h (by simp [hasAdjP])
  | a :: b :: r =>
    intro h
    unfold hasAdjP at h
    rcases Bool.or_eq_true _ _ ▸ h with h' | h'
    · exact ⟨a, List.mem_cons_self _ _, (Bool.and_eq_true _ _ ▸ h').1⟩
    · rcases hasAdjP_exists p (b :: r) h' with ⟨c, hc, hpc⟩
      exact ⟨c, List.mem_cons_of_mem a hc, hpc⟩

lemma hasAdjP_append_left (p : Char → Bool) : ∀ (u v : List Char),
    hasAdjP p u = true → hasAdjP p (u ++ v) = true := by
  intro u v
  match u with
  | [] => exact fun h => absurd h (by simp [hasAdjP])
  | [a] => exact fun h => absurd h (by simp [hasAdjP])
  | a :: b :: r =>
    intro h
    unfold hasAdjP at h
    show (p a && p b || hasAdjP p (b :: (r ++ v))) = true
    rcases Bool.or_eq_true _ _ ▸ h with h' | h'
    · rw [h']
      simp
    · have hih := hasAdjP_append_left p (b :: r) v h'
      rw [show (b :: r) ++ v = b :: (r ++ v) from rfl] at hih
      rw [hih]
      simp

lemma hasAdjP_append_right (p : Char → Bool) : ∀ (u v : List Char),
    hasAdjP p v = true → hasAdjP p (u ++ v) = true := by
  intro u v h
  induction u with
  | nil => exact h
  | cons c t ih => exact hasAdjP_cons p c (t ++ v) ih

lemma hasAdjP_append_elim (p : Char → Bool) : ∀ (u v : List Char),
    hasAdjP p (u ++ v) = true →
    hasAdjP p u = true ∨ hasAdjP p v = true ∨
      (∃ a, u.getLast? = some a ∧ p a = true) ∧
      (∃ b, v.head? = some b ∧ p b = true) := by
  intro u
  match u with
  | [] => exact fun v h => Or.inr (Or.inl h)
  | [a] =>
    intro v h
    cases v with
    | nil => exact Or.inl (by simpa using h)
    | cons b r =>
      rw [show [a] ++ b :: r = a :: b :: r from rfl] at h
      unfold hasAdjP at h
      rcases Bool.or_eq_true _ _ ▸ h with h' | h'
      · rcases Bool.and_eq_true _ _ ▸ h' with ⟨h1, h2⟩
        exact Or.inr (Or.inr ⟨⟨a, rfl, h1⟩, ⟨b, rfl, h2⟩⟩)
      · exact Or.inr (Or.inl h')
  | a :: b :: r =>
    intro v h
    rw [show (a :: b :: r) ++ v = a :: ((b :: r) ++ v) from rfl] at h
    rw [show (b :: r) ++ v = b :: (r ++ v) from rfl] at h
    unfold hasAdjP at h
    rcases Bool.or_eq_true _ _ ▸ h with h' | h'
    · exact Or.inl (by unfold hasAdjP; rw [h']; simp)
    · rw [show b :: (r ++ v) = (b :: r) ++ v from rfl] at h'
      rcases hasAdjP_append_elim p (b :: r) v h' with h'' | h'' | h''
      · exact Or.inl (hasAdjP_cons p a (b :: r) h'')
      · exact Or.inr (Or.inl h'')
      · refine Or.inr (Or.inr ⟨?_, h''.2⟩)
        rcases h''.1 with ⟨x, hx, hpx⟩
        exact ⟨x, by rw [List.getLast?_cons_cons]; exact hx, hpx⟩

lemma space_not_alpha (c : Char) (h : Py.isSpace c = true) : isAlphaCh c = false := by
  unfold Py.isSpace at h
  simp only [Bool.or_eq_true, decide_eq_true_eq] at h
  rcases h with ((((h | h) | h) | h) | h) | h <;> subst h <;> decide

lemma alpha_not_space (c : Char) (h : isAlphaCh c = true) : Py.isSpace c = false := by
  rcases hs : Py.isSpace c with _ | _
  · rfl
  · exact absurd h (by rw [space_not_alpha c hs]; exact Bool.false_ne_true)

lemma digit_not_alpha (c : Char) (h : Py.isDigitCh c = true) : isAlphaCh c = false := by
  unfold Py.isDigitCh at h
  simp only [Bool.and_eq_true, decide_eq_true_eq] at h
  have h9 : c.val.toNat ≤ 57 := h.2
  rcases ha : isAlphaCh c with _ | _
  · rfl
  · exfalso
    unfold isAlphaCh at ha
    simp only [Bool.or_eq_true, Bool.and_eq_true, decide_eq_true_eq] at ha
    rcases ha with ⟨hA, _⟩ | ⟨hA, _⟩
    · have h1 : 65 ≤ c.val.toNat := hA
      omega
    · have h1 : 97 ≤ c.val.toNat := hA
      omega

lemma upChar_upper_alpha (c : Char)
    (h : ('A' ≤ Py.upChar c && Py.upChar c ≤ 'Z') = true) : isAlphaCh c = true := by
  unfold Py.upChar at h
  split_ifs at h with h1 h2 h3 h4 h5 h6 h7
  · unfold isAlphaCh
    rw [h1]
    simp
  · subst h2; exact absurd h (by decide)
  · subst h3; exact absurd h (by decide)
  · subst h4; exact absurd h (by decide)
  · subst h5; exact absurd h (by decide)
  · subst h6; exact absurd h (by decide)
  · subst h7; exact absurd h (by decide)
  · rename_i h8
    subst h8; exact absurd h (by decide)
  · unfold isAlphaCh
    rw [h]
    simp

lemma matchDayMon3_hasAdj (s : String) (x : String × String)
    (h : Banamex.matchDayMon3 s = some x) :
    hasAdjP (fun c => 'A' ≤ c && c ≤ 'Z') s.data = true := by
  unfold Banamex.matchDayMon3 at h
  simp only [] at h
  split at h
  · exact absurd h (by simp)
  · split at h
    · exact absurd h (by simp)
    · split at h
      case _ a b c tl hsp =>
        split at h
        · rename_i hcond
          rcases Bool.and_eq_true _ _ ▸ hcond with ⟨hab, _⟩
          rcases Bool.and_eq_true _ _ ▸ hab with ⟨ha, hb⟩
          have hpair : hasAdjP (fun c => 'A' ≤ c && c ≤ 'Z') (a :: b :: c :: tl) = true := by
            unfold hasAdjP
            rw [ha, hb]
            simp
          rw [← hsp] at hpair
          exact hasAdjP_drop _ _ _ (hasAdjP_drop _ _ _ hpair)
        · exact absurd h (by simp)
      case _ => exact absurd h (by simp)

lemma upper_hasAdj (t : String)
    (h : hasAdjP (fun c => 'A' ≤ c && c ≤ 'Z') (Py.upper t).data = true) :
    hasAdjP isAlphaCh t.data = true := by
  rw [show (Py.upper t).data = t.data.map Py.upChar from rfl, hasAdjP_map] at h
  exact hasAdjP_mono _ _ upChar_upper_alpha t.data h

lemma joinSp_foldl (xs : List String) (a b : String) :
    xs.foldl (fun acc y => acc ++ " " ++ y) (a ++ b)
      = a ++ xs.foldl (fun acc y => acc ++ " " ++ y) b := by
  induction xs generalizing b with
  | nil => rfl
  | cons z zs ih =>
    simp only [List.foldl_cons]
    rw [show a ++ b ++ " " ++ z = a ++ (b ++ " " ++ z) from by
      simp [String.append_assoc]]
    exact ih (b ++ " " ++ z)

lemma joinSp_cons_cons (x y : String) (xs : List String) :
    joinSp (x :: y :: xs) = x ++ " " ++ joinSp (y :: xs) := by
  unfold joinSp
  simp only [List.foldl_cons]
  exact joinSp_foldl xs (x ++ " ") y

lemma joinSp_hasAdj_elim : ∀ (ts : List String),
    hasAdjP isAlphaCh (joinSp ts).data = true →
    ∃ s ∈ ts, hasAdjP isAlphaCh s.data = true := by
  intro ts
  match ts with
  | [] =>
    intro h
    rw [show (joinSp []).data = [] from rfl] at h
    exact absurd h (by simp [hasAdjP])
  | [x] => exact fun h => ⟨x, List.mem_singleton.mpr rfl, h⟩
  | x :: y :: xs =>
    intro h
    rw [joinSp_cons_cons, String.data_append, String.data_append,
      List.append_assoc] at h
    rcases hasAdjP_append_elim _ _ _ h with h1 | h1 | h1
    · exact ⟨x, List.mem_cons_self _ _, h1⟩
    · rcases hasAdjP_append_elim _ _ _ h1 with h2 | h2 | h2
      · exact absurd h2 (by simp [hasAdjP])
      · rcases joinSp_hasAdj_elim (y :: xs) h2 with ⟨s, hs, hps⟩
        exact ⟨s, List.mem_cons_of_mem x hs, hps⟩
      · rcases h2.1 with ⟨a, ha, hpa⟩
        rw [show (" ".data : List Char).getLast? = some ' ' from rfl] at ha
        rw [← Option.some.inj ha] at hpa
        exact absurd hpa (by decide)
    · rcases h1.2 with ⟨b, hb, hpb⟩
      rw [show ((" ".data : List Char) ++ (joinSp (y :: xs)).data).head? = some ' '
        from rfl] at hb
      rw [← Option.some.inj hb] at hpb
      exact absurd hpb (by decide)

lemma joinSp_hasAdj_intro : ∀ (ts : List String) (s : String), s ∈ ts →
    hasAdjP isAlphaCh s.data = true →
    hasAdjP isAlphaCh (joinSp ts).data = true := by
  intro ts
  match ts with
  | [] => exact fun s hs _ => absurd hs (List.not_mem_nil s)
  | [x] =>
    intro s hs h
    rw [List.mem_singleton.mp hs] at h
    exact h
  | x :: y :: xs =>
    intro s hs h
    rw [joinSp_cons_cons, String.data_append, String.data_append,
      List.append_assoc]
    rcases List.mem_cons.mp hs with hx | hx
    · exact hasAdjP_append_left _ _ _ (hx ▸ h)
    · exact hasAdjP_append_right _ _ _
        (hasAdjP_append_right _ _ _ (joinSp_hasAdj_intro (y :: xs) s hx h))

lemma two_le_filter (p : Char → Bool) : ∀ (l : List Char),
    hasAdjP p l = true → 2 ≤ (l.filter p).length := by
  intro l
  match l with
  | [] => exact fun h => absurd h (by simp [hasAdjP])
  | [a] => exact fun h => absurd h (by simp [hasAdjP])
  | a :: b :: r =>
    intro h
    unfold hasAdjP at h
    rcases Bool.or_eq_true _ _ ▸ h with h' | h'
    · rcases Bool.and_eq_true _ _ ▸ h' with ⟨h1, h2⟩
      simp [List.filter_cons, h1, h2]
    · have hr := two_le_filter p (b :: r) h'
      by_cases h1 : p a
      · rw [List.filter_cons_of_pos h1]
        simp only [List.length_cons]
        omega
      · rw [List.filter_cons_of_neg h1]
        exact hr

lemma filter_alpha_dropWhile_space : ∀ (l : List Char),
    (l.dropWhile Py.isSpace).filter isAlphaCh = l.filter isAlphaCh := by
  intro l
  induction l with
  | nil => rfl
  | cons c t ih =>
    by_cases hc : Py.isSpace c
    · rw [List.dropWhile_cons_of_pos hc, ih,
        List.filter_cons_of_neg (by rw [space_not_alpha c hc]; exact Bool.false_ne_true)]
    · rw [List.dropWhile_cons_of_neg hc]

lemma countAlpha_trim (l : List Char) :
    (((((l.dropWhile Py.isSpace).reverse.dropWhile Py.isSpace).reverse).filter
        isAlphaCh).length)
      = ((l.filter isAlphaCh).length) := by
  rw [List.filter_reverse, List.length_reverse, filter_alpha_dropWhile_space,
    List.filter_reverse, List.length_reverse, filter_alpha_dropWhile_space]

lemma takeSign_filter (cs : List Char) :
    (((Py.takeSign cs).2.filter isAlphaCh).length)
      = ((cs.filter isAlphaCh).length) := by
  unfold Py.takeSign
  split
  · rw [List.filter_cons_of_neg (by decide)]
  · rw [List.filter_cons_of_neg (by decide)]
  · rfl

lemma countAlpha_takeWhile_digit (l : List Char) :
    (l.takeWhile Py.isDigitCh).filter isAlphaCh = [] := by
  rw [List.filter_eq_nil]
  intro c hc
  rw [digit_not_alpha c (List.mem_takeWhile_imp hc)]
  exact Bool.false_ne_true

lemma mantissa?_filter (cs : List Char) (m : ℚ) (r : List Char)
    (h : Py.mantissa? cs = some (m, r)) :
    ((cs.filter isAlphaCh).length) = ((r.filter isAlphaCh).length) := by
  unfold Py.mantissa? at h
  simp only [List.span_eq_take_drop] at h
  split at h
  case _ r2 heq =>
    split at h
    · exact absurd h (by simp)
    · have hr : List.dropWhile Py.isDigitCh r2 = r :=
        congrArg Prod.snd (Option.some.inj h)
      rw [← hr]
      conv_lhs => rw [← List.takeWhile_append_dropWhile Py.isDigitCh cs]
      rw [heq, List.filter_append, countAlpha_takeWhile_digit,
        List.filter_cons_of_neg (by decide)]
      conv_lhs => rw [← List.takeWhile_append_dropWhile Py.isDigitCh r2]
      rw [List.filter_append, countAlpha_takeWhile_digit]
      rfl
  case _ hne =>
    split at h
    · exact absurd h (by simp)
    · have hr : List.dropWhile Py.isDigitCh cs = r :=
        congrArg Prod.snd (Option.some.inj h)
      rw [← hr]
      conv_lhs => rw [← List.takeWhile_append_dropWhile Py.isDigitCh cs]
      rw [List.filter_append, countAlpha_takeWhile_digit]
      rfl

lemma expScale?_filter (r : List Char) (k : ℚ)
    (h : Py.expScale? r = some k) : ((r.filter isAlphaCh).length) ≤ 1 := by
  unfold Py.expScale? at h
  split at h
  · simp
  case _ c rest =>
    simp only [List.span_eq_take_drop] at h
    split at h
    · rename_i hce
      split at h
      · exact absurd h (by simp)
      · rename_i hcond
        simp only [Bool.or_eq_true, not_or, Bool.not_eq_true] at hcond
        have hp2 : ((Py.takeSign rest).2.dropWhile Py.isDigitCh) = [] := by
          have h2 := hcond.2
          rw [Bool.not_eq_false'] at h2
          simpa [List.isEmpty_iff] using h2
        have hrest : ((rest.filter isAlphaCh).length) = 0 := by
          rw [← takeSign_filter rest]
          conv_lhs =>
            rw [← List.takeWhile_append_dropWhile Py.isDigitCh (Py.takeSign rest).2]
          rw [hp2, List.append_nil, countAlpha_takeWhile_digit]
          rfl
        by_cases hcc : isAlphaCh c
        · rw [List.filter_cons_of_pos hcc]
          simp only [List.length_cons]
          omega
        · rw [List.filter_cons_of_neg hcc]
          omega
    · exact absurd h (by simp)

lemma pyFloat?_alpha (s : String) (v : ℚ) (h : Py.pyFloat? s = some v) :
    ((s.data.filter isAlphaCh).length) ≤ 1 := by
  unfold Py.pyFloat? at h
  simp only [] at h
  split at h
  · exact absurd h (by simp)
  case _ m r hm =>
    split at h
    · exact absurd h (by simp)
    case _ k he =>
      rw [← countAlpha_trim s.data, ← takeSign_filter, mantissa?_filter _ m r hm]
      exact expScale?_filter r k he

lemma replaceGo_comma : ∀ (f : Nat) (l : List Char), l.length ≤ f →
    Py.replaceGo [','] [] f l = l.filter (fun c => !(c = ',')) := by
  intro f
  induction f with
  | zero =>
    intro l hl
    rw [List.length_eq_zero.mp (Nat.le_zero.mp hl)]
    rfl
  | succ k ih =>
    intro l hl
    cases l with
    | nil => rfl
    | cons c t =>
      unfold Py.replaceGo
      by_cases hc : c = ','
      · subst hc
        rw [if_pos (by simp [List.isPrefixOf])]
        rw [show (List.drop ([','] : List Char).length (',' :: t)) = t from rfl]
        rw [List.filter_cons_of_neg (by simp), List.nil_append]
        exact ih t (by simpa using hl)
      · rw [if_neg (by simp [List.isPrefixOf]; exact fun hh => hc hh.symm)]
        rw [List.filter_cons_of_pos (by simp [hc])]
        rw [ih t (by simpa using hl)]

lemma pyReplace_comma (s : String) :
    (Py.pyReplace s "," "").data = s.data.filter (fun c => !(c = ',')) := by
  unfold Py.pyReplace
  rw [show ("," : String).data = [','] from rfl, show ("" : String).data = [] from rfl]
  exact replaceGo_comma s.data.length s.data (le_refl _)

lemma countAlpha_replace_comma (s : String) :
    (((Py.pyReplace s "," "").data.filter isAlphaCh).length)
      = ((s.data.filter isAlphaCh).length) := by
  rw [pyReplace_comma, List.filter_filter]
  congr 1
  apply List.filter_congr
  intro c _
  by_cases hc : c = ','
  · subst hc
    decide
  · simp [hc]

lemma wordIsNumeric_false (w : Word)
    (h : hasAdjP isAlphaCh w.text.data = true) :
    Banamex.wordIsNumeric w = false := by
  unfold Banamex.wordIsNumeric
  rcases hf : Py.pyFloat? (Py.pyReplace w.text "," "") with _ | v
  · rfl
  · exfalso
    have h1 := pyFloat?_alpha _ v hf
    rw [countAlpha_replace_comma] at h1
    have h2 := two_le_filter isAlphaCh w.text.data h
    omega

lemma classify_descParts_cases (cb : Banamex.Cols) (a : Banamex.Amts) (w : Word) :
    (Banamex.classifyWord cb a w).descParts = a.descParts ∨
    (Banamex.classifyWord cb a w).descParts = a.descParts ++ [w.text] := by
  unfold Banamex.classifyWord
  simp only []
  split
  · split
    · exact Or.inl rfl
    · split
      · exact Or.inl rfl
      · split
        · split
          · exact Or.inl rfl
          · exact Or.inr rfl
        · exact Or.inr rfl
  · exact Or.inr rfl

lemma classify_descParts_self (cb : Banamex.Cols) (a : Banamex.Amts) (w : Word)
    (hw : Banamex.wordIsNumeric w = false) :
    (Banamex.classifyWord cb a w).descParts = a.descParts ++ [w.text] := by
  unfold Banamex.classifyWord
  simp only [hw, Bool.false_eq_true, if_false]

lemma fold_descParts_mono (cb : Banamex.Cols) : ∀ (ws : List Word)
    (a : Banamex.Amts) (x : String), x ∈ a.descParts →
    x ∈ (ws.foldl (Banamex.classifyWord cb) a).descParts := by
  intro ws
  induction ws with
  | nil => exact fun a x h => h
  | cons y ys ih =>
    intro a x h
    rw [List.foldl_cons]
    apply ih
    rcases classify_descParts_cases cb a y with hc | hc
    · rw [hc]
      exact h
    · rw [hc]
      exact List.mem_append_left _ h

lemma fold_descParts_mem (cb : Banamex.Cols) : ∀ (ws : List Word)
    (a : Banamex.Amts) (w : Word), w ∈ ws → Banamex.wordIsNumeric w = false →
    w.text ∈ (ws.foldl (Banamex.classifyWord cb) a).descParts := by
  intro ws
  induction ws with
  | nil => exact fun a w h _ => absurd h (List.not_mem_nil w)
  | cons y ys ih =>
    intro a w hmem hw
    rw [List.foldl_cons]
    rcases List.mem_cons.mp hmem with h | h
    · subst h
      apply fold_descParts_mono
      rw [classify_descParts_self cb a w hw]
      exact List.mem_append_right _ (List.mem_singleton.mpr rfl)
    · exact ih _ w h hw

lemma fold_descParts_sources (cb : Banamex.Cols) : ∀ (ws : List Word)
    (a : Banamex.Amts) (x : String),
    x ∈ (ws.foldl (Banamex.classifyWord cb) a).descParts →
    x ∈ a.descParts ∨ ∃ w ∈ ws, x = w.text := by
  intro ws
  induction ws with
  | nil => exact fun a x h => Or.inl h
  | cons y ys ih =>
    intro a x h
    rw [List.foldl_cons] at h
    rcases ih _ x h with h' | h'
    · rcases classify_descParts_cases cb a y with hc | hc
      · rw [hc] at h'
        exact Or.inl h'
      · rw [hc] at h'
        rcases List.mem_append.mp h' with h'' | h''
        · exact Or.inl h''
        · exact Or.inr ⟨y, List.mem_cons_self _ _, List.mem_singleton.mp h''⟩
    · rcases h' with ⟨w, hw, hx⟩
      exact Or.inr ⟨w, List.mem_cons_of_mem y hw, hx⟩

lemma mem_dropWhile_of_neg (p : Char → Bool) : ∀ (l : List Char) (c : Char),
    c ∈ l → p c = false → c ∈ l.dropWhile p := by
  intro l
  induction l with
  | nil => exact fun c h _ => absurd h (List.not_mem_nil c)
  | cons x t ih =>
    intro c hc hpc
    by_cases hx : p x
    · rw [List.dropWhile_cons_of_pos hx]
      rcases List.mem_cons.mp hc with h | h
      · subst h
        rw [hx] at hpc
        exact absurd hpc (by simp)
      · exact ih c h hpc
    · rw [List.dropWhile_cons_of_neg hx]
      exact hc

lemma strip_ne_empty (s : String) (c : Char) (hc : c ∈ s.data)
    (hns : Py.isSpace c = false) : Py.strip s ≠ "" := by
  unfold Py.strip
  intro heq
  have hdata : (((s.data.dropWhile Py.isSpace).reverse.dropWhile
      Py.isSpace).reverse) = [] := congrArg String.data heq
  have h1 := mem_dropWhile_of_neg Py.isSpace s.data c hc hns
  have h2 := mem_dropWhile_of_neg Py.isSpace _ c
    (List.mem_reverse.mpr h1) hns
  have h3 := List.mem_reverse.mpr h2
  rw [hdata] at h3
  exact List.not_mem_nil c h3

lemma joinSp_data_ne_nil : ∀ (ts : List String), ts ≠ [] →
    (∀ t ∈ ts, t ≠ "") → (joinSp ts).data ≠ [] := by
  intro ts
  match ts with
  | [] => exact fun h _ => absurd rfl h
  | [x] =>
    intro _ hwf hd
    have hd2 : x.data = [] := hd
    exact hwf x (List.mem_singleton.mpr rfl)
      (by rw [show x = String.mk x.data from rfl, hd2])
  | x :: y :: xs =>
    intro _ _
    rw [joinSp_cons_cons, String.data_append, String.data_append]
    simp

lemma joinSp_getLast_nonspace : ∀ (ts : List String),
    (∀ t ∈ ts, t ≠ "" ∧ ∀ c ∈ t.data, Py.isSpace c = false) → ts ≠ [] →
    ∀ e, (joinSp ts).data.getLast? = some e → Py.isSpace e = false := by
  intro ts
  match ts with
  | [] => exact fun _ h => absurd rfl h
  | [x] =>
    intro hwf _ e he
    exact (hwf x (List.mem_singleton.mpr rfl)).2 e (List.mem_of_mem_getLast? he)
  | x :: y :: xs =>
    intro hwf _ e he
    rw [joinSp_cons_cons, String.data_append, String.data_append] at he
    rw [List.append_assoc, List.getLast?_append_of_ne_nil] at he
    · rw [List.getLast?_append_of_ne_nil] at he
      · exact joinSp_getLast_nonspace (y :: xs)
          (fun t ht => hwf t (List.mem_cons_of_mem x ht)) (by simp) e he
      · exact joinSp_data_ne_nil (y :: xs) (by simp)
          (fun t ht => (hwf t (List.mem_cons_of_mem x ht)).1)
    · simp only [ne_eq, List.append_eq_nil]
      intro hfalse
      exact absurd hfalse.2
        (joinSp_data_ne_nil (y :: xs) (by simp)
          (fun t ht => (hwf t (List.mem_cons_of_mem x ht)).1))

lemma stripDayMon3_nonspace (s : String)
    (hal : ∃ c ∈ s.data, isAlphaCh c = true)
    (hlast : ∀ e, s.data.getLast? = some e → Py.isSpace e = false) :
    ∃ c ∈ (Banamex.stripDayMon3 s).data, Py.isSpace c = false := by
  have hs : ∃ c ∈ s.data, Py.isSpace c = false := by
    rcases hal with ⟨c, hc, ha⟩
    exact ⟨c, hc, alpha_not_space c ha⟩
  unfold Banamex.stripDayMon3
  simp only []
  split
  · exact hs
  · split
    · exact hs
    · split
      case _ a b c3 r3 hsp =>
        split
        · split
          · exact hs
          · rename_i hcond hsp2
            have hdw : r3.drop (r3.takeWhile Py.isSpace).length
                = r3.dropWhile Py.isSpace := by
              have hdl := List.drop_left (r3.takeWhile Py.isSpace)
                (r3.dropWhile Py.isSpace)
              rw [List.takeWhile_append_dropWhile] at hdl
              exact hdl
            have hr3ne : r3 ≠ [] := by
              intro h
              rw [h] at hsp2
              exact hsp2 rfl
            have hsfx1 : ∃ t1, t1 ++ (a :: b :: c3 :: r3) = s.data := by
              have h1 : (s.data.drop (s.data.takeWhile Py.isDigitCh).length).drop
                  ((s.data.drop (s.data.takeWhile Py.isDigitCh).length).takeWhile
                    Py.isSpace).length <:+ s.data :=
                List.IsSuffix.trans (List.drop_suffix _ _) (List.drop_suffix _ _)
              rw [hsp] at h1
              exact h1
            rcases hsfx1 with ⟨t1, ht1⟩
            have hgl : s.data.getLast? = r3.getLast? := by
              rw [← ht1, List.getLast?_append_of_ne_nil _ (by simp),
                show (a :: b :: c3 :: r3) = [a, b, c3] ++ r3 from rfl,
                List.getLast?_append_of_ne_nil _ hr3ne]
            rcases hge : r3.getLast? with _ | e
            · exact absurd (List.getLast?_eq_none_iff.mp hge) hr3ne
            · have hens : Py.isSpace e = false := by
                apply hlast e
                rw [hgl, hge]
              have hemem := List.mem_of_mem_getLast? hge
              refine ⟨e, ?_, hens⟩
              rw [show (String.mk (r3.drop (r3.takeWhile Py.isSpace).length)).data
                  = r3.drop (r3.takeWhile Py.isSpace).length from rfl, hdw]
              exact mem_dropWhile_of_neg Py.isSpace r3 e hemem hens
        · exact hs
      case _ => exact hs

lemma finalizeBlock_isSome (cb : Banamex.Cols) (year : String)
    (block : List (List Word))
    (hwf : ∀ lw ∈ block, ∀ w ∈ lw, w.text ≠ "" ∧ ∀ c ∈ w.text.data, Py.isSpace c = false)
    (hdm : (Banamex.matchDayMon3 (Py.upper (lineText (block.headD [])))).isSome = true) :
    (Banamex.finalizeBlock cb year block).isSome = true := by
  rcases hm : Banamex.matchDayMon3 (Py.upper (lineText (block.headD [])))
      with _ | ⟨day, mon⟩
  · rw [hm] at hdm
    exact absurd hdm (by simp)
  · cases block with
    | nil =>
      rw [show lineText (([] : List (List Word)).headD []) = "" from rfl,
        show Banamex.matchDayMon3 (Py.upper "") = none from by decide] at hm
      simp at hm
    | cons b0 bs =>
      have hadj := upper_hasAdj _ (matchDayMon3_hasAdj _ _ hm)
      rw [show lineText ((b0 :: bs).headD []) = joinSp (b0.map Word.text)
        from rfl] at hadj
      rcases joinSp_hasAdj_elim _ hadj with ⟨txt, htxt, hptxt⟩
      rcases List.mem_map.mp htxt with ⟨w, hwb0, rfl⟩
      have hwflat : w ∈ (b0 :: bs).flatMap id := by
        rw [List.flatMap_cons]
        exact List.mem_append_left _ hwb0
      have hnum := wordIsNumeric_false w hptxt
      have hdesc := fold_descParts_mem cb ((b0 :: bs).flatMap id) ⟨0, 0, 0, []⟩
        w hwflat hnum
      have hj := joinSp_hasAdj_intro _ w.text hdesc hptxt
      have hDPwf : ∀ t ∈ (((b0 :: bs).flatMap id).foldl (Banamex.classifyWord cb)
          ⟨0, 0, 0, []⟩).descParts, t ≠ "" ∧ ∀ c ∈ t.data, Py.isSpace c = false := by
        intro t ht
        rcases fold_descParts_sources cb _ _ t ht with h0 | ⟨w', hw', rfl⟩
        · exact absurd h0 (List.not_mem_nil t)
        · rcases List.mem_flatMap.mp hw' with ⟨lw, hlw, hw'lw⟩
          exact hwf lw hlw w' hw'lw
      have hDPne : (((b0 :: bs).flatMap id).foldl (Banamex.classifyWord cb)
          ⟨0, 0, 0, []⟩).descParts ≠ [] := by
        intro h
        rw [h] at hdesc
        exact List.not_mem_nil _ hdesc
      have hcd : Py.strip (Banamex.stripDayMon3
          (joinSp (((b0 :: bs).flatMap id).foldl (Banamex.classifyWord cb)
            ⟨0, 0, 0, []⟩).descParts)) ≠ "" := by
        rcases stripDayMon3_nonspace _ (hasAdjP_exists _ _ hj)
            (joinSp_getLast_nonspace _ hDPwf hDPne) with ⟨c, hcmem, hcns⟩
        exact strip_ne_empty _ c hcmem hcns
      unfold Banamex.finalizeBlock
      simp only []
      rw [hm]
      simp only []
      rw [if_pos]
      · simp
      · rw [decide_eq_true hcd]
        simp

lemma headD_append_ne {α : Type} (l : List α) (x d : α) (h : l ≠ []) :
    (l ++ [x]).headD d = l.headD d := by
  cases l with
  | nil => exact absurd rfl h
  | cons a t => rfl

lemma length_filterMap_of_isSome {α β : Type} : ∀ (l : List α) (f : α → Option β),
    (∀ b ∈ l, (f b).isSome = true) → (l.filterMap f).length = l.length := by
  intro l f
  induction l with
  | nil => intro _; rfl
  | cons x t ih =>
    intro h
    rcases hf : f x with _ | y
    · have := h x (List.mem_cons_self _ _)
      rw [hf] at this
      exact absurd this (by simp)
    · rw [List.filterMap_cons, hf]
      simp only [List.length_cons]
      rw [ih (fun b hb => h b (List.mem_cons_of_mem x hb))]


lemma scanLines_inv : ∀ (lines : List (List Word)) (st : Banamex.ScanSt),
    (∀ b ∈ st.blocks,
        (Banamex.matchDayMon3 (Py.upper (lineText (b.headD [])))).isSome = true ∧
        ∀ lw ∈ b, ∀ w ∈ lw,
          w.text ≠ "" ∧ ∀ c ∈ w.text.data, Py.isSpace c = false) →
    (st.cur ≠ [] →
        (Banamex.matchDayMon3 (Py.upper (lineText (st.cur.headD [])))).isSome = true ∧
        ∀ lw ∈ st.cur, ∀ w ∈ lw,
          w.text ≠ "" ∧ ∀ c ∈ w.text.data, Py.isSpace c = false) →
    (∀ lw ∈ lines, ∀ w ∈ lw,
        w.text ≠ "" ∧ ∀ c ∈ w.text.data, Py.isSpace c = false) →
    (∀ b ∈ (Banamex.scanLines st lines).blocks,
        (Banamex.matchDayMon3 (Py.upper (lineText (b.headD [])))).isSome = true ∧
        ∀ lw ∈ b, ∀ w ∈ lw,
          w.text ≠ "" ∧ ∀ c ∈ w.text.data, Py.isSpace c = false) ∧
    ((Banamex.scanLines st lines).cur ≠ [] →
        (Banamex.matchDayMon3
          (Py.upper (lineText ((Banamex.scanLines st lines).cur.headD [])))).isSome
            = true ∧
        ∀ lw ∈ (Banamex.scanLines st lines).cur, ∀ w ∈ lw,
          w.text ≠ "" ∧ ∀ c ∈ w.text.data, Py.isSpace c = false) := by
  intro lines
  induction lines with
  | nil => exact fun st h1 h2 _ => ⟨h1, h2⟩
  | cons lw rest ih =>
    intro st h1 h2 h3
    have hlw := h3 lw (List.mem_cons_self _ _)
    have hrest : ∀ l ∈ rest, ∀ w ∈ l,
        w.text ≠ "" ∧ ∀ c ∈ w.text.data, Py.isSpace c = false :=
      fun l hl => h3 l (List.mem_cons_of_mem _ hl)
    rcases st with ⟨inSec, cur, blocks⟩
    have hIH : ∀ (b1 : Bool) (cur' : List (List Word))
        (blocks' : List (List (List Word))),
        (∀ b ∈ blocks',
            (Banamex.matchDayMon3 (Py.upper (lineText (b.headD [])))).isSome = true ∧
            ∀ lw' ∈ b, ∀ w ∈ lw',
              w.text ≠ "" ∧ ∀ c ∈ w.text.data, Py.isSpace c = false) →
        (cur' ≠ [] →
            (Banamex.matchDayMon3
              (Py.upper (lineText (cur'.headD [])))).isSome = true ∧
            ∀ lw' ∈ cur', ∀ w ∈ lw',
              w.text ≠ "" ∧ ∀ c ∈ w.text.data, Py.isSpace c = false) →
        (∀ b ∈ (Banamex.scanLines ⟨b1, cur', blocks'⟩ rest).blocks,
            (Banamex.matchDayMon3 (Py.upper (lineText (b.headD [])))).isSome = true ∧
            ∀ lw' ∈ b, ∀ w ∈ lw',
              w.text ≠ "" ∧ ∀ c ∈ w.text.data, Py.isSpace c = false) ∧
        ((Banamex.scanLines ⟨b1, cur', blocks'⟩ rest).cur ≠ [] →
            (Banamex.matchDayMon3 (Py.upper
              (lineText ((Banamex.scanLines ⟨b1, cur', blocks'⟩
                rest).cur.headD [])))).isSome = true ∧
            ∀ lw' ∈ (Banamex.scanLines ⟨b1, cur', blocks'⟩ rest).cur, ∀ w ∈ lw',
              w.text ≠ "" ∧ ∀ c ∈ w.text.data, Py.isSpace c = false) :=
      fun b1 cur' blocks' ha hc => ih ⟨b1, cur', blocks'⟩ ha hc hrest
    have hBlocksTagged : ∀ (hcur : cur ≠ []), ∀ b ∈ blocks ++ [cur],
        (Banamex.matchDayMon3 (Py.upper (lineText (b.headD [])))).isSome = true ∧
        ∀ lw' ∈ b, ∀ w ∈ lw',
          w.text ≠ "" ∧ ∀ c ∈ w.text.data, Py.isSpace c = false := by
      intro hcur b hb
      rcases List.mem_append.mp hb with hb' | hb'
      · exact h1 b hb'
      · rw [List.mem_singleton.mp hb']
        exact h2 hcur
    have hCurNew : (Banamex.matchDayMon3 (Py.upper (lineText lw))).isSome = true →
        ([lw] : List (List Word)) ≠ [] →
        (Banamex.matchDayMon3
          (Py.upper (lineText (([lw] : List (List Word)).headD [])))).isSome = true ∧
        ∀ lw' ∈ ([lw] : List (List Word)), ∀ w ∈ lw',
          w.text ≠ "" ∧ ∀ c ∈ w.text.data, Py.isSpace c = false := by
      intro hdm _
      refine ⟨hdm, ?_⟩
      intro lw' hlw' w hw
      rw [List.mem_singleton.mp hlw'] at hw
      exact hlw w hw
    have hCurApp : ∀ (hcur : cur ≠ []), (cur ++ [lw]) ≠ [] →
        (Banamex.matchDayMon3
          (Py.upper (lineText ((cur ++ [lw]).headD [])))).isSome = true ∧
        ∀ lw' ∈ cur ++ [lw], ∀ w ∈ lw',
          w.text ≠ "" ∧ ∀ c ∈ w.text.data, Py.isSpace c = false := by
      intro hcur _
      constructor
      · rw [headD_append_ne cur lw [] hcur]
        exact (h2 hcur).1
      · intro lw' hlw' w hw
        rcases List.mem_append.mp hlw' with h' | h'
        · exact (h2 hcur).2 lw' h' w hw
        · rw [List.mem_singleton.mp h'] at hw
          exact hlw w hw
    rw [Banamex.scanLines]
    simp only []
    by_cases hdet : Py.containsSub (Py.upper (lineText lw)) "DETALLE DE OPERACIONES"
    · simp only [hdet, if_true, Bool.not_true, Bool.false_eq_true, if_false]
      by_cases hstop : Banamex.isStopLine (Py.upper (lineText lw))
      · simp only [hstop, if_true]
        exact ⟨h1, h2⟩
      · simp only [hstop, Bool.false_eq_true, if_false]
        by_cases hdm : (Banamex.matchDayMon3 (Py.upper (lineText lw))).isSome
        · simp only [hdm, if_true]
          by_cases hcur : cur ≠ []
          · rw [if_pos hcur]
            exact hIH true [lw] (blocks ++ [cur]) (hBlocksTagged hcur)
              (hCurNew hdm)
          · rw [if_neg hcur]
            exact hIH true [lw] blocks h1 (hCurNew hdm)
        · simp only [hdm, Bool.false_eq_true, if_false]
          by_cases hcur : cur ≠ []
          · rw [if_pos hcur]
            exact hIH true (cur ++ [lw]) blocks h1 (hCurApp hcur)
          · rw [if_neg hcur]
            exact hIH true cur blocks h1 h2
    · simp only [hdet, Bool.false_eq_true, if_false]
      cases inSec with
      | false =>
        simp only [Bool.not_false, if_true]
        exact hIH false cur blocks h1 h2
      | true =>
        simp only [Bool.not_true, Bool.false_eq_true, if_false]
        by_cases hstop : Banamex.isStopLine (Py.upper (lineText lw))
        · simp only [hstop, if_true]
          exact ⟨h1, h2⟩
        · simp only [hstop, Bool.false_eq_true, if_false]
          by_cases hdm : (Banamex.matchDayMon3 (Py.upper (lineText lw))).isSome
          · simp only [hdm, if_true]
            by_cases hcur : cur ≠ []
            · rw [if_pos hcur]
              exact hIH true [lw] (blocks ++ [cur]) (hBlocksTagged hcur)
                (hCurNew hdm)
            · rw [if_neg hcur]
              exact hIH true [lw] blocks h1 (hCurNew hdm)
          · simp only [hdm, Bool.false_eq_true, if_false]
            by_cases hcur : cur ≠ []
            · rw [if_pos hcur]
              exact hIH true (cur ++ [lw]) blocks h1 (hCurApp hcur)
            · rw [if_neg hcur]
              exact hIH true cur blocks h1 h2

lemma pagesFold_inv : ∀ (pages : List Page)
    (st : Option Banamex.Cols × Banamex.ScanSt),
    (∀ b ∈ st.2.blocks,
        (Banamex.matchDayMon3 (Py.upper (lineText (b.headD [])))).isSome = true ∧
        ∀ lw ∈ b, ∀ w ∈ lw,
          w.text ≠ "" ∧ ∀ c ∈ w.text.data, Py.isSpace c = false) →
    (st.2.cur ≠ [] →
        (Banamex.matchDayMon3 (Py.upper (lineText (st.2.cur.headD [])))).isSome
          = true ∧
        ∀ lw ∈ st.2.cur, ∀ w ∈ lw,
          w.text ≠ "" ∧ ∀ c ∈ w.text.data, Py.isSpace c = false) →
    (∀ p ∈ pages, ∀ w ∈ p.wordsT3,
        w.text ≠ "" ∧ ∀ c ∈ w.text.data, Py.isSpace c = false) →
    (∀ b ∈ (pages.foldl Banamex.pageStep st).2.blocks,
        (Banamex.matchDayMon3 (Py.upper (lineText (b.headD [])))).isSome = true ∧
        ∀ lw ∈ b, ∀ w ∈ lw,
          w.text ≠ "" ∧ ∀ c ∈ w.text.data, Py.isSpace c = false) ∧
    ((pages.foldl Banamex.pageStep st).2.cur ≠ [] →
        (Banamex.matchDayMon3 (Py.upper
          (lineText ((pages.foldl Banamex.pageStep st).2.cur.headD [])))).isSome
            = true ∧
        ∀ lw ∈ (pages.foldl Banamex.pageStep st).2.cur, ∀ w ∈ lw,
          w.text ≠ "" ∧ ∀ c ∈ w.text.data, Py.isSpace c = false) := by
  intro pages
  induction pages with
  | nil => exact fun st h1 h2 _ => ⟨h1, h2⟩
  | cons p ps ih =>
    intro st h1 h2 h3
    rw [List.foldl_cons]
    have hlines : ∀ lw ∈ Banamex.group_words_into_lines p.wordsT3, ∀ w ∈ lw,
        w.text ≠ "" ∧ ∀ c ∈ w.text.data, Py.isSpace c = false := by
      intro lw hlw w hw
      exact h3 p (List.mem_cons_self _ _) w (group_mem p.wordsT3 lw w hlw hw)
    have hstep := scanLines_inv (Banamex.group_words_into_lines p.wordsT3)
      st.2 h1 h2 hlines
    exact ih (Banamex.pageStep st p) hstep.1 hstep.2
      (fun q hq => h3 q (List.mem_cons_of_mem p hq))

/-- C9: every date-anchored block yields a transaction. For the Banamex
parser, under the well-formedness guaranteed by the word extractor (word
texts are nonempty and whitespace-free), a finalized block whose first
line matches the day-month pattern always produces a record — the month
token is non-numeric, lands in the description, and survives the cleanup
— so the emitted transaction count equals the collected block count; the
BBVA debit scanner appends a transaction for every date-matched section
line unconditionally. A block yields nothing only when it has no parsed
date, which never happens for collected blocks (they all start at a
date-matched line). -/
theorem C9_theorem :
    (∀ (cb : Banamex.Cols) (year : String) (block : List (List Word)),
        (∀ lw ∈ block, ∀ w ∈ lw,
            w.text ≠ "" ∧ ∀ c ∈ w.text.data, Py.isSpace c = false) →
        (Banamex.matchDayMon3 (Py.upper (lineText (block.headD [])))).isSome = true →
        (Banamex.finalizeBlock cb year block).isSome = true)
    ∧ (∀ (pages : List Page) (year : String),
        (∀ p ∈ pages, ∀ w ∈ p.wordsT3,
            w.text ≠ "" ∧ ∀ c ∈ w.text.data, Py.isSpace c = false) →
        (Banamex.parse_transactions pages year).length
          = (match (pages.foldl Banamex.pageStep (none, ⟨false, [], []⟩)).1 with
             | none => 0
             | some _ =>
               (if (pages.foldl Banamex.pageStep (none, ⟨false, [], []⟩)).2.cur ≠ []
                then (pages.foldl Banamex.pageStep (none, ⟨false, [], []⟩)).2.blocks
                  ++ [(pages.foldl Banamex.pageStep (none, ⟨false, [], []⟩)).2.cur]
                else (pages.foldl Banamex.pageStep
                  (none, ⟨false, [], []⟩)).2.blocks).length))
    ∧ (∀ (cb : BBVA.Cols) (pw : List Word) (year : String) (txs : List Tx)
         (lw : List Word) (rest : List (List Word)) (d m : String),
        BBVA.is_ignore_line (lineText lw) = false →
        Py.containsSub (lineText lw) "Detalle de Movimientos Realizados" = false →
        Py.containsSub (lineText lw) "Total de Movimientos" = false →
        BBVA.matchDdSlashW3 (lineText lw) = some (d, m) →
        BBVA.debScan cb pw year (true, txs) (lw :: rest)
          = BBVA.debScan cb pw year
              (true, txs ++ [BBVA.mkDebTx cb pw year lw d m]) rest) := by
  refine ⟨finalizeBlock_isSome, ?_, ?_⟩
  · intro pages year hwf
    have hinv := pagesFold_inv pages (none, ⟨false, [], []⟩)
      (fun b hb => absurd hb (List.not_mem_nil b))
      (fun h => absurd rfl h) hwf
    unfold Banamex.parse_transactions
    simp only []
    rcases hocb : (pages.foldl Banamex.pageStep (none, ⟨false, [], []⟩)).1
        with _ | cb
    · simp only [hocb]
      rfl
    · simp only [hocb]
      apply length_filterMap_of_isSome
      intro b hb
      by_cases hcur : (pages.foldl Banamex.pageStep (none, ⟨false, [], []⟩)).2.cur ≠ []
      · rw [if_pos hcur] at hb
        rcases List.mem_append.mp hb with h' | h'
        · exact finalizeBlock_isSome cb year b (hinv.1 b h').2 (hinv.1 b h').1
        · rw [List.mem_singleton.mp h']
          exact finalizeBlock_isSome cb year _ (hinv.2 hcur).2 (hinv.2 hcur).1
      · rw [if_neg hcur] at hb
        exact finalizeBlock_isSome cb year b (hinv.1 b hb).2 (hinv.1 b hb).1
  · intro cb pw year txs lw rest d m hig hdet2 htot hdm
    conv_lhs => rw [BBVA.debScan]
    simp [hig, hdet2, htot, hdm]

/-- C9: witness. The block `[c1TxLine]` under the Banamex header columns
finalizes to a transaction; the one-page document `c1Page` emits exactly
as many transactions as collected blocks; and a concrete date-matched
BBVA debit line appends its transaction. -/
theorem C9_witness :
    (Banamex.finalizeBlock ⟨(100, 140), (200, 240), some (300, 340)⟩ "2024"
        [c1TxLine]).isSome = true
    ∧ (Banamex.parse_transactions [c1Page] "2024").length
        = (match ([c1Page].foldl Banamex.pageStep (none, ⟨false, [], []⟩)).1 with
           | none => 0
           | some _ =>
             (if ([c1Page].foldl Banamex.pageStep (none, ⟨false, [], []⟩)).2.cur ≠ []
              then ([c1Page].foldl Banamex.pageStep (none, ⟨false, [], []⟩)).2.blocks
                ++ [([c1Page].foldl Banamex.pageStep (none, ⟨false, [], []⟩)).2.cur]
              else ([c1Page].foldl Banamex.pageStep
                (none, ⟨false, [], []⟩)).2.blocks).length)
    ∧ BBVA.debScan ⟨(100, 160), (200, 260), (300, 380)⟩ [] "2024" (true, [])
        [[⟨"02/ENE", 10, 20, 110⟩, ⟨"PAGO", 24, 40, 110⟩]]
      = BBVA.debScan ⟨(100, 160), (200, 260), (300, 380)⟩ [] "2024"
          (true, [] ++ [BBVA.mkDebTx ⟨(100, 160), (200, 260), (300, 380)⟩ [] "2024"
            [⟨"02/ENE", 10, 20, 110⟩, ⟨"PAGO", 24, 40, 110⟩] "02" "ENE"]) [] :=
  ⟨C9_theorem.1 ⟨(100, 140), (200, 240), some (300, 340)⟩ "2024" [c1TxLine]
     (by decide) (by decide),
   C9_theorem.2.1 [c1Page] "2024" (by decide),
   C9_theorem.2.2 ⟨(100, 160), (200, 260), (300, 380)⟩ [] "2024" []
     [⟨"02/ENE", 10, 20, 110⟩, ⟨"PAGO", 24, 40, 110⟩] [] "02" "ENE"
     (by with_unfolding_all decide) (by decide) (by decide) (by decide)⟩
